import Mathlib

/-!
# ETS2 DualSense haptics: the per-tick effect loop of `MainCode.cpp`

A shallow embedding of the body of the `while (!exitApp)` loop of `main`
(MainCode.cpp, lines 813-1027) together with `map_value` (lines 583-588).

Conventions of the embedding:

* a finite `float` value is the rational it denotes; every `float` operation
  is the exact operation followed by `f32`, IEEE 754 rounding to nearest (ties
  to even) to binary32 with gradual underflow, and a constant such as `0.1f`
  is `f32 (1 / 10)`. Infinities and NaN are not values of the loop: telemetry
  is finite and no intermediate result reaches `2 ^ 128`;
* `uint8_t` values are natural numbers, `static_cast<uint8_t>` is `castU8`;
* `pulse_timer` starts at 0 and is only ever incremented, it is a `Nat`;
* `std::chrono::steady_clock` time points are seconds in `ℚ`; every call of
  `steady_clock::now()` in the loop body has its own reading in `Clock`;
* `steady_clock` counts nanoseconds; `std::chrono::duration<float>` converts
  the count to `float` and divides by `1e9f` (`duration_seconds`);
* `sin`, the `DS5W_OSTATE_PLAYER_LED_*` constants and the arithmetic type of the
  `truck_dp` block of `scs-telemetry-common.hpp` are not defined by the sources
  and are parameters (`Externals`).
-/

namespace ETS2

/-! ## Data model -/

/-- The lightbar colour `DS5W::Color`: three 8-bit intensities. -/
structure Color where
  r : Nat
  g : Nat
  b : Nat
deriving DecidableEq

/-- Modelled from the spec: the microphone indicator mode (off/on/pulsing),
`DS5W::MicLed` of ds5w.h, which is not among the sources. `OFF` is the value of
a zeroed record. -/
inductive MicLed where
  | OFF
  | ON
  | PULSE
deriving DecidableEq

/-- Modelled from the spec: the player-LED brightness mode,
`DS5W::LedBrightness` of ds5w.h, which is not among the sources. In the
DualSense-Windows library `HIGH` is the enumerator with value 0, the value of a
zeroed record. -/
inductive LedBrightness where
  | LOW
  | MEDIUM
  | HIGH
deriving DecidableEq

/-- Modelled from the spec: the trigger effect mode, `DS5W::TriggerEffectType`
of ds5w.h, which is not among the sources. `NoResitance` is the value of a
zeroed record. -/
inductive TriggerEffectType where
  | NoResitance
  | ContinuousResitance
  | EffectEx
deriving DecidableEq

/-- The player LEDs of the output record (`DS5W::PlayerLeds`). -/
structure PlayerLeds where
  bitmask : Nat
  playerLedFade : Bool
  brightness : LedBrightness
deriving DecidableEq

/-- The left trigger effect, read through the `Continuous` member of the
`DS5W::TriggerEffect` union (the only member the loop writes for it). -/
structure ContinuousTrigger where
  effectType : TriggerEffectType
  startPosition : Nat
  force : Nat
deriving DecidableEq

/-- The right trigger effect, read through the `EffectEx` member of the
`DS5W::TriggerEffect` union (the only member the loop writes for it). -/
structure EffectExTrigger where
  effectType : TriggerEffectType
  startPosition : Nat
  keepEffect : Bool
  beginForce : Nat
  middleForce : Nat
  endForce : Nat
  frequency : Nat
deriving DecidableEq

/-- The output record `DS5W::DS5OutputState` handed to the controller. -/
structure DS5OutputState where
  leftRumble : Nat
  rightRumble : Nat
  microphoneLed : MicLed
  disableLeds : Bool
  playerLeds : PlayerLeds
  lightbar : Color
  leftTriggerEffect : ContinuousTrigger
  rightTriggerEffect : EffectExTrigger
deriving DecidableEq

/-- The output record after `ZeroMemory(&outState, sizeof(DS5OutputState))`. -/
def zeroOutput : DS5OutputState :=
  { leftRumble := 0
    rightRumble := 0
    microphoneLed := MicLed.OFF
    disableLeds := false
    playerLeds := { bitmask := 0, playerLedFade := false, brightness := LedBrightness.HIGH }
    lightbar := { r := 0, g := 0, b := 0 }
    leftTriggerEffect :=
      { effectType := TriggerEffectType.NoResitance, startPosition := 0, force := 0 }
    rightTriggerEffect :=
      { effectType := TriggerEffectType.NoResitance, startPosition := 0, keepEffect := false
        beginForce := 0, middleForce := 0, endForce := 0, frequency := 0 } }

/-- The fields of the telemetry record `scsTelemetryMap_t` that the loop reads. -/
structure Telemetry where
  paused : Bool
  fuelCapacity : ℚ
  engineRpmMax : ℚ
  fuel : ℚ
  speed : ℚ
  engineRpm : ℚ
  userBrake : ℚ
  wearChassis : ℚ
  rotationZ : ℚ
  gear : Int
  retarderBrake : Nat
  parkBrake : Bool
  engineEnabled : Bool
  blinkerLeftOn : Bool
  blinkerRightOn : Bool
  oilPressureWarning : Bool
  waterTemperatureWarning : Bool
  airPressureWarning : Bool
  adblueWarning : Bool
  batteryVoltageWarning : Bool
  fined : Bool
  refuel : Bool

/-- The option set `AppConfig`. -/
structure AppConfig where
  fine_alert : Bool
  park_brake_lightbar : Bool
  retarder_lightbar : Bool
  blinkers_lightbar : Bool
  warnings_mic_led : Bool
  fuel_player_leds : Bool
  refuel_rumble : Bool
  refuel_rumble_multiplier : ℚ
  gear_jolt : Bool
  gear_jolt_multiplier : ℚ
  engine_start_effects : Bool
  engine_start_multiplier : ℚ
  hard_braking_rumble : Bool
  hard_braking_multiplier : ℚ
  body_roll_rumble : Bool
  body_roll_multiplier : ℚ
  brake_trigger_resistance : Bool
  brake_trigger_resistance_multiplier : ℚ
  throttle_trigger_vibration : Bool
  throttle_trigger_vibration_multiplier : ℚ

/-- The defaults of `AppConfig`: everything enabled at multiplier 1. -/
def defaultConfig : AppConfig :=
  { fine_alert := true, park_brake_lightbar := true, retarder_lightbar := true
    blinkers_lightbar := true, warnings_mic_led := true, fuel_player_leds := true
    refuel_rumble := true, refuel_rumble_multiplier := 1
    gear_jolt := true, gear_jolt_multiplier := 1
    engine_start_effects := true, engine_start_multiplier := 1
    hard_braking_rumble := true, hard_braking_multiplier := 1
    body_roll_rumble := true, body_roll_multiplier := 1
    brake_trigger_resistance := true, brake_trigger_resistance_multiplier := 1
    throttle_trigger_vibration := true, throttle_trigger_vibration_multiplier := 1 }

/-- The locals of `main` that live across loop iterations (lines 797-808). -/
structure LoopState where
  pulse_timer : Nat
  previous_speed : ℚ
  previous_engine_state : Bool
  is_in_startup_effect : Bool
  engine_start_time : ℚ
  previous_rpm : ℚ
  previous_gear : Int
  jolt_state : Int
  is_in_fine_effect : Bool
  previous_fined_state : Bool
  fine_effect_start_time : ℚ
deriving DecidableEq

/-- The loop state on entry to the loop (lines 797-808); a default-constructed
time point is the clock's epoch. -/
def initialState : LoopState :=
  { pulse_timer := 0, previous_speed := 0, previous_engine_state := false
    is_in_startup_effect := false, engine_start_time := 0, previous_rpm := 0
    previous_gear := 0, jolt_state := 0, is_in_fine_effect := false
    previous_fined_state := false, fine_effect_start_time := 0 }

/-- The effect flags of `DisplayData` that the loop body sets. -/
structure DisplayData where
  fine_alert_active : Bool
  gear_jolt_active : Bool
  engine_cranking_active : Bool
  startup_lurch_active : Bool
  hard_braking_active : Bool
  body_roll_active : Bool
  refueling_active : Bool
deriving DecidableEq

/-- A freshly constructed `DisplayData`: every flag false. -/
def freshDisplay : DisplayData :=
  { fine_alert_active := false, gear_jolt_active := false, engine_cranking_active := false
    startup_lurch_active := false, hard_braking_active := false, body_roll_active := false
    refueling_active := false }

/-- The readings of `std::chrono::steady_clock::now()` of one loop iteration, in
seconds, one per call site (lines 832, 837, 920 and 932). A reading is only
consulted when its call is reached. -/
structure Clock where
  fine_start_now : ℚ
  fine_elapsed_now : ℚ
  engine_start_now : ℚ
  startup_elapsed_now : ℚ

/-- What the sources use without defining it: the sine function on `float`,
the rounding `round_dp` of the arithmetic type of `truck_dp.rotationZ`
(declared in scs-telemetry-common.hpp: `float` or `double`) and the
`DS5W_OSTATE_PLAYER_LED_*` bit constants of ds5w.h. -/
structure Externals where
  sin : ℚ → ℚ
  round_dp : ℚ → ℚ
  PLAYER_LED_LEFT : Nat
  PLAYER_LED_MIDDLE_LEFT : Nat
  PLAYER_LED_MIDDLE : Nat
  PLAYER_LED_MIDDLE_RIGHT : Nat
  PLAYER_LED_RIGHT : Nat

/-- The loop-invariant RPM band limits computed before the loop (lines 809-811). -/
structure RpmBands where
  low_rpm_end : ℚ
  high_rpm_start : ℚ

/-- Everything one loop iteration works on: the loop state, the output record
being filled in and the display flags. -/
structure Work where
  st : LoopState
  out : DS5OutputState
  display : DisplayData

/-! ## Floating point -/

/-- Rounding of a rational to the nearest integer, a tie going to the even
neighbour. -/
def roundEven (q : ℚ) : ℤ :=
  if q - ⌊q⌋ < 1 / 2 then ⌊q⌋
  else if q - ⌊q⌋ > 1 / 2 then ⌊q⌋ + 1
  else if ⌊q⌋ % 2 = 0 then ⌊q⌋
  else ⌊q⌋ + 1

/-- The binary exponent at which `x` is rounded in a format whose least normal
exponent is `emin`: the exponent of `x`, but not below `emin`. -/
def roundExp (emin : ℤ) (x : ℚ) : ℤ := if x = 0 then emin else max (Int.log 2 |x|) emin

/-- IEEE 754 rounding to nearest, ties to even, of a rational to the binary
format with `t` fraction bits (`t + 1` significant bits) and least normal
exponent `emin`, with gradual underflow below it. Overflow to infinity is not
represented: values are finite. -/
def roundTo (t : ℕ) (emin : ℤ) (x : ℚ) : ℚ :=
  roundEven (x / 2 ^ (roundExp emin x - t)) * 2 ^ (roundExp emin x - t)

/-- Rounding to `float` (binary32). -/
def f32 (x : ℚ) : ℚ := roundTo 23 (-126) x

/-- Rounding to `double` (binary64). -/
def f64 (x : ℚ) : ℚ := roundTo 52 (-1022) x

/-! ## Constants and helpers -/

/-- Line 17: `KMPH_CONVERSION = 3.6f`. -/
def KMPH_CONVERSION : ℚ := f32 (36 / 10)

/-- Line 18: `PI = 3.14159265359f`. -/
def PI : ℚ := f32 (314159265359 / 100000000000)

def IDLE_RPM : ℚ := 550

def FINE_EFFECT_DURATION_S : ℚ := 5

def STARTUP_EFFECT_DURATION_S : ℚ := 15 / 10

/-- Line 824: `time_delta = 0.0166f`. -/
def time_delta : ℚ := f32 (166 / 10000)

/-- The conversion `std::chrono::duration<float>(d).count()` of a
`steady_clock` duration of `d` seconds: the nanosecond count is converted to
`float` and divided by `1e9f`. -/
def duration_seconds (d : ℚ) : ℚ := f32 (f32 (d * 1000000000) / 1000000000)

/-- Lines 809-811: `rpm_range`, `low_rpm_end` and `high_rpm_start`, from the
`engineRpmMax` read before the loop is entered. -/
def rpmBands (engineRpmMax : ℚ) : RpmBands :=
  let rpm_range := f32 (engineRpmMax - IDLE_RPM)
  { low_rpm_end := f32 (IDLE_RPM + f32 (rpm_range * f32 (20 / 100)))
    high_rpm_start := f32 (IDLE_RPM + f32 (rpm_range * f32 (70 / 100))) }

/-- Conversion of a floating value to an integer: truncation toward zero. -/
def truncInt (q : ℚ) : Int := if 0 ≤ q then ⌊q⌋ else ⌈q⌉

/-- The conversion `static_cast<uint8_t>(q)`: truncation toward zero; a value
outside 0..255 (undefined in C++) is reduced modulo 256. -/
def castU8 (q : ℚ) : Nat := (truncInt q % 256).toNat

/-- The function `map_value` (lines 583-588) over exact arithmetic. -/
def map_value (value in_min in_max out_min out_max : ℚ) : ℚ :=
  let value := if value < in_min then in_min else value
  let value := if value > in_max then in_max else value
  if in_max = in_min then out_min
  else (value - in_min) * (out_max - out_min) / (in_max - in_min) + out_min

/-- The function `map_value` (lines 583-588) as it is executed: each of its
five `float` operations rounded. -/
def map_value_f32 (value in_min in_max out_min out_max : ℚ) : ℚ :=
  let value := if value < in_min then in_min else value
  let value := if value > in_max then in_max else value
  if in_max = in_min then out_min
  else f32 (f32 (f32 (f32 (value - in_min) * f32 (out_max - out_min)) / f32 (in_max - in_min))
        + out_min)

/-- The table `led_bitmasks` (lines 789-794); it is only indexed with 0..5. -/
def led_bitmasks (E : Externals) (i : Nat) : Nat :=
  match i with
  | 0 => 0
  | 1 => E.PLAYER_LED_MIDDLE
  | 2 => E.PLAYER_LED_MIDDLE_LEFT ||| E.PLAYER_LED_MIDDLE_RIGHT
  | 3 => E.PLAYER_LED_LEFT ||| E.PLAYER_LED_MIDDLE ||| E.PLAYER_LED_RIGHT
  | 4 => E.PLAYER_LED_LEFT ||| E.PLAYER_LED_MIDDLE_LEFT ||| E.PLAYER_LED_MIDDLE_RIGHT
      ||| E.PLAYER_LED_RIGHT
  | 5 => E.PLAYER_LED_LEFT ||| E.PLAYER_LED_MIDDLE_LEFT ||| E.PLAYER_LED_MIDDLE
      ||| E.PLAYER_LED_MIDDLE_RIGHT ||| E.PLAYER_LED_RIGHT
  | _ => 0

/-- Line 822: `fuel_percentage`. -/
def fuel_percentage (tel : Telemetry) : ℚ :=
  if tel.fuelCapacity > 0 then f32 (f32 (tel.fuel / tel.fuelCapacity) * 100) else 0

/-- Line 823: `current_speed_kmph`. -/
def current_speed_kmph (tel : Telemetry) : ℚ := f32 (tel.speed * KMPH_CONVERSION)

/-- Line 825: `calculated_acceleration`. -/
def calculated_acceleration (tel : Telemetry) (previous_speed : ℚ) : ℚ :=
  f32 (f32 (tel.speed - previous_speed) / time_delta)

/-- Line 876: `num_leds_to_light`. -/
def num_leds_to_light (fuel_percentage : ℚ) : Nat :=
  if fuel_percentage > 80 then 5
  else if fuel_percentage > 60 then 4
  else if fuel_percentage > 40 then 3
  else if fuel_percentage > 20 then 2
  else if fuel_percentage > f32 (1 / 10) then 1
  else 0

/-- The statement `outState.leftRumble = std::max(outState.leftRumble, v)`. -/
@[simp] def Work.maxLeft (w : Work) (v : Nat) : Work :=
  { w with out := { w.out with leftRumble := max w.out.leftRumble v } }

/-- The statement `outState.rightRumble = std::max(outState.rightRumble, v)`. -/
@[simp] def Work.maxRight (w : Work) (v : Nat) : Work :=
  { w with out := { w.out with rightRumble := max w.out.rightRumble v } }

/-! ## The stages of an unpaused iteration, in source order -/

/-- Line 828 on the fresh records of lines 818-820: `pulse_timer++`. -/
def tickStart (s : LoopState) : Work :=
  { st := { s with pulse_timer := s.pulse_timer + 1 }, out := zeroOutput, display := freshDisplay }

/-- Lines 830-833: a change of the fined flag arms the fine alert. -/
def fineEdge (config : AppConfig) (tel : Telemetry) (clk : Clock) (w : Work) : Work :=
  if config.fine_alert = true ∧ tel.fined ≠ w.st.previous_fined_state then
    { w with st := { w.st with is_in_fine_effect := true
                               fine_effect_start_time := clk.fine_start_now } }
  else w

/-- Line 842: `flash_phase = static_cast<int>(elapsed_s / 0.25f) % 8`. -/
def flash_phase (elapsed_s : ℚ) : Int := Int.tmod (truncInt (f32 (elapsed_s / (1 / 4)))) 8

/-- Lines 842-844: the lightbar flash of a running fine alert. -/
def fineLightbar (elapsed_s : ℚ) (w : Work) : Work :=
  if flash_phase elapsed_s = 0 ∨ flash_phase elapsed_s = 2 then
    { w with out := { w.out with lightbar := { w.out.lightbar with r := 255 } } }
  else if flash_phase elapsed_s = 4 ∨ flash_phase elapsed_s = 6 then
    { w with out := { w.out with lightbar := { w.out.lightbar with b := 255 } } }
  else w

/-- Lines 846-853: the alternating rumble of a running fine alert. -/
def fineRumble (w : Work) : Work :=
  if w.st.pulse_timer % 20 < 20 / 2 then w.maxLeft 200 else w.maxRight 200

/-- Lines 842-853: the flash and the rumble of a running fine alert. -/
def fineFlash (elapsed_s : ℚ) (w : Work) : Work :=
  fineRumble (fineLightbar elapsed_s w)

/-- Line 860: the retarder pulse before its conversion to the blue channel;
`pulse_timer` and `retarderBrake` are converted to `float` for the product. -/
def retarder_blue_value (E : Externals) (tel : Telemetry) (pulse_timer : Nat) : ℚ :=
  f32 (f32 (f32 (E.sin (f32 (f32 (f32 (pulse_timer : ℚ) * f32 (1 / 10))
    * f32 (tel.retarderBrake : ℚ))) + 1) / 2) * 255)

/-- Lines 835-867: the fine alert and, in its else-branches, the park brake,
retarder and blinker lightbar rules. -/
def lightbarCascade (E : Externals) (config : AppConfig) (tel : Telemetry) (clk : Clock)
    (w : Work) : Work :=
  if config.fine_alert = true ∧ w.st.is_in_fine_effect = true then
    let w1 : Work := { w with display := { w.display with fine_alert_active := true } }
    let elapsed_s := duration_seconds (clk.fine_elapsed_now - w1.st.fine_effect_start_time)
    if elapsed_s > FINE_EFFECT_DURATION_S then
      { w1 with st := { w1.st with is_in_fine_effect := false } }
    else fineFlash elapsed_s w1
  else if config.park_brake_lightbar = true ∧ tel.parkBrake = true then
    { w with out := { w.out with lightbar := { w.out.lightbar with r := 255 } } }
  else if config.retarder_lightbar = true ∧ tel.engineEnabled = true ∧ tel.retarderBrake > 0 then
    { w with out := { w.out with lightbar := { w.out.lightbar with
        b := castU8 (retarder_blue_value E tel w.st.pulse_timer) } } }
  else if config.blinkers_lightbar = true ∧ tel.engineEnabled = true
      ∧ tel.blinkerLeftOn = true ∧ tel.blinkerRightOn = true then
    { w with out := { w.out with lightbar := { w.out.lightbar with r := 255, g := 255 } } }
  else if config.blinkers_lightbar = true ∧ tel.engineEnabled = true
      ∧ (tel.blinkerLeftOn = true ∨ tel.blinkerRightOn = true) then
    { w with out := { w.out with lightbar := { w.out.lightbar with g := 255 } } }
  else w

/-- Line 869: `is_critical_warning`. -/
def is_critical_warning (tel : Telemetry) : Bool :=
  tel.oilPressureWarning || tel.waterTemperatureWarning || tel.airPressureWarning
    || decide (tel.wearChassis > 25 / 100)

/-- Line 870: `is_minor_warning`. -/
def is_minor_warning (tel : Telemetry) : Bool :=
  tel.adblueWarning || tel.batteryVoltageWarning

/-- Lines 871-873: the warning indicator on the microphone LED. -/
def micLedStage (config : AppConfig) (tel : Telemetry) (w : Work) : Work :=
  if config.warnings_mic_led = true then
    let led : MicLed :=
      if is_critical_warning tel = true then MicLed.PULSE
      else if is_minor_warning tel = true then MicLed.ON
      else w.out.microphoneLed
    { w with out := { w.out with microphoneLed := led } }
  else w

/-- Lines 875-887: the fuel gauge on the player LEDs. -/
def fuelLedStage (E : Externals) (config : AppConfig) (tel : Telemetry) (w : Work) : Work :=
  if config.fuel_player_leds = true then
    let n := num_leds_to_light (fuel_percentage tel)
    let bracket_midpoint : ℚ := (n : ℚ) * 20 - 20 / 2
    let brightness :=
      if n > 0 ∧ fuel_percentage tel < bracket_midpoint then
        (if w.st.pulse_timer % (30 * 2) < 30 then LedBrightness.HIGH else LedBrightness.LOW)
      else LedBrightness.HIGH
    { w with out := { w.out with playerLeds :=
        { w.out.playerLeds with bitmask := led_bitmasks E n, brightness := brightness } } }
  else w

/-- Lines 891-892: `rumble_strength` of the refuel rumble, multiplier applied. -/
def rumble_strength (config : AppConfig) (tel : Telemetry) : ℚ :=
  f32 (map_value_f32 (fuel_percentage tel) 0 100 255 0 * config.refuel_rumble_multiplier)

/-- Lines 889-899: the refuel rumble. -/
def refuelStage (config : AppConfig) (tel : Telemetry) (w : Work) : Work :=
  if config.refuel_rumble = true ∧ tel.refuel = true then
    let w1 : Work := { w with display := { w.display with refueling_active := true } }
    if w1.st.pulse_timer % 16 < 16 / 2 then
      (w1.maxLeft (castU8 (rumble_strength config tel))).maxRight
        (castU8 (rumble_strength config tel))
    else w1
  else w

/-- Lines 901-903: a change between two nonzero gears starts the jolt. -/
def gearJoltEdge (config : AppConfig) (tel : Telemetry) (w : Work) : Work :=
  if config.gear_jolt = true
      ∧ (tel.gear ≠ w.st.previous_gear ∧ tel.gear ≠ 0 ∧ w.st.previous_gear ≠ 0) then
    { w with st := { w.st with jolt_state := 1 } }
  else w

/-- Lines 904-916: the two phases of the gear jolt. -/
def gearJoltOutput (config : AppConfig) (w : Work) : Work :=
  if config.gear_jolt = true ∧ w.st.jolt_state > 0 then
    let w1 : Work := { w with display := { w.display with gear_jolt_active := true } }
    if w1.st.jolt_state = 1 then
      let w2 := (w1.maxLeft (castU8 (f32 (255 * config.gear_jolt_multiplier)))).maxRight
        (castU8 (f32 (100 * config.gear_jolt_multiplier)))
      { w2 with st := { w2.st with jolt_state := 2 } }
    else
      let w2 := (w1.maxLeft (castU8 (f32 (100 * config.gear_jolt_multiplier)))).maxRight
        (castU8 (f32 (255 * config.gear_jolt_multiplier)))
      { w2 with st := { w2.st with jolt_state := 0 } }
  else w

/-- Lines 918-921: the engine turning on starts the startup lurch. -/
def engineStartEdge (config : AppConfig) (tel : Telemetry) (clk : Clock) (w : Work) : Work :=
  if config.engine_start_effects = true ∧ tel.engineEnabled = true
      ∧ w.st.previous_engine_state = false then
    { w with st := { w.st with is_in_startup_effect := true
                               engine_start_time := clk.engine_start_now } }
  else w

/-- Lines 922-928: the engine cranking pulse. -/
def crankingStage (config : AppConfig) (tel : Telemetry) (w : Work) : Work :=
  if config.engine_start_effects = true ∧ tel.engineEnabled = false ∧ tel.engineRpm > 0
      ∧ tel.engineRpm ≥ w.st.previous_rpm then
    let w1 : Work := { w with display := { w.display with engine_cranking_active := true } }
    if w1.st.pulse_timer % 10 < 10 / 2 then
      w1.maxRight (castU8 (f32 (200 * config.engine_start_multiplier)))
    else w1
  else w

/-- Lines 934-935: the startup lurch before its conversion, from the elapsed
time `elapsed_s` read on the tick. -/
def startup_lurch_value (E : Externals) (config : AppConfig) (elapsed_s : ℚ) : ℚ :=
  let progress := f32 (elapsed_s / STARTUP_EFFECT_DURATION_S)
  f32 (f32 (E.sin (f32 (progress * PI)) * 255) * config.engine_start_multiplier)

/-- Lines 929-940: the startup lurch. -/
def startupStage (E : Externals) (config : AppConfig) (clk : Clock) (w : Work) : Work :=
  if config.engine_start_effects = true ∧ w.st.is_in_startup_effect = true then
    let w1 : Work := { w with display := { w.display with startup_lurch_active := true } }
    let elapsed_s := duration_seconds (clk.startup_elapsed_now - w1.st.engine_start_time)
    if elapsed_s < STARTUP_EFFECT_DURATION_S then
      w1.maxLeft (castU8 (startup_lurch_value E config elapsed_s))
    else
      { w1 with st := { w1.st with is_in_startup_effect := false } }
  else w

/-- Line 943: the condition of the hard-braking rumble (inside the engine-on
block). -/
def hardBrakingCond (config : AppConfig) (tel : Telemetry) (previous_speed : ℚ) : Prop :=
  config.hard_braking_rumble = true ∧ tel.userBrake > f32 (8 / 10) ∧ current_speed_kmph tel > 10
    ∧ calculated_acceleration tel previous_speed < -10

instance (config : AppConfig) (tel : Telemetry) (previous_speed : ℚ) :
    Decidable (hardBrakingCond config tel previous_speed) := by
  unfold hardBrakingCond; infer_instance

/-- Lines 952 and 958: `rotationZ * 100`, in the arithmetic type of the
telemetry field. -/
def roll_scaled (E : Externals) (tel : Telemetry) : ℚ := E.round_dp (tel.rotationZ * 100)

/-- Line 952: `roll_abs`, the absolute value converted to `float`. -/
def roll_abs (E : Externals) (tel : Telemetry) : ℚ := f32 |roll_scaled E tel|

/-- Lines 955-956: `pulse_amplitude`, multiplier applied. -/
def pulse_amplitude (E : Externals) (config : AppConfig) (tel : Telemetry) : ℚ :=
  f32 (map_value_f32 (roll_abs E tel) (f32 (1 / 10)) 2 30 255 * config.body_roll_multiplier)

/-- Line 957: the body-roll rumble before its conversion; `pulse_timer` is
converted to `float` for the product. -/
def body_roll_value (E : Externals) (config : AppConfig) (tel : Telemetry)
    (pulse_timer : Nat) : ℚ :=
  f32 (f32 (f32 (E.sin (f32 (f32 (pulse_timer : ℚ) * f32 (2 / 10))) + 1) / 2)
    * pulse_amplitude E config tel)

/-- Lines 943-965: hard braking, else body roll. -/
def brakeRollStage (E : Externals) (config : AppConfig) (tel : Telemetry) (w : Work) : Work :=
  if hardBrakingCond config tel w.st.previous_speed then
    let w1 : Work := { w with display := { w.display with hard_braking_active := true } }
    if w1.st.pulse_timer % 6 < 6 / 2 then
      (w1.maxLeft (castU8 (f32 (255 * config.hard_braking_multiplier)))).maxRight
        (castU8 (f32 (255 * config.hard_braking_multiplier)))
    else w1
  else if config.body_roll_rumble = true ∧ current_speed_kmph tel > 10 then
    if roll_abs E tel > f32 (1 / 10) then
      let w1 : Work := { w with display := { w.display with body_roll_active := true } }
      let final_rumble := castU8 (body_roll_value E config tel w1.st.pulse_timer)
      if roll_scaled E tel > 0 then w1.maxLeft final_rumble else w1.maxRight final_rumble
    else w
  else w

/-- Line 970: the brake-trigger force before its conversion. -/
def brake_force_value (config : AppConfig) (tel : Telemetry) : ℚ :=
  f32 (map_value_f32 (current_speed_kmph tel) 0 90 0 200
    * config.brake_trigger_resistance_multiplier)

/-- Lines 967-971: the brake trigger resistance. -/
def brakeTriggerStage (config : AppConfig) (tel : Telemetry) (w : Work) : Work :=
  if config.brake_trigger_resistance = true then
    { w with out := { w.out with leftTriggerEffect :=
        { effectType := TriggerEffectType.ContinuousResitance
          startPosition := 0
          force := castU8 (brake_force_value config tel) } } }
  else w

/-- Lines 974-976: `vibration_frequency`, multiplier applied. -/
def vibration_frequency (k : RpmBands) (config : AppConfig) (tel : Telemetry) : ℚ :=
  f32 ((if tel.engineRpm ≤ k.low_rpm_end then
      map_value_f32 tel.engineRpm IDLE_RPM k.low_rpm_end 200 0
    else if tel.engineRpm ≥ k.high_rpm_start then
      map_value_f32 tel.engineRpm k.high_rpm_start tel.engineRpmMax 0 255
    else 0) * config.throttle_trigger_vibration_multiplier)

/-- Lines 973-984: the throttle trigger vibration. -/
def throttleTriggerStage (k : RpmBands) (config : AppConfig) (tel : Telemetry) (w : Work) :
    Work :=
  if config.throttle_trigger_vibration = true then
    { w with out := { w.out with rightTriggerEffect :=
        { effectType := TriggerEffectType.EffectEx
          startPosition := 0
          keepEffect := true
          beginForce := 0
          middleForce := 0
          endForce := 0
          frequency := castU8 (vibration_frequency k config tel) } } }
  else w

/-- Lines 942-985: the effects that need the engine on. -/
def engineOnBlock (E : Externals) (k : RpmBands) (config : AppConfig) (tel : Telemetry)
    (w : Work) : Work :=
  if tel.engineEnabled = true then
    throttleTriggerStage k config tel (brakeTriggerStage config tel (brakeRollStage E config tel w))
  else w

/-! ## One loop iteration -/

/-- Lines 828-855 of an unpaused iteration: the counter, the fined edge and the
lightbar cascade with the fine alert. -/
def afterLightbar (E : Externals) (config : AppConfig) (tel : Telemetry) (clk : Clock)
    (s : LoopState) : Work :=
  lightbarCascade E config tel clk (fineEdge config tel clk (tickStart s))

/-- Lines 828-899 of an unpaused iteration: everything before the gear jolt. -/
def beforeGearJolt (E : Externals) (config : AppConfig) (tel : Telemetry) (clk : Clock)
    (s : LoopState) : Work :=
  refuelStage config tel (fuelLedStage E config tel (micLedStage config tel
    (afterLightbar E config tel clk s)))

/-- Lines 828-916 of an unpaused iteration: up to and including the gear jolt. -/
def afterGearJolt (E : Externals) (config : AppConfig) (tel : Telemetry) (clk : Clock)
    (s : LoopState) : Work :=
  gearJoltOutput config (gearJoltEdge config tel (beforeGearJolt E config tel clk s))

/-- Lines 828-985: the body of `if (!telemetry->paused)`. -/
def unpausedBody (E : Externals) (k : RpmBands) (config : AppConfig) (tel : Telemetry)
    (clk : Clock) (s : LoopState) : Work :=
  engineOnBlock E k config tel (startupStage E config clk (crankingStage config tel
    (engineStartEdge config tel clk (afterGearJolt E config tel clk s))))

/-- Lines 1020-1024: the bookkeeping of the previous values, at the end of every
iteration. -/
def storePrevious (tel : Telemetry) (s : LoopState) : LoopState :=
  { s with previous_speed := tel.speed
           previous_engine_state := tel.engineEnabled
           previous_rpm := tel.engineRpm
           previous_gear := tel.gear
           previous_fined_state := tel.fined }

/-- One iteration of the `while (!exitApp)` loop (lines 813-1027): `out` is the
record passed to `DS5W::setDeviceOutputState`, `st` the loop state left for the
next iteration, `display` the effect flags given to the display. -/
def loopBody (E : Externals) (k : RpmBands) (config : AppConfig) (tel : Telemetry)
    (clk : Clock) (s : LoopState) : Work :=
  let w : Work :=
    if tel.paused = false then unpausedBody E k config tel clk s
    else { st := s, out := zeroOutput, display := freshDisplay }
  { w with st := storePrevious tel w.st }

/-! ## Sample inputs -/

/-- Sample externals: a flat sine, `double` arithmetic for `truck_dp` and the
player-LED bits 1, 2, 4, 8, 16. -/
def sampleExternals : Externals :=
  { sin := fun _ => 0, round_dp := f64, PLAYER_LED_LEFT := 1, PLAYER_LED_MIDDLE_LEFT := 2
    PLAYER_LED_MIDDLE := 4, PLAYER_LED_MIDDLE_RIGHT := 8, PLAYER_LED_RIGHT := 16 }

/-- A quiet unpaused snapshot: truck at rest, engine off, neutral, no warnings. -/
def quietTelemetry : Telemetry :=
  { paused := false, fuelCapacity := 0, engineRpmMax := 2500, fuel := 0, speed := 0
    engineRpm := 0, userBrake := 0, wearChassis := 0, rotationZ := 0, gear := 0
    retarderBrake := 0, parkBrake := false, engineEnabled := false, blinkerLeftOn := false
    blinkerRightOn := false, oilPressureWarning := false, waterTemperatureWarning := false
    airPressureWarning := false, adblueWarning := false, batteryVoltageWarning := false
    fined := false, refuel := false }

/-- A clock on which every reading of the iteration is the instant `t`. -/
def clockAt (t : ℚ) : Clock :=
  { fine_start_now := t, fine_elapsed_now := t, engine_start_now := t, startup_elapsed_now := t }

/-- The RPM bands of a truck with `engineRpmMax = 2500`. -/
def sampleBands : RpmBands := rpmBands 2500

/-! ## The effects of a tick, in the words of the specification

These definitions describe a tick from the snapshot, the configuration, the
clock readings and the loop state at the start of the tick; the theorems
compare them with what the loop body computes. -/

/-- A fined edge is seen on this tick: the fine alert is enabled and the fined
flag differs from the previous one. -/
def fineEdgeSeen (config : AppConfig) (tel : Telemetry) (s : LoopState) : Prop :=
  config.fine_alert = true ∧ tel.fined ≠ s.previous_fined_state

instance (config : AppConfig) (tel : Telemetry) (s : LoopState) :
    Decidable (fineEdgeSeen config tel s) := by
  unfold fineEdgeSeen; infer_instance

/-- The start time of the fine alert on this tick: the clock reading taken at
the edge if there is one, else the stored start time. -/
def fineStart (config : AppConfig) (tel : Telemetry) (clk : Clock) (s : LoopState) : ℚ :=
  if fineEdgeSeen config tel s then clk.fine_start_now else s.fine_effect_start_time

/-- The elapsed time of the fine alert as read on this tick: `elapsed_s`, a
`float` number of seconds. -/
def fineElapsed (config : AppConfig) (tel : Telemetry) (clk : Clock) (s : LoopState) : ℚ :=
  duration_seconds (clk.fine_elapsed_now - fineStart config tel clk s)

/-- The fine alert is armed on this tick: enabled, and either already active
or started by an edge on this tick. -/
def fineArmed (config : AppConfig) (tel : Telemetry) (s : LoopState) : Prop :=
  config.fine_alert = true ∧ (tel.fined ≠ s.previous_fined_state ∨ s.is_in_fine_effect = true)

instance (config : AppConfig) (tel : Telemetry) (s : LoopState) :
    Decidable (fineArmed config tel s) := by
  unfold fineArmed; infer_instance

/-- The fine alert is active within its duration on this tick. -/
def fineRunning (config : AppConfig) (tel : Telemetry) (clk : Clock) (s : LoopState) : Prop :=
  fineArmed config tel s ∧ fineElapsed config tel clk s ≤ FINE_EFFECT_DURATION_S

instance (config : AppConfig) (tel : Telemetry) (clk : Clock) (s : LoopState) :
    Decidable (fineRunning config tel clk s) := by
  unfold fineRunning; infer_instance

/-- The flash colour of the fine alert in phase `k` of its 8-phase cycle: red
in phases 0 and 2, blue in phases 4 and 6, off otherwise. -/
def fineFlashColour (k : Int) : Color :=
  if k = 0 ∨ k = 2 then { r := 255, g := 0, b := 0 }
  else if k = 4 ∨ k = 6 then { r := 0, g := 0, b := 255 }
  else { r := 0, g := 0, b := 0 }

/-- The largest of a list of requested intensities, 0 for no request. -/
def maxRequest (l : List Nat) : Nat := l.foldr max 0

/-- The fine alert's request on the left motor: 200 in the first half of its
20-tick cycle while the alert runs. -/
def fineLeftRequest (config : AppConfig) (tel : Telemetry) (clk : Clock) (s : LoopState) :
    List Nat :=
  if fineRunning config tel clk s ∧ (s.pulse_timer + 1) % 20 < 10 then [200] else []

/-- The fine alert's request on the right motor: 200 in the second half of its
20-tick cycle while the alert runs. -/
def fineRightRequest (config : AppConfig) (tel : Telemetry) (clk : Clock) (s : LoopState) :
    List Nat :=
  if fineRunning config tel clk s ∧ ¬ (s.pulse_timer + 1) % 20 < 10 then [200] else []

/-- The refuel rumble's request, the same on both motors: on the first half of
its 16-tick cycle while refuelling. -/
def refuelRequest (config : AppConfig) (tel : Telemetry) (s : LoopState) : List Nat :=
  if config.refuel_rumble = true ∧ tel.refuel = true ∧ (s.pulse_timer + 1) % 16 < 8 then
    [castU8 (rumble_strength config tel)]
  else []

/-- The jolt state that is played on this tick: 1 on a qualifying gear-change
edge, else the stored state. -/
def joltPhase (config : AppConfig) (tel : Telemetry) (s : LoopState) : Int :=
  if config.gear_jolt = true ∧ tel.gear ≠ s.previous_gear ∧ tel.gear ≠ 0 ∧ s.previous_gear ≠ 0
  then 1 else s.jolt_state

/-- The gear jolt's request on the left motor: strong in Phase 1, weak in
Phase 2. -/
def joltLeftRequest (config : AppConfig) (tel : Telemetry) (s : LoopState) : List Nat :=
  if config.gear_jolt = true ∧ joltPhase config tel s > 0 then
    [if joltPhase config tel s = 1 then castU8 (f32 (255 * config.gear_jolt_multiplier))
     else castU8 (f32 (100 * config.gear_jolt_multiplier))]
  else []

/-- The gear jolt's request on the right motor: weak in Phase 1, strong in
Phase 2. -/
def joltRightRequest (config : AppConfig) (tel : Telemetry) (s : LoopState) : List Nat :=
  if config.gear_jolt = true ∧ joltPhase config tel s > 0 then
    [if joltPhase config tel s = 1 then castU8 (f32 (100 * config.gear_jolt_multiplier))
     else castU8 (f32 (255 * config.gear_jolt_multiplier))]
  else []

/-- Engine cranking's request on the right motor: on the first half of its
10-tick cycle while the engine is off and the RPM is positive and not falling. -/
def crankingRequest (config : AppConfig) (tel : Telemetry) (s : LoopState) : List Nat :=
  if config.engine_start_effects = true ∧ tel.engineEnabled = false ∧ tel.engineRpm > 0
      ∧ tel.engineRpm ≥ s.previous_rpm ∧ (s.pulse_timer + 1) % 10 < 5 then
    [castU8 (f32 (200 * config.engine_start_multiplier))]
  else []

/-- An engine-on edge is seen on this tick. -/
def startupEdgeSeen (config : AppConfig) (tel : Telemetry) (s : LoopState) : Prop :=
  config.engine_start_effects = true ∧ tel.engineEnabled = true
    ∧ s.previous_engine_state = false

instance (config : AppConfig) (tel : Telemetry) (s : LoopState) :
    Decidable (startupEdgeSeen config tel s) := by
  unfold startupEdgeSeen; infer_instance

/-- The elapsed time of the startup lurch as read on this tick: `elapsed_s`, a
`float` number of seconds. -/
def startupElapsed (config : AppConfig) (tel : Telemetry) (clk : Clock) (s : LoopState) : ℚ :=
  duration_seconds (clk.startup_elapsed_now
    - (if startupEdgeSeen config tel s then clk.engine_start_now else s.engine_start_time))

/-- The startup lurch's request on the left motor: the half-sine envelope while
the lurch is within its 1.5 s. -/
def startupLeftRequest (E : Externals) (config : AppConfig) (tel : Telemetry) (clk : Clock)
    (s : LoopState) : List Nat :=
  if config.engine_start_effects = true
      ∧ (startupEdgeSeen config tel s ∨ s.is_in_startup_effect = true)
      ∧ startupElapsed config tel clk s < STARTUP_EFFECT_DURATION_S then
    [castU8 (startup_lurch_value E config (startupElapsed config tel clk s))]
  else []

/-- Hard braking's request, the same on both motors: on the first half of its
6-tick cycle while the engine is on and the braking condition holds. -/
def hardBrakingRequest (config : AppConfig) (tel : Telemetry) (s : LoopState) : List Nat :=
  if tel.engineEnabled = true ∧ hardBrakingCond config tel s.previous_speed
      ∧ (s.pulse_timer + 1) % 6 < 3 then
    [castU8 (f32 (255 * config.hard_braking_multiplier))]
  else []

/-- Body roll is active: engine on, no hard braking, enabled, faster than
10 km/h and rolled beyond the deadband. -/
def bodyRollActive (E : Externals) (config : AppConfig) (tel : Telemetry) (s : LoopState) :
    Prop :=
  tel.engineEnabled = true ∧ ¬ hardBrakingCond config tel s.previous_speed
    ∧ config.body_roll_rumble = true ∧ current_speed_kmph tel > 10
    ∧ roll_abs E tel > f32 (1 / 10)

instance (E : Externals) (config : AppConfig) (tel : Telemetry) (s : LoopState) :
    Decidable (bodyRollActive E config tel s) := by
  unfold bodyRollActive; infer_instance

/-- The intensity body roll asks for on this tick. -/
def bodyRollRumble (E : Externals) (config : AppConfig) (tel : Telemetry) (s : LoopState) :
    Nat :=
  castU8 (body_roll_value E config tel (s.pulse_timer + 1))

/-- Body roll's request on the left motor: when rolling the positive way. -/
def bodyRollLeftRequest (E : Externals) (config : AppConfig) (tel : Telemetry)
    (s : LoopState) : List Nat :=
  if bodyRollActive E config tel s ∧ roll_scaled E tel > 0 then [bodyRollRumble E config tel s]
  else []

/-- Body roll's request on the right motor: when rolling the other way. -/
def bodyRollRightRequest (E : Externals) (config : AppConfig) (tel : Telemetry)
    (s : LoopState) : List Nat :=
  if bodyRollActive E config tel s ∧ ¬ roll_scaled E tel > 0 then
    [bodyRollRumble E config tel s]
  else []

/-- The left intensities requested on this tick: fine alert, refuel, gear jolt,
startup lurch, hard braking or body roll. -/
def leftRequests (E : Externals) (config : AppConfig) (tel : Telemetry) (clk : Clock)
    (s : LoopState) : List Nat :=
  fineLeftRequest config tel clk s ++ refuelRequest config tel s ++ joltLeftRequest config tel s
    ++ startupLeftRequest E config tel clk s ++ hardBrakingRequest config tel s
    ++ bodyRollLeftRequest E config tel s

/-- The right intensities requested on this tick: fine alert, refuel, gear
jolt, cranking, hard braking or body roll. -/
def rightRequests (E : Externals) (config : AppConfig) (tel : Telemetry) (clk : Clock)
    (s : LoopState) : List Nat :=
  fineRightRequest config tel clk s ++ refuelRequest config tel s
    ++ joltRightRequest config tel s ++ crankingRequest config tel s
    ++ hardBrakingRequest config tel s ++ bodyRollRightRequest E config tel s

/-- Lines 828-940 of an unpaused iteration: everything before the engine-on
block. -/
def beforeEngineOn (E : Externals) (config : AppConfig) (tel : Telemetry) (clk : Clock)
    (s : LoopState) : Work :=
  startupStage E config clk (crankingStage config tel
    (engineStartEdge config tel clk (afterGearJolt E config tel clk s)))

/-! ## The output fields of a tick, in the words of the specification -/

/-- The warning indicator: pulsing on a critical warning, else on for a minor
warning, else off; off when the option is disabled. -/
def micLedValue (config : AppConfig) (tel : Telemetry) : MicLed :=
  if config.warnings_mic_led = true then
    (if is_critical_warning tel = true then MicLed.PULSE
     else if is_minor_warning tel = true then MicLed.ON
     else MicLed.OFF)
  else MicLed.OFF

/-- The number of LED zones lit by a bitmask: how many of the five player-LED
constants have a bit in common with it. -/
def litZones (E : Externals) (bitmask : Nat) : Nat :=
  ([E.PLAYER_LED_LEFT, E.PLAYER_LED_MIDDLE_LEFT, E.PLAYER_LED_MIDDLE, E.PLAYER_LED_MIDDLE_RIGHT,
    E.PLAYER_LED_RIGHT].filter (fun c => bitmask &&& c != 0)).length

/-- The fuel gauge blinks: at least one zone is lit and the percentage is in
the lower half of its 20-point zone. -/
def fuelBlinks (tel : Telemetry) : Prop :=
  num_leds_to_light (fuel_percentage tel) > 0
    ∧ fuel_percentage tel < (num_leds_to_light (fuel_percentage tel) : ℚ) * 20 - 10

instance (tel : Telemetry) : Decidable (fuelBlinks tel) := by
  unfold fuelBlinks; infer_instance

/-- The brightness of the fuel gauge at counter value `t`: while blinking, high
on the first 30 ticks of every 60 and low on the other 30; else high. -/
def fuelBrightness (tel : Telemetry) (t : Nat) : LedBrightness :=
  if fuelBlinks tel then (if t % 60 < 30 then LedBrightness.HIGH else LedBrightness.LOW)
  else LedBrightness.HIGH

/-- The player LEDs: the fuel gauge when enabled, else as zeroed. -/
def playerLedsValue (E : Externals) (config : AppConfig) (tel : Telemetry) (s : LoopState) :
    PlayerLeds :=
  if config.fuel_player_leds = true then
    { bitmask := led_bitmasks E (num_leds_to_light (fuel_percentage tel))
      playerLedFade := false
      brightness := fuelBrightness tel (s.pulse_timer + 1) }
  else zeroOutput.playerLeds

/-- The left trigger: continuous resistance from position 0 while the engine is
on and the option is enabled, else as zeroed. -/
def leftTriggerValue (config : AppConfig) (tel : Telemetry) : ContinuousTrigger :=
  if tel.engineEnabled = true ∧ config.brake_trigger_resistance = true then
    { effectType := TriggerEffectType.ContinuousResitance, startPosition := 0
      force := castU8 (brake_force_value config tel) }
  else zeroOutput.leftTriggerEffect

/-- The right trigger: the vibration effect while the engine is on and the
option is enabled, else as zeroed. -/
def rightTriggerValue (k : RpmBands) (config : AppConfig) (tel : Telemetry) :
    EffectExTrigger :=
  if tel.engineEnabled = true ∧ config.throttle_trigger_vibration = true then
    { effectType := TriggerEffectType.EffectEx, startPosition := 0, keepEffect := true
      beginForce := 0, middleForce := 0, endForce := 0
      frequency := castU8 (vibration_frequency k config tel) }
  else zeroOutput.rightTriggerEffect

/-! ## The lightbar cascade, in the words of the specification -/

/-- The park-brake rule applies. -/
def parkBrakeRule (config : AppConfig) (tel : Telemetry) : Prop :=
  config.park_brake_lightbar = true ∧ tel.parkBrake = true

instance (config : AppConfig) (tel : Telemetry) : Decidable (parkBrakeRule config tel) := by
  unfold parkBrakeRule; infer_instance

/-- The retarder rule applies: engine on and retarder level above 0. -/
def retarderRule (config : AppConfig) (tel : Telemetry) : Prop :=
  config.retarder_lightbar = true ∧ tel.engineEnabled = true ∧ tel.retarderBrake > 0

instance (config : AppConfig) (tel : Telemetry) : Decidable (retarderRule config tel) := by
  unfold retarderRule; infer_instance

/-- The hazard rule applies: engine on and both blinkers on. -/
def hazardRule (config : AppConfig) (tel : Telemetry) : Prop :=
  config.blinkers_lightbar = true ∧ tel.engineEnabled = true
    ∧ tel.blinkerLeftOn = true ∧ tel.blinkerRightOn = true

instance (config : AppConfig) (tel : Telemetry) : Decidable (hazardRule config tel) := by
  unfold hazardRule; infer_instance

/-- The single-blinker rule applies: engine on and a blinker on. -/
def blinkerRule (config : AppConfig) (tel : Telemetry) : Prop :=
  config.blinkers_lightbar = true ∧ tel.engineEnabled = true
    ∧ (tel.blinkerLeftOn = true ∨ tel.blinkerRightOn = true)

instance (config : AppConfig) (tel : Telemetry) : Decidable (blinkerRule config tel) := by
  unfold blinkerRule; infer_instance

/-- The colour the fine-alert rule gives: the flash colour of the current phase
within the duration, nothing once the duration is exceeded. -/
def fineRuleColour (config : AppConfig) (tel : Telemetry) (clk : Clock) (s : LoopState) :
    Color :=
  if fineElapsed config tel clk s > FINE_EFFECT_DURATION_S then { r := 0, g := 0, b := 0 }
  else fineFlashColour (flash_phase (fineElapsed config tel clk s))

/-- The rules of the lightbar in priority order, each with its condition and
the colour it sets: fine alert, park brake, retarder pulse, hazard, blinker. -/
def lightbarRules (E : Externals) (config : AppConfig) (tel : Telemetry) (clk : Clock)
    (s : LoopState) : List (Bool × Color) :=
  [ (decide (fineArmed config tel s), fineRuleColour config tel clk s),
    (decide (parkBrakeRule config tel), { r := 255, g := 0, b := 0 }),
    (decide (retarderRule config tel),
      { r := 0, g := 0, b := castU8 (retarder_blue_value E tel (s.pulse_timer + 1)) }),
    (decide (hazardRule config tel), { r := 255, g := 255, b := 0 }),
    (decide (blinkerRule config tel), { r := 0, g := 255, b := 0 }) ]

/-- First match wins: the colour of the first rule whose condition holds,
(0,0,0) when none holds. -/
def firstMatch : List (Bool × Color) → Color
  | [] => { r := 0, g := 0, b := 0 }
  | (c, colour) :: rest => if c = true then colour else firstMatch rest

/-! ## Conversions to 8 bits -/

/-- A value fits its 8-bit channel: it lies strictly between -1 and 256, so its
truncation toward zero is one of 0..255 and the conversion does not wrap. -/
def fitsU8 (v : ℚ) : Prop := -1 < v ∧ v < 256

/-! ## The throttle ramps, in the words of the specification -/

/-- Parked with the engine running: parking brake engaged, retarder at level 2
and both blinkers on. -/
def parkedHazards : Telemetry :=
  { quietTelemetry with parkBrake := true, engineEnabled := true, retarderBrake := 2,
                        blinkerLeftOn := true, blinkerRightOn := true }

/-- A tank of 100 litres holding 5: fuel percentage 5, in the lower half of the
first zone. -/
def lowFuel : Telemetry := { quietTelemetry with fuelCapacity := 100, fuel := 5 }

/-- A tank of 100 litres holding 60: the quotient 0.6 is not a binary32 number
and the percentage the loop computes is 60.000003814697265625. -/
def sixtyOfHundred : Telemetry := { quietTelemetry with fuelCapacity := 100, fuel := 60 }

/-- Braking hard from 20 m/s (72 km/h) with the engine on, the pedal at 0.875,
while the body is rolled by 1/64. -/
def hardStop : Telemetry :=
  { quietTelemetry with engineEnabled := true, speed := 20, userBrake := 7 / 8,
                        rotationZ := 1 / 64 }
/-! ## Runs of the loop, the display copy and the config parser -/

/-- The loop state after `n` iterations of the `while (!exitApp)` loop started
in state `s`, iteration `i` reading the snapshot `tels i` and the clock
`clks i`. -/
def runLoop (E : Externals) (k : RpmBands) (config : AppConfig) (tels : Nat → Telemetry)
    (clks : Nat → Clock) (s : LoopState) : Nat → LoopState
  | 0 => s
  | n + 1 => (loopBody E k config (tels n) (clks n) (runLoop E k config tels clks s n)).st

/-- Line 1006: `display_data.fined = display_data.fine_alert_active`. -/
def DisplayData.fined (d : DisplayData) : Bool := d.fine_alert_active

/-- A value of type `float` as `std::stof` can return it: a finite number, an
infinity or a NaN. -/
inductive FloatValue where
  | finite (q : ℚ)
  | infinity (negative : Bool)
  | nan
deriving DecidableEq

/-- The comparison `a < b` of two `float` values; it is false when either is a
NaN. -/
def FloatValue.lt : FloatValue → FloatValue → Bool
  | FloatValue.finite x, FloatValue.finite y => decide (x < y)
  | FloatValue.finite _, FloatValue.infinity negative => !negative
  | FloatValue.infinity negative, FloatValue.finite _ => negative
  | FloatValue.infinity n1, FloatValue.infinity n2 => n1 && !n2
  | FloatValue.nan, _ => false
  | FloatValue.finite _, FloatValue.nan => false
  | FloatValue.infinity _, FloatValue.nan => false

/-- What the config parser takes from the C++ standard library. `isspace` is
`std::isspace`. `stof t` is the outcome of `std::stof(t, &idx)`: `none` when it
throws (no conversion could be performed, or the value is out of the range of
`float`), else the `float` converted from the longest prefix of `t` that
`strtof` accepts, and the number `idx` of characters consumed. Besides decimal
and hexadecimal numbers `strtof` accepts "inf", "infinity" and "nan", in any
case and with a sign, and converts them to an infinity and to a NaN. -/
structure TextExternals where
  isspace : Char → Bool
  stof : List Char → Option (FloatValue × Nat)

/-- The function `trim_copy` (lines 93-99): the string without its leading and
trailing whitespace. -/
def trim_copy (X : TextExternals) (s : List Char) : List Char :=
  (s.dropWhile X.isspace).rdropWhile X.isspace

/-- The function `clamp01` (lines 453-455):
`(v < 0.0f) ? 0.0f : (v > 1.0f) ? 1.0f : v`. -/
def clamp01 (v : FloatValue) : FloatValue :=
  if v.lt (FloatValue.finite 0) = true then FloatValue.finite 0
  else if (FloatValue.finite 1).lt v = true then FloatValue.finite 1
  else v

/-- The function `try_parse_float` (lines 457-471): `none` for `false`, which
leaves `out` as it is, and `some v` for `true` with `out = v`. -/
def try_parse_float (X : TextExternals) (raw : List Char) : Option FloatValue :=
  let t := trim_copy X raw
  if t.isEmpty then none
  else
    match X.stof t with
    | none => none
    | some (v, idx) =>
      let idx := idx + ((t.drop idx).takeWhile X.isspace).length
      if idx ≠ t.length then none else some v

/-- The function `parse_bool_or_multiplier` (lines 473-481): the pair of
`enabled` and `multiplier` it leaves. -/
def parse_bool_or_multiplier (X : TextExternals) (raw : List Char) (enabled : Bool)
    (multiplier : FloatValue) : Bool × FloatValue :=
  match try_parse_float X raw with
  | some f =>
    let multiplier := clamp01 f
    ((FloatValue.finite 0).lt multiplier, multiplier)
  | none => (enabled, multiplier)
/-! ## Sample inputs for runs, warnings and the parser -/

/-- The loop state of a running fine alert that started at time 0. -/
def fineActiveState : LoopState := { initialState with is_in_fine_effect := true }

/-- Everything at its default except the gear jolt at multiplier `0.7f`. -/
def joltAtSeventy : AppConfig := { defaultConfig with gear_jolt_multiplier := f32 (7 / 10) }

/-- A quiet snapshot in gear 4. -/
def inGearFour : Telemetry := { quietTelemetry with gear := 4 }

/-- The initial loop state after a tick in gear 3. -/
def fromGearThree : LoopState := { initialState with previous_gear := 3 }

/-- A quiet snapshot with the parking brake engaged. -/
def parkedQuiet : Telemetry := { quietTelemetry with parkBrake := true }

/-- The default configuration with the engine-start multiplier at `0.7f`. -/
def crankAtSeventy : AppConfig := { defaultConfig with engine_start_multiplier := f32 (7 / 10) }

/-- Driving at 9 m/s with the engine on: the speed the loop computes is
32.399997711181640625 km/h. -/
def cruising : Telemetry := { quietTelemetry with engineEnabled := true, speed := 9 }

/-- A truck with a maximum of 2500 RPM at 2400 RPM, engine on. -/
def nearRedline : Telemetry := { quietTelemetry with engineEnabled := true, engineRpm := 2400 }

/-- A truck with a maximum of 3000 RPM at 2200 RPM, engine on. -/
def otherTruck : Telemetry :=
  { quietTelemetry with engineEnabled := true, engineRpmMax := 3000, engineRpm := 2200 }

/-- A truck with a maximum of 564 RPM at that maximum, engine on. -/
def shortRange : Telemetry :=
  { quietTelemetry with engineEnabled := true, engineRpmMax := 564, engineRpm := 564 }

/-- A truck with a maximum of 759 RPM at 591.79998779296875 RPM, the end of
its soft zone, engine on. -/
def softZoneEnd : Telemetry :=
  { quietTelemetry with engineEnabled := true, engineRpmMax := 759
                        engineRpm := 9696051 / 16384 }

/-- Externals with an arch in the place of the sine: the parabola through 0 at
0 and at 3 with the maximum 1, and 0 elsewhere. -/
def archExternals : Externals :=
  { sampleExternals with sin := fun x => if 0 ≤ x ∧ x ≤ 3 then x * (3 - x) * (4 / 9) else 0 }

/-- A truck with a maximum of 550 RPM, the idle RPM, at 500 RPM, engine on. -/
def zeroRangeLow : Telemetry :=
  { quietTelemetry with engineEnabled := true, engineRpmMax := 550, engineRpm := 500 }

/-- A truck with a maximum of 550 RPM, the idle RPM, at 600 RPM, engine on. -/
def zeroRangeHigh : Telemetry :=
  { quietTelemetry with engineEnabled := true, engineRpmMax := 550, engineRpm := 600 }

/-- The starter turning the engine: engine reported off at 300 RPM. -/
def crankingTelemetry : Telemetry := { quietTelemetry with engineRpm := 300 }

/-- Oil pressure warning on, adblue warning on as well. -/
def oilWarning : Telemetry :=
  { quietTelemetry with oilPressureWarning := true, adblueWarning := true }

/-- Chassis wear of exactly 0.25 with the battery voltage warning on. -/
def wornChassis : Telemetry :=
  { quietTelemetry with wearChassis := 1 / 4, batteryVoltageWarning := true }

/-- Sample text externals: the whitespace of the C locale (space and the
characters 9 to 13) and `std::stof` on a handful of strings: it converts all of
"0.5", "2", "-1", "0", "nan" and "inf", the first character of "1abc", and
throws on every other string, as `std::stof` does on "true" and "on". -/
def sampleText : TextExternals :=
  { isspace := fun c => decide (c.toNat = 32 ∨ (9 ≤ c.toNat ∧ c.toNat ≤ 13))
    stof := fun t =>
      if t = "0.5".toList then some (FloatValue.finite (1 / 2), 3)
      else if t = "2".toList then some (FloatValue.finite 2, 1)
      else if t = "-1".toList then some (FloatValue.finite (-1), 2)
      else if t = "0".toList then some (FloatValue.finite 0, 1)
      else if t = "nan".toList then some (FloatValue.nan, 3)
      else if t = "inf".toList then some (FloatValue.infinity false, 3)
      else if t = "1abc".toList then some (FloatValue.finite 1, 1)
      else none }

/-! ## Rounding to the nearest integer and to a binary format -/

/-- The rounded integer is within a half of the number, and even at a tie. -/
theorem roundEven_spec (q : ℚ) :
    |q - roundEven q| < 1 / 2 ∨ (|q - roundEven q| = 1 / 2 ∧ roundEven q % 2 = 0) := by
  have h0 : (0 : ℚ) ≤ q - ⌊q⌋ := sub_nonneg.mpr (Int.floor_le q)
  have h1 : q - ⌊q⌋ < 1 := by linarith [Int.lt_floor_add_one q]
  unfold roundEven
  split_ifs with ha hb hc
  · left; rw [abs_of_nonneg h0]; exact ha
  · left
    push_cast
    rw [abs_lt]; constructor <;> linarith
  · right
    have heq : q - ⌊q⌋ = 1 / 2 := le_antisymm (not_lt.mp hb) (not_lt.mp ha)
    exact ⟨by rw [abs_of_nonneg h0]; exact heq, hc⟩
  · right
    have heq : q - ⌊q⌋ = 1 / 2 := le_antisymm (not_lt.mp hb) (not_lt.mp ha)
    refine ⟨?_, by omega⟩
    push_cast
    rw [show q - ((⌊q⌋ : ℚ) + 1) = -(1 / 2) by linarith]
    norm_num

/-- The integer within a half of a number, even at a tie, is its rounding. -/
theorem roundEven_unique (q : ℚ) (n : ℤ)
    (h : |q - n| < 1 / 2 ∨ (|q - n| = 1 / 2 ∧ n % 2 = 0)) : roundEven q = n := by
  have hs := roundEven_spec q
  -- the two integers differ by less than 2, and by 1 only at a tie with both even
  have hd : |((roundEven q : ℤ) : ℚ) - n| ≤ |q - roundEven q| + |q - n| := by
    have : ((roundEven q : ℤ) : ℚ) - n = (q - n) - (q - roundEven q) := by ring
    rw [this]
    exact (abs_sub _ _).trans (by rw [add_comm])
  by_contra hne
  have hne1 : (1 : ℚ) ≤ |((roundEven q : ℤ) : ℚ) - n| := by
    have : (1 : ℤ) ≤ |roundEven q - n| := Int.one_le_abs (sub_ne_zero.mpr hne)
    have h2 : ((1 : ℤ) : ℚ) ≤ ((|roundEven q - n| : ℤ) : ℚ) := by exact_mod_cast this
    simpa using h2
  rcases hs with hs | ⟨hs, hse⟩ <;> rcases h with h | ⟨h, he⟩
  · linarith
  · linarith
  · linarith
  · -- both ties: the integers are q - 1/2 and q + 1/2, of different parity
    have hsum : |((roundEven q : ℤ) : ℚ) - n| = 1 := le_antisymm (by linarith) hne1
    have hint : |roundEven q - n| = 1 := by
      have : ((|roundEven q - n| : ℤ) : ℚ) = ((1 : ℤ) : ℚ) := by
        push_cast; exact hsum
      exact_mod_cast this
    rcases (abs_eq (by norm_num : (0 : ℤ) ≤ 1)).mp hint with h1 | h1 <;> omega

/-- An integer rounds to itself. -/
theorem roundEven_intCast (n : ℤ) : roundEven (n : ℚ) = n :=
  roundEven_unique _ n (Or.inl (by simp))

/-- Rounding commutes with negation. -/
theorem roundEven_neg (q : ℚ) : roundEven (-q) = -roundEven q := by
  apply roundEven_unique
  have hs := roundEven_spec q
  have e : |(-q) - ((-roundEven q : ℤ) : ℚ)| = |q - roundEven q| := by
    push_cast
    rw [show -q - -(roundEven q : ℚ) = -(q - roundEven q) by ring, abs_neg]
  rw [e]
  rcases hs with hs | ⟨hs, hse⟩
  · exact Or.inl hs
  · exact Or.inr ⟨hs, by omega⟩

/-- Rounding is monotone. -/
theorem roundEven_mono {a b : ℚ} (h : a ≤ b) : roundEven a ≤ roundEven b := by
  by_contra hlt
  have hlt : roundEven b + 1 ≤ roundEven a := by omega
  have hq : ((roundEven b : ℤ) : ℚ) + 1 ≤ roundEven a := by exact_mod_cast hlt
  have ha := roundEven_spec a
  have hb := roundEven_spec b
  have ha1 : (roundEven a : ℚ) - 1 / 2 ≤ a := by
    rcases ha with ha | ⟨ha, _⟩
    · have := (abs_lt.mp ha).1; linarith
    · have := abs_le.mp ha.le; linarith [this.1]
  have hb1 : b ≤ (roundEven b : ℚ) + 1 / 2 := by
    rcases hb with hb | ⟨hb, _⟩
    · have := (abs_lt.mp hb).2; linarith
    · have := abs_le.mp hb.le; linarith [this.2]
  -- a = b at the common midpoint, so both are ties with distinct even values 1 apart
  have hab : a = b := by linarith
  have haeq : |a - roundEven a| = 1 / 2 := by
    have h1 : a - roundEven a = -(1 / 2) := by linarith
    rw [h1]; norm_num
  have hbeq : |b - roundEven b| = 1 / 2 := by
    have h1 : b - roundEven b = 1 / 2 := by linarith
    rw [h1]; norm_num
  have hae : roundEven a % 2 = 0 := by
    rcases ha with ha | ⟨_, hae⟩
    · rw [haeq] at ha; exact absurd ha (lt_irrefl _)
    · exact hae
  have hbe : roundEven b % 2 = 0 := by
    rcases hb with hb | ⟨_, hbe⟩
    · rw [hbeq] at hb; exact absurd hb (lt_irrefl _)
    · exact hbe
  have h1 : (roundEven a : ℚ) = roundEven b + 1 := by linarith
  have h2 : roundEven a = roundEven b + 1 := by exact_mod_cast h1
  omega

theorem two_zpow_pos (k : ℤ) : (0 : ℚ) < 2 ^ k := zpow_pos (by norm_num) k

theorem two_zpow_le {a b : ℤ} (h : a ≤ b) : (2 : ℚ) ^ a ≤ 2 ^ b :=
  zpow_le_zpow_right₀ (by norm_num) h

/-- Zero rounds to zero. -/
theorem roundEven_zero : roundEven 0 = 0 := by
  have := roundEven_intCast 0
  simpa using this

theorem roundExp_neg (emin : ℤ) (x : ℚ) : roundExp emin (-x) = roundExp emin x := by
  simp [roundExp]

theorem roundExp_ge (emin : ℤ) (x : ℚ) : emin ≤ roundExp emin x := by
  unfold roundExp
  split_ifs
  · exact le_refl _
  · exact le_max_right _ _

theorem roundExp_of_ne (emin : ℤ) (x : ℚ) (h : x ≠ 0) :
    roundExp emin x = max (Int.log 2 |x|) emin := by
  unfold roundExp
  rw [if_neg h]

/-- A number is below the power of two after its rounding exponent. -/
theorem lt_zpow_roundExp (emin : ℤ) (x : ℚ) : |x| < 2 ^ (roundExp emin x + 1) := by
  rcases eq_or_ne x 0 with h0 | h0
  · rw [h0, abs_zero]; exact two_zpow_pos _
  · have h := Int.lt_zpow_succ_log_self (R := ℚ) (b := 2) (by norm_num) |x|
    have h2 : ((2 : ℕ) : ℚ) ^ (Int.log 2 |x| + 1) ≤ 2 ^ (roundExp emin x + 1) := by
      rw [Nat.cast_ofNat]
      exact two_zpow_le (by
        rw [roundExp_of_ne emin x h0]; have := le_max_left (Int.log 2 |x|) emin; omega)
    exact lt_of_lt_of_le h h2

/-- Above the underflow threshold a number is at least the power of two of its
rounding exponent. -/
theorem zpow_roundExp_le (emin : ℤ) (x : ℚ) (h : emin < roundExp emin x) :
    2 ^ roundExp emin x ≤ |x| := by
  have h0 : x ≠ 0 := by
    intro h0
    rw [h0] at h
    simp [roundExp] at h
  rw [roundExp_of_ne emin x h0] at h ⊢
  have hlog : max (Int.log 2 |x|) emin = Int.log 2 |x| := by
    rcases max_cases (Int.log 2 |x|) emin with ⟨h1, _⟩ | ⟨h1, _⟩
    · exact h1
    · rw [h1] at h; exact absurd h (lt_irrefl _)
  rw [hlog]
  have := Int.zpow_log_le_self (R := ℚ) (b := 2) (by norm_num) (abs_pos.mpr h0)
  rwa [Nat.cast_ofNat] at this

/-- The rounding exponent of a number between two consecutive powers of two. -/
theorem roundExp_eq (emin : ℤ) (x : ℚ) (e : ℤ) (he : emin ≤ e) (h1 : 2 ^ e ≤ |x|)
    (h2 : |x| < 2 ^ (e + 1)) : roundExp emin x = e := by
  have hx : 0 < |x| := lt_of_lt_of_le (two_zpow_pos e) h1
  have a : e ≤ Int.log 2 |x| := by
    rw [← Int.zpow_le_iff_le_log (by norm_num) hx, Nat.cast_ofNat]; exact h1
  have b : Int.log 2 |x| < e + 1 := by
    rw [← Int.lt_zpow_iff_log_lt (by norm_num) hx, Nat.cast_ofNat]; exact h2
  rw [roundExp_of_ne emin x (abs_pos.mp hx), max_eq_left (by omega)]
  omega

/-- The rounding exponent of a number below twice the least normal number. -/
theorem roundExp_eq_emin (emin : ℤ) (x : ℚ) (h2 : |x| < 2 ^ (emin + 1)) :
    roundExp emin x = emin := by
  rcases eq_or_ne x 0 with h0 | h0
  · simp [roundExp, h0]
  · have hx : 0 < |x| := abs_pos.mpr h0
    have b : Int.log 2 |x| < emin + 1 := by
      rw [← Int.lt_zpow_iff_log_lt (by norm_num) hx, Nat.cast_ofNat]; exact h2
    rw [roundExp_of_ne emin x h0]
    exact max_eq_right (by omega)

/-- The rounding exponent grows with the magnitude. -/
theorem roundExp_mono (emin : ℤ) {x y : ℚ} (h : |x| ≤ |y|) :
    roundExp emin x ≤ roundExp emin y := by
  rcases eq_or_ne x 0 with h0 | h0
  · rw [h0]
    simp only [roundExp, if_true]
    exact roundExp_ge emin y
  · have hy : y ≠ 0 := by
      intro hy
      rw [hy, abs_zero] at h
      exact h0 (abs_eq_zero.mp (le_antisymm h (abs_nonneg x)))
    rw [roundExp_of_ne emin x h0, roundExp_of_ne emin y hy]
    exact max_le_max (Int.log_mono_right (abs_pos.mpr h0) h) (le_refl _)

/-! ### Rounding to a binary format -/

theorem roundTo_zero (t : ℕ) (emin : ℤ) : roundTo t emin 0 = 0 := by
  simp [roundTo, roundEven_zero]

/-- Rounding commutes with negation. -/
theorem roundTo_neg (t : ℕ) (emin : ℤ) (x : ℚ) : roundTo t emin (-x) = -roundTo t emin x := by
  unfold roundTo
  rw [roundExp_neg, neg_div, roundEven_neg]
  push_cast
  ring

/-- Rounding keeps the sign. -/
theorem roundTo_nonneg (t : ℕ) (emin : ℤ) {x : ℚ} (h : 0 ≤ x) : 0 ≤ roundTo t emin x := by
  unfold roundTo
  apply mul_nonneg _ (two_zpow_pos _).le
  have : roundEven 0 ≤ roundEven (x / 2 ^ (roundExp emin x - t)) :=
    roundEven_mono (div_nonneg h (two_zpow_pos _).le)
  rw [roundEven_zero] at this
  exact_mod_cast this

/-- A rounded positive number is at most the next power of two. -/
theorem roundTo_le_zpow (t : ℕ) (emin : ℤ) {x : ℚ} (h : 0 ≤ x) :
    roundTo t emin x ≤ 2 ^ (roundExp emin x + 1) := by
  unfold roundTo
  have hlt := lt_zpow_roundExp emin x
  rw [abs_of_nonneg h] at hlt
  have hu := two_zpow_pos (roundExp emin x - t)
  have hq : x / 2 ^ (roundExp emin x - (t : ℤ)) ≤ ((2 ^ (t + 1) : ℤ) : ℚ) := by
    rw [div_le_iff₀ hu]
    push_cast
    have : (2 : ℚ) ^ (t + 1) * 2 ^ (roundExp emin x - (t : ℤ)) = 2 ^ (roundExp emin x + 1) := by
      rw [← zpow_natCast, ← zpow_add₀ (by norm_num)]
      congr 1
      push_cast
      ring
    rw [this]
    exact hlt.le
  have hr := roundEven_mono hq
  rw [roundEven_intCast] at hr
  have hr' : ((roundEven (x / 2 ^ (roundExp emin x - (t : ℤ))) : ℤ) : ℚ) ≤ 2 ^ (t + 1) := by
    exact_mod_cast hr
  calc (roundEven (x / 2 ^ (roundExp emin x - (t : ℤ))) : ℚ) * 2 ^ (roundExp emin x - (t : ℤ))
      ≤ 2 ^ (t + 1) * 2 ^ (roundExp emin x - (t : ℤ)) := mul_le_mul_of_nonneg_right hr' hu.le
    _ = 2 ^ (roundExp emin x + 1) := by
      rw [← zpow_natCast, ← zpow_add₀ (by norm_num)]
      congr 1
      push_cast
      ring

/-- A rounded normal positive number is at least the power of two of its
rounding exponent. -/
theorem zpow_le_roundTo (t : ℕ) (emin : ℤ) {x : ℚ} (h : 0 ≤ x)
    (hn : emin < roundExp emin x) : 2 ^ roundExp emin x ≤ roundTo t emin x := by
  unfold roundTo
  have hge := zpow_roundExp_le emin x hn
  rw [abs_of_nonneg h] at hge
  have hu := two_zpow_pos (roundExp emin x - t)
  have hq : ((2 ^ t : ℤ) : ℚ) ≤ x / 2 ^ (roundExp emin x - (t : ℤ)) := by
    rw [le_div_iff₀ hu]
    push_cast
    have : (2 : ℚ) ^ t * 2 ^ (roundExp emin x - (t : ℤ)) = 2 ^ roundExp emin x := by
      rw [← zpow_natCast, ← zpow_add₀ (by norm_num)]
      congr 1
      ring
    rw [this]
    exact hge
  have hr := roundEven_mono hq
  rw [roundEven_intCast] at hr
  have hr' : (2 : ℚ) ^ t ≤ ((roundEven (x / 2 ^ (roundExp emin x - (t : ℤ))) : ℤ) : ℚ) := by
    exact_mod_cast hr
  calc (2 : ℚ) ^ roundExp emin x = 2 ^ t * 2 ^ (roundExp emin x - (t : ℤ)) := by
        rw [← zpow_natCast, ← zpow_add₀ (by norm_num)]
        congr 1
        ring
    _ ≤ _ := mul_le_mul_of_nonneg_right hr' hu.le

/-- Rounding is monotone on the nonnegative numbers. -/
theorem roundTo_mono_of_nonneg (t : ℕ) (emin : ℤ) {x y : ℚ} (hx : 0 ≤ x) (h : x ≤ y) :
    roundTo t emin x ≤ roundTo t emin y := by
  have hy : 0 ≤ y := hx.trans h
  have he : roundExp emin x ≤ roundExp emin y :=
    roundExp_mono emin (by rw [abs_of_nonneg hx, abs_of_nonneg hy]; exact h)
  rcases eq_or_lt_of_le he with heq | hlt
  · unfold roundTo
    rw [heq]
    have hu := two_zpow_pos (roundExp emin y - t)
    have := roundEven_mono (div_le_div_of_nonneg_right h hu.le)
    exact mul_le_mul_of_nonneg_right (by exact_mod_cast this) hu.le
  · have h1 := roundTo_le_zpow t emin hx
    have h2 := zpow_le_roundTo t emin hy (lt_of_le_of_lt (roundExp_ge emin x) hlt)
    have h3 : (2 : ℚ) ^ (roundExp emin x + 1) ≤ 2 ^ roundExp emin y := two_zpow_le (by omega)
    linarith

/-- Rounding is monotone. -/
theorem roundTo_mono (t : ℕ) (emin : ℤ) {x y : ℚ} (h : x ≤ y) :
    roundTo t emin x ≤ roundTo t emin y := by
  rcases le_total 0 x with hx | hx
  · exact roundTo_mono_of_nonneg t emin hx h
  · rcases le_total 0 y with hy | hy
    · have h1 := roundTo_nonneg t emin hy
      have h2 := roundTo_nonneg t emin (neg_nonneg.mpr hx)
      rw [roundTo_neg] at h2
      linarith
    · have := roundTo_mono_of_nonneg t emin (neg_nonneg.mpr hy) (neg_le_neg h)
      rw [roundTo_neg, roundTo_neg] at this
      linarith

/-- The mantissa of a rounded number is at most `2 ^ (t + 1)` in magnitude. -/
theorem roundEven_mantissa_le (t : ℕ) (emin : ℤ) (x : ℚ) :
    |roundEven (x / 2 ^ (roundExp emin x - t))| ≤ 2 ^ (t + 1) := by
  have hu := two_zpow_pos (roundExp emin x - t)
  have hlt := lt_zpow_roundExp emin x
  have hpow : (2 : ℚ) ^ (t + 1) * 2 ^ (roundExp emin x - (t : ℤ)) = 2 ^ (roundExp emin x + 1) := by
    rw [← zpow_natCast, ← zpow_add₀ (by norm_num)]
    congr 1
    push_cast
    ring
  have habs := abs_lt.mp hlt
  have h1 : x / 2 ^ (roundExp emin x - (t : ℤ)) ≤ ((2 ^ (t + 1) : ℤ) : ℚ) := by
    rw [div_le_iff₀ hu]; push_cast; rw [hpow]; exact habs.2.le
  have h2 : ((-(2 ^ (t + 1)) : ℤ) : ℚ) ≤ x / 2 ^ (roundExp emin x - (t : ℤ)) := by
    rw [le_div_iff₀ hu]; push_cast; rw [neg_mul, hpow]; exact habs.1.le
  have r1 := roundEven_mono h1
  have r2 := roundEven_mono h2
  rw [roundEven_intCast] at r1 r2
  exact abs_le.mpr ⟨r2, r1⟩

/-- A number of the form `n * 2 ^ e` with `|n| < 2 ^ (t + 1)` and `e` not
below the least exponent is not changed by rounding. -/
theorem roundTo_scaled_int_lt (t : ℕ) (emin : ℤ) (n e : ℤ) (hn : |n| < 2 ^ (t + 1))
    (he : emin - t ≤ e) : roundTo t emin (n * 2 ^ e) = n * 2 ^ e := by
  rcases eq_or_ne n 0 with h0 | h0
  · simp [h0, roundTo_zero]
  have hx0 : (n : ℚ) * 2 ^ e ≠ 0 := mul_ne_zero (by exact_mod_cast h0) (two_zpow_pos e).ne'
  have habs : |(n : ℚ) * 2 ^ e| < 2 ^ (e + t + 1) := by
    rw [abs_mul, abs_of_pos (two_zpow_pos e)]
    have hnq : |(n : ℚ)| < 2 ^ (t + 1) := by
      have : ((|n| : ℤ) : ℚ) < ((2 ^ (t + 1) : ℤ) : ℚ) := by exact_mod_cast hn
      simpa using this
    calc |(n : ℚ)| * 2 ^ e < 2 ^ (t + 1) * 2 ^ e := mul_lt_mul_of_pos_right hnq (two_zpow_pos e)
      _ = 2 ^ (e + t + 1) := by
        rw [← zpow_natCast, ← zpow_add₀ (by norm_num)]
        congr 1
        push_cast
        ring
  have hE : roundExp emin ((n : ℚ) * 2 ^ e) ≤ e + t := by
    rw [roundExp_of_ne emin _ hx0]
    apply max_le _ (by omega)
    have : Int.log 2 |(n : ℚ) * 2 ^ e| < e + t + 1 := by
      rw [← Int.lt_zpow_iff_log_lt (by norm_num) (abs_pos.mpr hx0), Nat.cast_ofNat]
      exact habs
    omega
  obtain ⟨k, hk⟩ : ∃ k : ℕ, (k : ℤ) = e - (roundExp emin ((n : ℚ) * 2 ^ e) - t) :=
    ⟨(e - (roundExp emin ((n : ℚ) * 2 ^ e) - t)).toNat, Int.toNat_of_nonneg (by omega)⟩
  unfold roundTo
  have hdiv : (n : ℚ) * 2 ^ e / 2 ^ (roundExp emin ((n : ℚ) * 2 ^ e) - (t : ℤ))
      = ((n * 2 ^ k : ℤ) : ℚ) := by
    rw [mul_div_assoc, ← zpow_sub₀ (by norm_num), ← hk]
    push_cast
    rw [zpow_natCast]
  rw [hdiv, roundEven_intCast]
  push_cast
  rw [mul_assoc, ← zpow_natCast, ← zpow_add₀ (by norm_num), hk]
  congr 2
  ring

/-- A number of the form `n * 2 ^ e` with `|n| ≤ 2 ^ (t + 1)` and `e` not
below the least exponent is not changed by rounding. -/
theorem roundTo_scaled_int (t : ℕ) (emin : ℤ) (n e : ℤ) (hn : |n| ≤ 2 ^ (t + 1))
    (he : emin - t ≤ e) : roundTo t emin (n * 2 ^ e) = n * 2 ^ e := by
  rcases lt_or_eq_of_le hn with hlt | heq
  · exact roundTo_scaled_int_lt t emin n e hlt he
  · -- the mantissa is a power of two: move one factor 2 into the exponent
    have hpow : (2 : ℤ) ^ (t + 1) = 2 * 2 ^ t := by rw [pow_succ]; ring
    have h2 : (n : ℚ) * 2 ^ e = ((n / 2 : ℤ) : ℚ) * 2 ^ (e + 1) := by
      have hdvd : (2 : ℤ) ∣ n := by
        rcases (abs_eq (by positivity : (0 : ℤ) ≤ 2 ^ (t + 1))).mp heq with h | h
        · rw [h, hpow]; exact dvd_mul_right _ _
        · rw [h, hpow]; exact (dvd_mul_right _ _).neg_right
      obtain ⟨m, hm⟩ := hdvd
      rw [hm, Int.mul_ediv_cancel_left _ (by norm_num), zpow_add₀ (by norm_num)]
      push_cast
      ring
    rw [h2]
    apply roundTo_scaled_int_lt t emin (n / 2) (e + 1) _ (by omega)
    have : |n / 2| = 2 ^ t := by
      rcases (abs_eq (by positivity : (0 : ℤ) ≤ 2 ^ (t + 1))).mp heq with h | h
      · rw [h, hpow, Int.mul_ediv_cancel_left _ (by norm_num)]
        exact abs_of_nonneg (by positivity)
      · rw [h, hpow, show -(2 * (2 : ℤ) ^ t) = 2 * -(2 ^ t) by ring,
          Int.mul_ediv_cancel_left _ (by norm_num), abs_neg]
        exact abs_of_nonneg (by positivity)
    rw [this, pow_succ]
    have : (0 : ℤ) < 2 ^ t := by positivity
    omega

/-- Rounding twice is rounding once. -/
theorem roundTo_idem (t : ℕ) (emin : ℤ) (x : ℚ) :
    roundTo t emin (roundTo t emin x) = roundTo t emin x := by
  unfold roundTo
  exact roundTo_scaled_int t emin _ _ (roundEven_mantissa_le t emin x)
    (by have := roundExp_ge emin x; omega)

/-- Evaluation of a rounding: a number `x` in the binade of exponent `e + t`
that is within a half of `n` in units of `2 ^ e` rounds to `n * 2 ^ e`. -/
theorem roundTo_eval (t : ℕ) (emin : ℤ) (x : ℚ) (n e : ℤ) (he : emin ≤ e + t)
    (h1 : 2 ^ (e + t) ≤ |x|) (h2 : |x| < 2 ^ (e + t + 1)) (hn : |x / 2 ^ e - n| < 1 / 2) :
    roundTo t emin x = n * 2 ^ e := by
  have hE := roundExp_eq emin x (e + t) he h1 h2
  unfold roundTo
  rw [hE, show e + (t : ℤ) - t = e by ring, roundEven_unique _ n (Or.inl hn)]

/-- Evaluation of a rounding at a tie: a number `x` in the binade of exponent
`e + t` that is exactly half a unit of `2 ^ e` away from the even `n` rounds to
`n * 2 ^ e`. -/
theorem roundTo_eval_tie (t : ℕ) (emin : ℤ) (x : ℚ) (n e : ℤ) (he : emin ≤ e + t)
    (h1 : 2 ^ (e + t) ≤ |x|) (h2 : |x| < 2 ^ (e + t + 1)) (hn : |x / 2 ^ e - n| = 1 / 2)
    (hev : n % 2 = 0) : roundTo t emin x = n * 2 ^ e := by
  have hE := roundExp_eq emin x (e + t) he h1 h2
  unfold roundTo
  rw [hE, show e + (t : ℤ) - t = e by ring, roundEven_unique _ n (Or.inr ⟨hn, hev⟩)]

/-- The rounding error is at most half a unit in the last place. -/
theorem roundTo_error (t : ℕ) (emin : ℤ) (x : ℚ) :
    |roundTo t emin x - x| ≤ 2 ^ (roundExp emin x - t) / 2 := by
  have hu := two_zpow_pos (roundExp emin x - t)
  have hs := roundEven_spec (x / 2 ^ (roundExp emin x - t))
  have hle : |x / 2 ^ (roundExp emin x - (t : ℤ))
      - roundEven (x / 2 ^ (roundExp emin x - (t : ℤ)))| ≤ 1 / 2 := by
    rcases hs with h | ⟨h, _⟩
    · exact h.le
    · exact h.le
  unfold roundTo
  have e : (roundEven (x / 2 ^ (roundExp emin x - (t : ℤ))) : ℚ) * 2 ^ (roundExp emin x - (t : ℤ)) - x
      = -((x / 2 ^ (roundExp emin x - (t : ℤ))
          - roundEven (x / 2 ^ (roundExp emin x - (t : ℤ)))) * 2 ^ (roundExp emin x - (t : ℤ))) := by
    field_simp
    ring
  rw [e, abs_neg, abs_mul, abs_of_pos hu]
  calc _ ≤ 1 / 2 * 2 ^ (roundExp emin x - (t : ℤ)) := mul_le_mul_of_nonneg_right hle hu.le
    _ = _ := by ring

/-- The rounding error is at most a relative `2 ^ -(t + 1)` plus half the least
unit. -/
theorem roundTo_error_rel (t : ℕ) (emin : ℤ) (x : ℚ) :
    |roundTo t emin x - x| ≤ |x| / 2 ^ (t + 1) + 2 ^ (emin - t) / 2 := by
  have herr := roundTo_error t emin x
  rcases eq_or_lt_of_le (roundExp_ge emin x) with heq | hlt
  · rw [← heq] at herr
    have : (0 : ℚ) ≤ |x| / 2 ^ (t + 1) := by positivity
    linarith
  · have hge := zpow_roundExp_le emin x hlt
    have hsplit : (2 : ℚ) ^ (roundExp emin x - (t : ℤ)) / 2 = 2 ^ roundExp emin x / 2 ^ (t + 1) := by
      rw [zpow_sub₀ (by norm_num), zpow_natCast, pow_succ]
      field_simp
    rw [hsplit] at herr
    have h1 : (2 : ℚ) ^ roundExp emin x / 2 ^ (t + 1) ≤ |x| / 2 ^ (t + 1) :=
      div_le_div_of_nonneg_right hge (by positivity)
    have h2 : (0 : ℚ) ≤ 2 ^ (emin - (t : ℤ)) / 2 := by
      have := two_zpow_pos (emin - t); positivity
    linarith

/-! ### Rounding to binary32 -/

theorem f32_zero : f32 0 = 0 := roundTo_zero 23 (-126)

theorem f32_neg (x : ℚ) : f32 (-x) = -f32 x := roundTo_neg 23 (-126) x

theorem f32_mono {x y : ℚ} (h : x ≤ y) : f32 x ≤ f32 y := roundTo_mono 23 (-126) h

theorem f32_nonneg {x : ℚ} (h : 0 ≤ x) : 0 ≤ f32 x := roundTo_nonneg 23 (-126) h

theorem f32_nonpos {x : ℚ} (h : x ≤ 0) : f32 x ≤ 0 := by
  have := f32_mono h
  rwa [f32_zero] at this

theorem f32_idem (x : ℚ) : f32 (f32 x) = f32 x := roundTo_idem 23 (-126) x

/-- An integer of magnitude up to `2 ^ 24` times a power of two is a binary32
number. -/
theorem f32_int_mul_pow (n : ℤ) (j : ℕ) (hn : |n| ≤ 2 ^ 24) :
    f32 ((n : ℚ) * 2 ^ j) = n * 2 ^ j := by
  have := roundTo_scaled_int 23 (-126) n j hn (by omega)
  rwa [zpow_natCast] at this

/-- An integer of magnitude up to `2 ^ 24` over a power of two up to `2 ^ 149`
is a binary32 number. -/
theorem f32_int_div_pow (n : ℤ) (k : ℕ) (hn : |n| ≤ 2 ^ 24) (hk : k ≤ 149) :
    f32 ((n : ℚ) / 2 ^ k) = n / 2 ^ k := by
  have := roundTo_scaled_int 23 (-126) n (-(k : ℤ)) hn (by push_cast; omega)
  rwa [zpow_neg, zpow_natCast, ← div_eq_mul_inv] at this

/-- An integer of magnitude up to `2 ^ 24` is a binary32 number. -/
theorem f32_intCast (n : ℤ) (hn : |n| ≤ 2 ^ 24) : f32 (n : ℚ) = n := by
  have := f32_int_mul_pow n 0 hn
  simpa using this

/-- A natural number up to `2 ^ 24` is a binary32 number. -/
theorem f32_natCast (n : ℕ) (hn : n ≤ 2 ^ 24) : f32 (n : ℚ) = n := by
  have := f32_intCast (n : ℤ) (by rw [abs_of_nonneg (by positivity)]; exact_mod_cast hn)
  simpa using this

/-- Evaluation of the rounding of a positive number whose unit in the last
place is `2 ^ -k`. -/
theorem f32_eval_frac (x : ℚ) (n : ℤ) (k : ℕ) (hk : k ≤ 149) (h1 : 2 ^ 23 ≤ x * 2 ^ k)
    (h2 : x * 2 ^ k < 2 ^ 24) (hlo : (n : ℚ) - 1 / 2 < x * 2 ^ k)
    (hhi : x * 2 ^ k < n + 1 / 2) : f32 x = n / 2 ^ k := by
  have hk2 : (0 : ℚ) < 2 ^ k := by positivity
  have hx : 0 < x := by
    by_contra h
    have : x * 2 ^ k ≤ 0 := mul_nonpos_of_nonpos_of_nonneg (not_lt.mp h) hk2.le
    have : (0 : ℚ) < 2 ^ 23 := by positivity
    linarith
  have hz : (2 : ℚ) ^ (-(k : ℤ)) = 1 / 2 ^ k := by
    rw [zpow_neg, zpow_natCast, one_div]
  have := roundTo_eval 23 (-126) x n (-(k : ℤ)) (by push_cast; omega)
    (by
      rw [abs_of_pos hx, zpow_add₀ (by norm_num), hz]
      rw [show ((23 : ℕ) : ℤ) = ((23 : ℕ) : ℤ) from rfl, zpow_natCast]
      rw [one_div, inv_mul_le_iff₀ hk2]
      linarith)
    (by
      rw [abs_of_pos hx, show -(k : ℤ) + ((23 : ℕ) : ℤ) + 1 = -(k : ℤ) + ((24 : ℕ) : ℤ) by
        push_cast; ring, zpow_add₀ (by norm_num), hz, zpow_natCast]
      rw [one_div, lt_inv_mul_iff₀ hk2]
      linarith)
    (by
      rw [hz, div_div_eq_mul_div, div_one, abs_lt]
      constructor <;> linarith)
  rw [f32, this, hz]
  ring

/-- Evaluation of the rounding of a positive number whose unit in the last
place is `2 ^ -k`, at a tie: the even neighbour is taken. -/
theorem f32_eval_frac_tie (x : ℚ) (n : ℤ) (k : ℕ) (hk : k ≤ 149) (h1 : 2 ^ 23 ≤ x * 2 ^ k)
    (h2 : x * 2 ^ k < 2 ^ 24) (hn : x * 2 ^ k = n + 1 / 2 ∨ x * 2 ^ k = n - 1 / 2)
    (hev : n % 2 = 0) : f32 x = n / 2 ^ k := by
  have hk2 : (0 : ℚ) < 2 ^ k := by positivity
  have hx : 0 < x := by
    by_contra h
    have : x * 2 ^ k ≤ 0 := mul_nonpos_of_nonpos_of_nonneg (not_lt.mp h) hk2.le
    have : (0 : ℚ) < 2 ^ 23 := by positivity
    linarith
  have hz : (2 : ℚ) ^ (-(k : ℤ)) = 1 / 2 ^ k := by
    rw [zpow_neg, zpow_natCast, one_div]
  have := roundTo_eval_tie 23 (-126) x n (-(k : ℤ)) (by push_cast; omega)
    (by
      rw [abs_of_pos hx, zpow_add₀ (by norm_num), hz]
      rw [show ((23 : ℕ) : ℤ) = ((23 : ℕ) : ℤ) from rfl, zpow_natCast]
      rw [one_div, inv_mul_le_iff₀ hk2]
      linarith)
    (by
      rw [abs_of_pos hx, show -(k : ℤ) + ((23 : ℕ) : ℤ) + 1 = -(k : ℤ) + ((24 : ℕ) : ℤ) by
        push_cast; ring, zpow_add₀ (by norm_num), hz, zpow_natCast]
      rw [one_div, lt_inv_mul_iff₀ hk2]
      linarith)
    (by
      rw [hz, div_div_eq_mul_div, div_one]
      rcases hn with h | h
      · rw [h]
        norm_num
      · rw [h]
        norm_num)
    hev
  rw [f32, this, hz]
  ring

/-- Evaluation of the rounding of a positive number whose unit in the last
place is `2 ^ j`. -/
theorem f32_eval_int (x : ℚ) (n : ℤ) (j : ℕ) (h1 : 2 ^ 23 * 2 ^ j ≤ x)
    (h2 : x < 2 ^ 24 * 2 ^ j) (hlo : ((n : ℚ) - 1 / 2) * 2 ^ j < x)
    (hhi : x < (n + 1 / 2) * 2 ^ j) : f32 x = n * 2 ^ j := by
  have hj2 : (0 : ℚ) < 2 ^ j := by positivity
  have hx : 0 < x := lt_of_lt_of_le (by positivity) h1
  have := roundTo_eval 23 (-126) x n (j : ℤ) (by omega)
    (by
      rw [abs_of_pos hx, zpow_add₀ (by norm_num), zpow_natCast, zpow_natCast]
      linarith)
    (by
      rw [abs_of_pos hx, show (j : ℤ) + ((23 : ℕ) : ℤ) + 1 = (j : ℤ) + ((24 : ℕ) : ℤ) by
        push_cast; ring, zpow_add₀ (by norm_num), zpow_natCast, zpow_natCast]
      linarith)
    (by
      rw [zpow_natCast, abs_lt]
      constructor
      · rw [lt_sub_iff_add_lt, lt_div_iff₀ hj2]; linarith
      · rw [sub_lt_iff_lt_add, div_lt_iff₀ hj2]; linarith)
  rw [f32, this, zpow_natCast]

/-- Evaluation of the rounding of a positive number whose unit in the last
place is `2 ^ j`, at a tie: the even neighbour is taken. -/
theorem f32_eval_int_tie (x : ℚ) (n : ℤ) (j : ℕ) (h1 : 2 ^ 23 * 2 ^ j ≤ x)
    (h2 : x < 2 ^ 24 * 2 ^ j) (hn : x = ((n : ℚ) + 1 / 2) * 2 ^ j ∨ x = ((n : ℚ) - 1 / 2) * 2 ^ j)
    (hev : n % 2 = 0) : f32 x = n * 2 ^ j := by
  have hj2 : (0 : ℚ) < 2 ^ j := by positivity
  have hx : 0 < x := lt_of_lt_of_le (by positivity) h1
  have := roundTo_eval_tie 23 (-126) x n (j : ℤ) (by omega)
    (by
      rw [abs_of_pos hx, zpow_add₀ (by norm_num), zpow_natCast, zpow_natCast]
      linarith)
    (by
      rw [abs_of_pos hx, show (j : ℤ) + ((23 : ℕ) : ℤ) + 1 = (j : ℤ) + ((24 : ℕ) : ℤ) by
        push_cast; ring, zpow_add₀ (by norm_num), zpow_natCast, zpow_natCast]
      linarith)
    (by
      rw [zpow_natCast]
      rcases hn with h | h
      · rw [h, mul_div_assoc, div_self hj2.ne', mul_one]
        norm_num
      · rw [h, mul_div_assoc, div_self hj2.ne', mul_one]
        norm_num)
    hev
  rw [f32, this, zpow_natCast]

/-- The rounding error of binary32: a relative `2 ^ -24` plus `2 ^ -150`. -/
theorem f32_error (x : ℚ) : |f32 x - x| ≤ |x| / 2 ^ 24 + 1 / 2 ^ 150 := by
  have := roundTo_error_rel 23 (-126) x
  have e : (2 : ℚ) ^ ((-126 : ℤ) - ((23 : ℕ) : ℤ)) / 2 = 1 / 2 ^ 150 := by
    rw [show ((-126 : ℤ) - ((23 : ℕ) : ℤ)) = -((149 : ℕ) : ℤ) by norm_num, zpow_neg, zpow_natCast]
    norm_num
  rw [e] at this
  exact this

/-- Multiplying a binary32 number by a power of two is exact. -/
theorem f32_mul_pow (x : ℚ) (j : ℕ) : f32 (f32 x * 2 ^ j) = f32 x * 2 ^ j := by
  have h : f32 x * 2 ^ j = ((roundEven (x / 2 ^ (roundExp (-126) x - (23 : ℕ))) : ℤ) : ℚ)
      * 2 ^ (roundExp (-126) x - (23 : ℕ) + j) := by
    rw [f32, roundTo, zpow_add₀ (by norm_num), zpow_natCast, mul_assoc]
  rw [h]
  exact roundTo_scaled_int 23 (-126) _ _ (roundEven_mantissa_le 23 (-126) x)
    (by have := roundExp_ge (-126) x; omega)

/-- A binary32 number below `m * 2 ^ q`, with `m` above `2 ^ 23`, is at most
`(m - 1) * 2 ^ q`: there is no binary32 number in between. -/
theorem f32_le_pred (x : ℚ) (m q : ℤ) (hm : 2 ^ 23 < m) (h : f32 x < m * 2 ^ q) :
    f32 x ≤ (m - 1) * 2 ^ q := by
  have hq := two_zpow_pos q
  rcases le_or_lt 0 x with hx | hx
  swap
  · have := f32_nonpos hx.le
    have hm1 : (0 : ℚ) ≤ (m : ℚ) - 1 := by
      have : ((2 ^ 23 : ℤ) : ℚ) < m := by exact_mod_cast hm
      push_cast at this
      linarith [show (0 : ℚ) < 2 ^ 23 by positivity]
    have := mul_nonneg hm1 hq.le
    linarith
  rcases le_or_lt q (roundExp (-126) x - 23) with hE | hE
  · -- the rounded number is a multiple of 2 ^ q
    obtain ⟨k, hk⟩ : ∃ k : ℕ, (k : ℤ) = roundExp (-126) x - 23 - q :=
      ⟨(roundExp (-126) x - 23 - q).toNat, Int.toNat_of_nonneg (by omega)⟩
    have hf : f32 x = ((roundEven (x / 2 ^ (roundExp (-126) x - (23 : ℕ))) * 2 ^ k : ℤ) : ℚ)
        * 2 ^ q := by
      rw [f32, roundTo]
      push_cast
      rw [mul_assoc, ← zpow_natCast, ← zpow_add₀ (by norm_num), hk]
      congr 2
      ring
    rw [hf] at h ⊢
    have h' := lt_of_mul_lt_mul_right h hq.le
    have h'' : roundEven (x / 2 ^ (roundExp (-126) x - (23 : ℕ))) * 2 ^ k < m := by
      exact_mod_cast h'
    have h3 : roundEven (x / 2 ^ (roundExp (-126) x - (23 : ℕ))) * 2 ^ k ≤ m - 1 := by omega
    exact mul_le_mul_of_nonneg_right (by exact_mod_cast h3) hq.le
  · -- the rounded number is below 2 ^ (q + 23)
    have h1 := roundTo_le_zpow 23 (-126) hx
    have h2 : (2 : ℚ) ^ (roundExp (-126) x + 1) ≤ 2 ^ (q + 23) := two_zpow_le (by omega)
    have h3 : (2 : ℚ) ^ (q + 23) ≤ (m - 1) * 2 ^ q := by
      rw [zpow_add₀ (by norm_num), mul_comm]
      apply mul_le_mul_of_nonneg_right _ hq.le
      have : ((2 ^ 23 : ℤ) : ℚ) ≤ ((m - 1 : ℤ) : ℚ) := by exact_mod_cast (by omega : 2 ^ 23 ≤ m - 1)
      push_cast at this
      rw [show ((23 : ℤ)) = ((23 : ℕ) : ℤ) by norm_num, zpow_natCast]
      exact this
    rw [f32]
    linarith

/-- A positive binary32 number is at least `2 ^ -149`. -/
theorem f32_pos_ge (x : ℚ) (h : 0 < f32 x) : 1 / 2 ^ 149 ≤ f32 x := by
  have hu := two_zpow_pos (roundExp (-126) x - (23 : ℕ))
  rw [f32, roundTo] at h ⊢
  have hn : (0 : ℚ) < (roundEven (x / 2 ^ (roundExp (-126) x - (23 : ℕ))) : ℤ) := by
    by_contra hneg
    have := mul_nonpos_of_nonpos_of_nonneg (not_lt.mp hneg) hu.le
    linarith
  have hn1 : (1 : ℚ) ≤ (roundEven (x / 2 ^ (roundExp (-126) x - (23 : ℕ))) : ℤ) := by
    have : (0 : ℤ) < roundEven (x / 2 ^ (roundExp (-126) x - (23 : ℕ))) := by exact_mod_cast hn
    exact_mod_cast (by omega : (1 : ℤ) ≤ roundEven (x / 2 ^ (roundExp (-126) x - (23 : ℕ))))
  have hmin : (1 : ℚ) / 2 ^ 149 ≤ 2 ^ (roundExp (-126) x - ((23 : ℕ) : ℤ)) := by
    have : (2 : ℚ) ^ (-(149 : ℤ)) ≤ 2 ^ (roundExp (-126) x - ((23 : ℕ) : ℤ)) :=
      two_zpow_le (by have := roundExp_ge (-126) x; push_cast; omega)
    rw [show (-(149 : ℤ)) = -((149 : ℕ) : ℤ) by norm_num, zpow_neg, zpow_natCast,
      ← one_div] at this
    exact this
  calc (1 : ℚ) / 2 ^ 149 ≤ 2 ^ (roundExp (-126) x - ((23 : ℕ) : ℤ)) := hmin
    _ = 1 * 2 ^ (roundExp (-126) x - ((23 : ℕ) : ℤ)) := (one_mul _).symm
    _ ≤ _ := mul_le_mul_of_nonneg_right hn1 hu.le

/-! ## Frame lemmas: the fields each stage leaves untouched -/

/-- Frame of the fined edge: what `fineEdge` leaves untouched. -/
@[simp] theorem fineEdge_frame (config : AppConfig) (tel : Telemetry) (clk : Clock) (w : Work) :
    (fineEdge config tel clk w).st.pulse_timer = w.st.pulse_timer
    ∧ (fineEdge config tel clk w).st.previous_speed = w.st.previous_speed
    ∧ (fineEdge config tel clk w).st.previous_engine_state = w.st.previous_engine_state
    ∧ (fineEdge config tel clk w).st.is_in_startup_effect = w.st.is_in_startup_effect
    ∧ (fineEdge config tel clk w).st.engine_start_time = w.st.engine_start_time
    ∧ (fineEdge config tel clk w).st.previous_rpm = w.st.previous_rpm
    ∧ (fineEdge config tel clk w).st.previous_gear = w.st.previous_gear
    ∧ (fineEdge config tel clk w).st.jolt_state = w.st.jolt_state
    ∧ (fineEdge config tel clk w).st.previous_fined_state = w.st.previous_fined_state
    ∧ (fineEdge config tel clk w).out = w.out
    ∧ (fineEdge config tel clk w).display = w.display := by
  simp only [fineEdge]; split_ifs <;> simp

/-- Frame of the fine-alert flash: what `fineLightbar` leaves untouched. -/
@[simp] theorem fineLightbar_frame (elapsed_s : ℚ) (w : Work) :
    (fineLightbar elapsed_s w).st = w.st
    ∧ (fineLightbar elapsed_s w).out.leftRumble = w.out.leftRumble
    ∧ (fineLightbar elapsed_s w).out.rightRumble = w.out.rightRumble
    ∧ (fineLightbar elapsed_s w).out.microphoneLed = w.out.microphoneLed
    ∧ (fineLightbar elapsed_s w).out.disableLeds = w.out.disableLeds
    ∧ (fineLightbar elapsed_s w).out.playerLeds = w.out.playerLeds
    ∧ (fineLightbar elapsed_s w).out.leftTriggerEffect = w.out.leftTriggerEffect
    ∧ (fineLightbar elapsed_s w).out.rightTriggerEffect = w.out.rightTriggerEffect
    ∧ (fineLightbar elapsed_s w).display = w.display := by
  simp only [fineLightbar]; split_ifs <;> simp

/-- Frame of the fine-alert rumble: what `fineRumble` leaves untouched. -/
@[simp] theorem fineRumble_frame  (w : Work) :
    (fineRumble w).st = w.st
    ∧ (fineRumble w).out.microphoneLed = w.out.microphoneLed
    ∧ (fineRumble w).out.disableLeds = w.out.disableLeds
    ∧ (fineRumble w).out.playerLeds = w.out.playerLeds
    ∧ (fineRumble w).out.lightbar = w.out.lightbar
    ∧ (fineRumble w).out.leftTriggerEffect = w.out.leftTriggerEffect
    ∧ (fineRumble w).out.rightTriggerEffect = w.out.rightTriggerEffect
    ∧ (fineRumble w).display = w.display := by
  simp only [fineRumble]; split_ifs <;> simp

/-- Frame of the running fine alert: what `fineFlash` leaves untouched. -/
@[simp] theorem fineFlash_frame (elapsed_s : ℚ) (w : Work) :
    (fineFlash elapsed_s w).st = w.st
    ∧ (fineFlash elapsed_s w).out.microphoneLed = w.out.microphoneLed
    ∧ (fineFlash elapsed_s w).out.disableLeds = w.out.disableLeds
    ∧ (fineFlash elapsed_s w).out.playerLeds = w.out.playerLeds
    ∧ (fineFlash elapsed_s w).out.leftTriggerEffect = w.out.leftTriggerEffect
    ∧ (fineFlash elapsed_s w).out.rightTriggerEffect = w.out.rightTriggerEffect
    ∧ (fineFlash elapsed_s w).display = w.display := by
  simp [fineFlash]

/-- Frame of the lightbar cascade: what `lightbarCascade` leaves untouched. -/
@[simp] theorem lightbarCascade_frame (E : Externals) (config : AppConfig) (tel : Telemetry) (clk : Clock) (w : Work) :
    (lightbarCascade E config tel clk w).st.pulse_timer = w.st.pulse_timer
    ∧ (lightbarCascade E config tel clk w).st.previous_speed = w.st.previous_speed
    ∧ (lightbarCascade E config tel clk w).st.previous_engine_state = w.st.previous_engine_state
    ∧ (lightbarCascade E config tel clk w).st.is_in_startup_effect = w.st.is_in_startup_effect
    ∧ (lightbarCascade E config tel clk w).st.engine_start_time = w.st.engine_start_time
    ∧ (lightbarCascade E config tel clk w).st.previous_rpm = w.st.previous_rpm
    ∧ (lightbarCascade E config tel clk w).st.previous_gear = w.st.previous_gear
    ∧ (lightbarCascade E config tel clk w).st.jolt_state = w.st.jolt_state
    ∧ (lightbarCascade E config tel clk w).st.previous_fined_state = w.st.previous_fined_state
    ∧ (lightbarCascade E config tel clk w).st.fine_effect_start_time = w.st.fine_effect_start_time
    ∧ (lightbarCascade E config tel clk w).out.microphoneLed = w.out.microphoneLed
    ∧ (lightbarCascade E config tel clk w).out.disableLeds = w.out.disableLeds
    ∧ (lightbarCascade E config tel clk w).out.playerLeds = w.out.playerLeds
    ∧ (lightbarCascade E config tel clk w).out.leftTriggerEffect = w.out.leftTriggerEffect
    ∧ (lightbarCascade E config tel clk w).out.rightTriggerEffect = w.out.rightTriggerEffect
    ∧ (lightbarCascade E config tel clk w).display.gear_jolt_active = w.display.gear_jolt_active
    ∧ (lightbarCascade E config tel clk w).display.engine_cranking_active = w.display.engine_cranking_active
    ∧ (lightbarCascade E config tel clk w).display.startup_lurch_active = w.display.startup_lurch_active
    ∧ (lightbarCascade E config tel clk w).display.hard_braking_active = w.display.hard_braking_active
    ∧ (lightbarCascade E config tel clk w).display.body_roll_active = w.display.body_roll_active
    ∧ (lightbarCascade E config tel clk w).display.refueling_active = w.display.refueling_active := by
  simp only [lightbarCascade]; split_ifs <;> simp

/-- Frame of the warning indicator: what `micLedStage` leaves untouched. -/
@[simp] theorem micLedStage_frame (config : AppConfig) (tel : Telemetry) (w : Work) :
    (micLedStage config tel w).st = w.st
    ∧ (micLedStage config tel w).out.leftRumble = w.out.leftRumble
    ∧ (micLedStage config tel w).out.rightRumble = w.out.rightRumble
    ∧ (micLedStage config tel w).out.disableLeds = w.out.disableLeds
    ∧ (micLedStage config tel w).out.playerLeds = w.out.playerLeds
    ∧ (micLedStage config tel w).out.lightbar = w.out.lightbar
    ∧ (micLedStage config tel w).out.leftTriggerEffect = w.out.leftTriggerEffect
    ∧ (micLedStage config tel w).out.rightTriggerEffect = w.out.rightTriggerEffect
    ∧ (micLedStage config tel w).display = w.display := by
  simp only [micLedStage]; split_ifs <;> simp

/-- Frame of the fuel gauge: what `fuelLedStage` leaves untouched. -/
@[simp] theorem fuelLedStage_frame (E : Externals) (config : AppConfig) (tel : Telemetry) (w : Work) :
    (fuelLedStage E config tel w).st = w.st
    ∧ (fuelLedStage E config tel w).out.leftRumble = w.out.leftRumble
    ∧ (fuelLedStage E config tel w).out.rightRumble = w.out.rightRumble
    ∧ (fuelLedStage E config tel w).out.microphoneLed = w.out.microphoneLed
    ∧ (fuelLedStage E config tel w).out.disableLeds = w.out.disableLeds
    ∧ (fuelLedStage E config tel w).out.lightbar = w.out.lightbar
    ∧ (fuelLedStage E config tel w).out.leftTriggerEffect = w.out.leftTriggerEffect
    ∧ (fuelLedStage E config tel w).out.rightTriggerEffect = w.out.rightTriggerEffect
    ∧ (fuelLedStage E config tel w).display = w.display := by
  simp only [fuelLedStage]; split_ifs <;> simp

/-- Frame of the refuel rumble: what `refuelStage` leaves untouched. -/
@[simp] theorem refuelStage_frame (config : AppConfig) (tel : Telemetry) (w : Work) :
    (refuelStage config tel w).st = w.st
    ∧ (refuelStage config tel w).out.microphoneLed = w.out.microphoneLed
    ∧ (refuelStage config tel w).out.disableLeds = w.out.disableLeds
    ∧ (refuelStage config tel w).out.playerLeds = w.out.playerLeds
    ∧ (refuelStage config tel w).out.lightbar = w.out.lightbar
    ∧ (refuelStage config tel w).out.leftTriggerEffect = w.out.leftTriggerEffect
    ∧ (refuelStage config tel w).out.rightTriggerEffect = w.out.rightTriggerEffect
    ∧ (refuelStage config tel w).display.fine_alert_active = w.display.fine_alert_active
    ∧ (refuelStage config tel w).display.gear_jolt_active = w.display.gear_jolt_active
    ∧ (refuelStage config tel w).display.engine_cranking_active = w.display.engine_cranking_active
    ∧ (refuelStage config tel w).display.startup_lurch_active = w.display.startup_lurch_active
    ∧ (refuelStage config tel w).display.hard_braking_active = w.display.hard_braking_active
    ∧ (refuelStage config tel w).display.body_roll_active = w.display.body_roll_active := by
  simp only [refuelStage]; split_ifs <;> simp

/-- Frame of the gear edge: what `gearJoltEdge` leaves untouched. -/
@[simp] theorem gearJoltEdge_frame (config : AppConfig) (tel : Telemetry) (w : Work) :
    (gearJoltEdge config tel w).st.pulse_timer = w.st.pulse_timer
    ∧ (gearJoltEdge config tel w).st.previous_speed = w.st.previous_speed
    ∧ (gearJoltEdge config tel w).st.previous_engine_state = w.st.previous_engine_state
    ∧ (gearJoltEdge config tel w).st.is_in_startup_effect = w.st.is_in_startup_effect
    ∧ (gearJoltEdge config tel w).st.engine_start_time = w.st.engine_start_time
    ∧ (gearJoltEdge config tel w).st.previous_rpm = w.st.previous_rpm
    ∧ (gearJoltEdge config tel w).st.previous_gear = w.st.previous_gear
    ∧ (gearJoltEdge config tel w).st.is_in_fine_effect = w.st.is_in_fine_effect
    ∧ (gearJoltEdge config tel w).st.previous_fined_state = w.st.previous_fined_state
    ∧ (gearJoltEdge config tel w).st.fine_effect_start_time = w.st.fine_effect_start_time
    ∧ (gearJoltEdge config tel w).out = w.out
    ∧ (gearJoltEdge config tel w).display = w.display := by
  simp only [gearJoltEdge]; split_ifs <;> simp

/-- Frame of the gear jolt: what `gearJoltOutput` leaves untouched. -/
@[simp] theorem gearJoltOutput_frame (config : AppConfig) (w : Work) :
    (gearJoltOutput config w).st.pulse_timer = w.st.pulse_timer
    ∧ (gearJoltOutput config w).st.previous_speed = w.st.previous_speed
    ∧ (gearJoltOutput config w).st.previous_engine_state = w.st.previous_engine_state
    ∧ (gearJoltOutput config w).st.is_in_startup_effect = w.st.is_in_startup_effect
    ∧ (gearJoltOutput config w).st.engine_start_time = w.st.engine_start_time
    ∧ (gearJoltOutput config w).st.previous_rpm = w.st.previous_rpm
    ∧ (gearJoltOutput config w).st.previous_gear = w.st.previous_gear
    ∧ (gearJoltOutput config w).st.is_in_fine_effect = w.st.is_in_fine_effect
    ∧ (gearJoltOutput config w).st.previous_fined_state = w.st.previous_fined_state
    ∧ (gearJoltOutput config w).st.fine_effect_start_time = w.st.fine_effect_start_time
    ∧ (gearJoltOutput config w).out.microphoneLed = w.out.microphoneLed
    ∧ (gearJoltOutput config w).out.disableLeds = w.out.disableLeds
    ∧ (gearJoltOutput config w).out.playerLeds = w.out.playerLeds
    ∧ (gearJoltOutput config w).out.lightbar = w.out.lightbar
    ∧ (gearJoltOutput config w).out.leftTriggerEffect = w.out.leftTriggerEffect
    ∧ (gearJoltOutput config w).out.rightTriggerEffect = w.out.rightTriggerEffect
    ∧ (gearJoltOutput config w).display.fine_alert_active = w.display.fine_alert_active
    ∧ (gearJoltOutput config w).display.engine_cranking_active = w.display.engine_cranking_active
    ∧ (gearJoltOutput config w).display.startup_lurch_active = w.display.startup_lurch_active
    ∧ (gearJoltOutput config w).display.hard_braking_active = w.display.hard_braking_active
    ∧ (gearJoltOutput config w).display.body_roll_active = w.display.body_roll_active
    ∧ (gearJoltOutput config w).display.refueling_active = w.display.refueling_active := by
  simp only [gearJoltOutput]; split_ifs <;> simp

/-- Frame of the engine-on edge: what `engineStartEdge` leaves untouched. -/
@[simp] theorem engineStartEdge_frame (config : AppConfig) (tel : Telemetry) (clk : Clock) (w : Work) :
    (engineStartEdge config tel clk w).st.pulse_timer = w.st.pulse_timer
    ∧ (engineStartEdge config tel clk w).st.previous_speed = w.st.previous_speed
    ∧ (engineStartEdge config tel clk w).st.previous_engine_state = w.st.previous_engine_state
    ∧ (engineStartEdge config tel clk w).st.previous_rpm = w.st.previous_rpm
    ∧ (engineStartEdge config tel clk w).st.previous_gear = w.st.previous_gear
    ∧ (engineStartEdge config tel clk w).st.jolt_state = w.st.jolt_state
    ∧ (engineStartEdge config tel clk w).st.is_in_fine_effect = w.st.is_in_fine_effect
    ∧ (engineStartEdge config tel clk w).st.previous_fined_state = w.st.previous_fined_state
    ∧ (engineStartEdge config tel clk w).st.fine_effect_start_time = w.st.fine_effect_start_time
    ∧ (engineStartEdge config tel clk w).out = w.out
    ∧ (engineStartEdge config tel clk w).display = w.display := by
  simp only [engineStartEdge]; split_ifs <;> simp

/-- Frame of the cranking pulse: what `crankingStage` leaves untouched. -/
@[simp] theorem crankingStage_frame (config : AppConfig) (tel : Telemetry) (w : Work) :
    (crankingStage config tel w).st = w.st
    ∧ (crankingStage config tel w).out.leftRumble = w.out.leftRumble
    ∧ (crankingStage config tel w).out.microphoneLed = w.out.microphoneLed
    ∧ (crankingStage config tel w).out.disableLeds = w.out.disableLeds
    ∧ (crankingStage config tel w).out.playerLeds = w.out.playerLeds
    ∧ (crankingStage config tel w).out.lightbar = w.out.lightbar
    ∧ (crankingStage config tel w).out.leftTriggerEffect = w.out.leftTriggerEffect
    ∧ (crankingStage config tel w).out.rightTriggerEffect = w.out.rightTriggerEffect
    ∧ (crankingStage config tel w).display.fine_alert_active = w.display.fine_alert_active
    ∧ (crankingStage config tel w).display.gear_jolt_active = w.display.gear_jolt_active
    ∧ (crankingStage config tel w).display.startup_lurch_active = w.display.startup_lurch_active
    ∧ (crankingStage config tel w).display.hard_braking_active = w.display.hard_braking_active
    ∧ (crankingStage config tel w).display.body_roll_active = w.display.body_roll_active
    ∧ (crankingStage config tel w).display.refueling_active = w.display.refueling_active := by
  simp only [crankingStage]; split_ifs <;> simp

/-- Frame of the startup lurch: what `startupStage` leaves untouched. -/
@[simp] theorem startupStage_frame (E : Externals) (config : AppConfig) (clk : Clock) (w : Work) :
    (startupStage E config clk w).st.pulse_timer = w.st.pulse_timer
    ∧ (startupStage E config clk w).st.previous_speed = w.st.previous_speed
    ∧ (startupStage E config clk w).st.previous_engine_state = w.st.previous_engine_state
    ∧ (startupStage E config clk w).st.engine_start_time = w.st.engine_start_time
    ∧ (startupStage E config clk w).st.previous_rpm = w.st.previous_rpm
    ∧ (startupStage E config clk w).st.previous_gear = w.st.previous_gear
    ∧ (startupStage E config clk w).st.jolt_state = w.st.jolt_state
    ∧ (startupStage E config clk w).st.is_in_fine_effect = w.st.is_in_fine_effect
    ∧ (startupStage E config clk w).st.previous_fined_state = w.st.previous_fined_state
    ∧ (startupStage E config clk w).st.fine_effect_start_time = w.st.fine_effect_start_time
    ∧ (startupStage E config clk w).out.rightRumble = w.out.rightRumble
    ∧ (startupStage E config clk w).out.microphoneLed = w.out.microphoneLed
    ∧ (startupStage E config clk w).out.disableLeds = w.out.disableLeds
    ∧ (startupStage E config clk w).out.playerLeds = w.out.playerLeds
    ∧ (startupStage E config clk w).out.lightbar = w.out.lightbar
    ∧ (startupStage E config clk w).out.leftTriggerEffect = w.out.leftTriggerEffect
    ∧ (startupStage E config clk w).out.rightTriggerEffect = w.out.rightTriggerEffect
    ∧ (startupStage E config clk w).display.fine_alert_active = w.display.fine_alert_active
    ∧ (startupStage E config clk w).display.gear_jolt_active = w.display.gear_jolt_active
    ∧ (startupStage E config clk w).display.engine_cranking_active = w.display.engine_cranking_active
    ∧ (startupStage E config clk w).display.hard_braking_active = w.display.hard_braking_active
    ∧ (startupStage E config clk w).display.body_roll_active = w.display.body_roll_active
    ∧ (startupStage E config clk w).display.refueling_active = w.display.refueling_active := by
  simp only [startupStage]; split_ifs <;> simp

/-- Frame of hard braking and body roll: what `brakeRollStage` leaves untouched. -/
@[simp] theorem brakeRollStage_frame (E : Externals) (config : AppConfig) (tel : Telemetry) (w : Work) :
    (brakeRollStage E config tel w).st = w.st
    ∧ (brakeRollStage E config tel w).out.microphoneLed = w.out.microphoneLed
    ∧ (brakeRollStage E config tel w).out.disableLeds = w.out.disableLeds
    ∧ (brakeRollStage E config tel w).out.playerLeds = w.out.playerLeds
    ∧ (brakeRollStage E config tel w).out.lightbar = w.out.lightbar
    ∧ (brakeRollStage E config tel w).out.leftTriggerEffect = w.out.leftTriggerEffect
    ∧ (brakeRollStage E config tel w).out.rightTriggerEffect = w.out.rightTriggerEffect
    ∧ (brakeRollStage E config tel w).display.fine_alert_active = w.display.fine_alert_active
    ∧ (brakeRollStage E config tel w).display.gear_jolt_active = w.display.gear_jolt_active
    ∧ (brakeRollStage E config tel w).display.engine_cranking_active = w.display.engine_cranking_active
    ∧ (brakeRollStage E config tel w).display.startup_lurch_active = w.display.startup_lurch_active
    ∧ (brakeRollStage E config tel w).display.refueling_active = w.display.refueling_active := by
  simp only [brakeRollStage]; split_ifs <;> simp

/-- Frame of the brake trigger: what `brakeTriggerStage` leaves untouched. -/
@[simp] theorem brakeTriggerStage_frame (config : AppConfig) (tel : Telemetry) (w : Work) :
    (brakeTriggerStage config tel w).st = w.st
    ∧ (brakeTriggerStage config tel w).out.leftRumble = w.out.leftRumble
    ∧ (brakeTriggerStage config tel w).out.rightRumble = w.out.rightRumble
    ∧ (brakeTriggerStage config tel w).out.microphoneLed = w.out.microphoneLed
    ∧ (brakeTriggerStage config tel w).out.disableLeds = w.out.disableLeds
    ∧ (brakeTriggerStage config tel w).out.playerLeds = w.out.playerLeds
    ∧ (brakeTriggerStage config tel w).out.lightbar = w.out.lightbar
    ∧ (brakeTriggerStage config tel w).out.rightTriggerEffect = w.out.rightTriggerEffect
    ∧ (brakeTriggerStage config tel w).display = w.display := by
  simp only [brakeTriggerStage]; split_ifs <;> simp

/-- Frame of the throttle trigger: what `throttleTriggerStage` leaves untouched. -/
@[simp] theorem throttleTriggerStage_frame (k : RpmBands) (config : AppConfig) (tel : Telemetry) (w : Work) :
    (throttleTriggerStage k config tel w).st = w.st
    ∧ (throttleTriggerStage k config tel w).out.leftRumble = w.out.leftRumble
    ∧ (throttleTriggerStage k config tel w).out.rightRumble = w.out.rightRumble
    ∧ (throttleTriggerStage k config tel w).out.microphoneLed = w.out.microphoneLed
    ∧ (throttleTriggerStage k config tel w).out.disableLeds = w.out.disableLeds
    ∧ (throttleTriggerStage k config tel w).out.playerLeds = w.out.playerLeds
    ∧ (throttleTriggerStage k config tel w).out.lightbar = w.out.lightbar
    ∧ (throttleTriggerStage k config tel w).out.leftTriggerEffect = w.out.leftTriggerEffect
    ∧ (throttleTriggerStage k config tel w).display = w.display := by
  simp only [throttleTriggerStage]; split_ifs <;> simp

/-- Frame of the engine-on block: what `engineOnBlock` leaves untouched. -/
@[simp] theorem engineOnBlock_frame (E : Externals) (k : RpmBands) (config : AppConfig) (tel : Telemetry) (w : Work) :
    (engineOnBlock E k config tel w).st = w.st
    ∧ (engineOnBlock E k config tel w).out.microphoneLed = w.out.microphoneLed
    ∧ (engineOnBlock E k config tel w).out.disableLeds = w.out.disableLeds
    ∧ (engineOnBlock E k config tel w).out.playerLeds = w.out.playerLeds
    ∧ (engineOnBlock E k config tel w).out.lightbar = w.out.lightbar
    ∧ (engineOnBlock E k config tel w).display.fine_alert_active = w.display.fine_alert_active
    ∧ (engineOnBlock E k config tel w).display.gear_jolt_active = w.display.gear_jolt_active
    ∧ (engineOnBlock E k config tel w).display.engine_cranking_active = w.display.engine_cranking_active
    ∧ (engineOnBlock E k config tel w).display.startup_lurch_active = w.display.startup_lurch_active
    ∧ (engineOnBlock E k config tel w).display.refueling_active = w.display.refueling_active := by
  simp only [engineOnBlock]; split_ifs <;> simp

/-! ## The loop state and the display flags along an unpaused iteration -/

/-- Up to the lightbar cascade only the counter and the fine-alert fields of
the loop state have moved, and only the fine-alert display flag. -/
@[simp] theorem afterLightbar_frame (E : Externals) (config : AppConfig) (tel : Telemetry)
    (clk : Clock) (s : LoopState) :
    (afterLightbar E config tel clk s).st.pulse_timer = s.pulse_timer + 1
    ∧ (afterLightbar E config tel clk s).st.previous_speed = s.previous_speed
    ∧ (afterLightbar E config tel clk s).st.previous_engine_state = s.previous_engine_state
    ∧ (afterLightbar E config tel clk s).st.is_in_startup_effect = s.is_in_startup_effect
    ∧ (afterLightbar E config tel clk s).st.engine_start_time = s.engine_start_time
    ∧ (afterLightbar E config tel clk s).st.previous_rpm = s.previous_rpm
    ∧ (afterLightbar E config tel clk s).st.previous_gear = s.previous_gear
    ∧ (afterLightbar E config tel clk s).st.jolt_state = s.jolt_state
    ∧ (afterLightbar E config tel clk s).st.previous_fined_state = s.previous_fined_state
    ∧ (afterLightbar E config tel clk s).display.gear_jolt_active = false
    ∧ (afterLightbar E config tel clk s).display.engine_cranking_active = false
    ∧ (afterLightbar E config tel clk s).display.startup_lurch_active = false
    ∧ (afterLightbar E config tel clk s).display.hard_braking_active = false
    ∧ (afterLightbar E config tel clk s).display.body_roll_active = false
    ∧ (afterLightbar E config tel clk s).display.refueling_active = false
    ∧ (afterLightbar E config tel clk s).out.microphoneLed = MicLed.OFF
    ∧ (afterLightbar E config tel clk s).out.playerLeds = zeroOutput.playerLeds
    ∧ (afterLightbar E config tel clk s).out.leftTriggerEffect = zeroOutput.leftTriggerEffect
    ∧ (afterLightbar E config tel clk s).out.rightTriggerEffect
        = zeroOutput.rightTriggerEffect := by
  simp [afterLightbar, tickStart, freshDisplay, zeroOutput]

/-- Before the gear jolt the loop state is the one left by the lightbar
cascade, and the gear-jolt and engine display flags are still false. -/
@[simp] theorem beforeGearJolt_frame (E : Externals) (config : AppConfig) (tel : Telemetry)
    (clk : Clock) (s : LoopState) :
    (beforeGearJolt E config tel clk s).st = (afterLightbar E config tel clk s).st
    ∧ (beforeGearJolt E config tel clk s).out.lightbar
        = (afterLightbar E config tel clk s).out.lightbar
    ∧ (beforeGearJolt E config tel clk s).display.fine_alert_active
        = (afterLightbar E config tel clk s).display.fine_alert_active
    ∧ (beforeGearJolt E config tel clk s).display.gear_jolt_active = false
    ∧ (beforeGearJolt E config tel clk s).display.engine_cranking_active = false
    ∧ (beforeGearJolt E config tel clk s).display.startup_lurch_active = false
    ∧ (beforeGearJolt E config tel clk s).display.hard_braking_active = false
    ∧ (beforeGearJolt E config tel clk s).display.body_roll_active = false := by
  simp [beforeGearJolt]

/-- After the gear jolt, the rest of an unpaused iteration and the final
bookkeeping leave the jolt phase, the gear-jolt display flag, the fine-alert
fields, the lightbar and the player LEDs as they are. -/
theorem loopBody_unpaused_frame (E : Externals) (k : RpmBands) (config : AppConfig)
    (tel : Telemetry) (clk : Clock) (s : LoopState) (hp : tel.paused = false) :
    (loopBody E k config tel clk s).st.jolt_state
        = (afterGearJolt E config tel clk s).st.jolt_state
    ∧ (loopBody E k config tel clk s).display.gear_jolt_active
        = (afterGearJolt E config tel clk s).display.gear_jolt_active
    ∧ (loopBody E k config tel clk s).st.is_in_fine_effect
        = (afterLightbar E config tel clk s).st.is_in_fine_effect
    ∧ (loopBody E k config tel clk s).st.fine_effect_start_time
        = (afterLightbar E config tel clk s).st.fine_effect_start_time
    ∧ (loopBody E k config tel clk s).out.lightbar
        = (afterLightbar E config tel clk s).out.lightbar
    ∧ (loopBody E k config tel clk s).display.fine_alert_active
        = (afterLightbar E config tel clk s).display.fine_alert_active
    ∧ (loopBody E k config tel clk s).st.pulse_timer = s.pulse_timer + 1
    ∧ (loopBody E k config tel clk s).st.previous_gear = tel.gear
    ∧ (loopBody E k config tel clk s).st.previous_fined_state = tel.fined := by
  simp [loopBody, hp, unpausedBody, storePrevious, afterGearJolt]

/-- A qualifying gear-change edge puts the jolt in Phase 1 on that tick,
whatever the phase was: Phase 1 is max-combined into the rumble and the state is
left at 2. -/
theorem jolt_edge_tick (E : Externals) (config : AppConfig) (tel : Telemetry) (clk : Clock)
    (s : LoopState) (hen : config.gear_jolt = true) (hne : tel.gear ≠ s.previous_gear)
    (hg : tel.gear ≠ 0) (hprev : s.previous_gear ≠ 0) :
    (afterGearJolt E config tel clk s).out.leftRumble
        = max (beforeGearJolt E config tel clk s).out.leftRumble
            (castU8 (f32 (255 * config.gear_jolt_multiplier)))
    ∧ (afterGearJolt E config tel clk s).out.rightRumble
        = max (beforeGearJolt E config tel clk s).out.rightRumble
            (castU8 (f32 (100 * config.gear_jolt_multiplier)))
    ∧ (afterGearJolt E config tel clk s).st.jolt_state = 2
    ∧ (afterGearJolt E config tel clk s).display.gear_jolt_active = true := by
  simp [afterGearJolt, gearJoltEdge, gearJoltOutput, hen, hne, hg, hprev]

/-- Without a qualifying edge a jolt in state 2 plays Phase 2 and returns to
Idle. -/
theorem jolt_second_tick (E : Externals) (config : AppConfig) (tel : Telemetry) (clk : Clock)
    (s : LoopState) (hen : config.gear_jolt = true) (hsame : tel.gear = s.previous_gear)
    (hst : s.jolt_state = 2) :
    (afterGearJolt E config tel clk s).out.leftRumble
        = max (beforeGearJolt E config tel clk s).out.leftRumble
            (castU8 (f32 (100 * config.gear_jolt_multiplier)))
    ∧ (afterGearJolt E config tel clk s).out.rightRumble
        = max (beforeGearJolt E config tel clk s).out.rightRumble
            (castU8 (f32 (255 * config.gear_jolt_multiplier)))
    ∧ (afterGearJolt E config tel clk s).st.jolt_state = 0
    ∧ (afterGearJolt E config tel clk s).display.gear_jolt_active = true := by
  simp [afterGearJolt, gearJoltEdge, gearJoltOutput, hen, hsame, hst]

/-- Without a qualifying edge an idle jolt stays idle and the jolt stage leaves
the output record and the display flags alone. -/
theorem jolt_idle_tick (E : Externals) (config : AppConfig) (tel : Telemetry) (clk : Clock)
    (s : LoopState)
    (hno : tel.gear = s.previous_gear ∨ tel.gear = 0 ∨ s.previous_gear = 0)
    (hst : s.jolt_state = 0) :
    (afterGearJolt E config tel clk s).out = (beforeGearJolt E config tel clk s).out
    ∧ (afterGearJolt E config tel clk s).st.jolt_state = 0
    ∧ (afterGearJolt E config tel clk s).display.gear_jolt_active = false := by
  have hedge : ¬ (tel.gear ≠ s.previous_gear ∧ tel.gear ≠ 0 ∧ s.previous_gear ≠ 0) := by
    rintro ⟨h1, h2, h3⟩
    rcases hno with h | h | h
    · exact h1 h
    · exact h2 h
    · exact h3 h
  simp [afterGearJolt, gearJoltEdge, gearJoltOutput, hedge, hst]

/-- In range, the 8-bit conversion is the truncation itself. -/
theorem castU8_of_range (q : ℚ) (h0 : 0 ≤ q) (h1 : q < 256) : castU8 q = ⌊q⌋₊ := by
  have hf0 : 0 ≤ ⌊q⌋ := Int.floor_nonneg.mpr h0
  have hf1 : ⌊q⌋ < 256 := Int.floor_lt.mpr (by exact_mod_cast h1)
  unfold castU8 truncInt
  rw [if_pos h0, Int.emod_eq_of_lt hf0 hf1, Int.floor_toNat]


/-- Small integer constants of the loop are binary32 numbers. -/
theorem f32_consts :
    f32 1 = 1 ∧ f32 2 = 2 ∧ f32 5 = 5 ∧ f32 30 = 30 ∧ f32 90 = 90 ∧ f32 100 = 100
    ∧ f32 200 = 200 ∧ f32 225 = 225 ∧ f32 255 = 255 ∧ f32 550 = 550
    ∧ f32 1000000000 = 1000000000 := by
  have h1 := f32_natCast 1 (by norm_num)
  have h2 := f32_natCast 2 (by norm_num)
  have h5 := f32_natCast 5 (by norm_num)
  have h30 := f32_natCast 30 (by norm_num)
  have h90 := f32_natCast 90 (by norm_num)
  have h100 := f32_natCast 100 (by norm_num)
  have h200 := f32_natCast 200 (by norm_num)
  have h225 := f32_natCast 225 (by norm_num)
  have h255 := f32_natCast 255 (by norm_num)
  have h550 := f32_natCast 550 (by norm_num)
  have hG := f32_int_mul_pow 1953125 9 (by norm_num)
  norm_num at h1 h2 h5 h30 h90 h100 h200 h225 h255 h550 hG
  exact ⟨h1, h2, h5, h30, h90, h100, h200, h225, h255, h550, hG⟩

/-- A binary32 constant scaled by a multiplier in [0,1] stays between 0 and the
constant after rounding. -/
theorem f32_scaled_range (c m : ℚ) (hc : f32 c = c) (hc0 : 0 ≤ c) (hm0 : 0 ≤ m)
    (hm1 : m ≤ 1) : 0 ≤ f32 (c * m) ∧ f32 (c * m) ≤ c := by
  constructor
  · exact f32_nonneg (mul_nonneg hc0 hm0)
  · have := f32_mono (show c * m ≤ c by nlinarith)
    rwa [hc] at this

/-- The 8-bit conversion of a rounded product of a constant below 256 and a
multiplier in [0,1] is its truncation. -/
theorem castU8_scaled (c m : ℚ) (hc : f32 c = c) (hc0 : 0 ≤ c) (hc1 : c < 256) (hm0 : 0 ≤ m)
    (hm1 : m ≤ 1) : castU8 (f32 (c * m)) = ⌊f32 (c * m)⌋₊ := by
  have h := f32_scaled_range c m hc hc0 hm0 hm1
  exact castU8_of_range _ h.1 (by linarith)

/-- The decimal constants of the loop as binary32 numbers: `0.1f`, `0.2f`
(also `0.20f`), `0.70f`, `0.8f`, `3.6f`, `0.0166f` and `3.14159265359f`. -/
theorem f32_decimals :
    f32 (1 / 10) = 13421773 / 134217728 ∧ f32 (2 / 10) = 13421773 / 67108864
    ∧ f32 (20 / 100) = 13421773 / 67108864 ∧ f32 (70 / 100) = 11744051 / 16777216
    ∧ f32 (8 / 10) = 13421773 / 16777216 ∧ f32 (36 / 10) = 7549747 / 2097152
    ∧ f32 (166 / 10000) = 8912057 / 536870912
    ∧ f32 (314159265359 / 100000000000) = 13176795 / 4194304 := by
  have h01 : f32 (1 / 10) = 13421773 / 134217728 := by
    rw [f32_eval_frac _ 13421773 27 (by norm_num) (by norm_num) (by norm_num) (by norm_num)
      (by norm_num)]
    norm_num
  have h02 : f32 (2 / 10) = 13421773 / 67108864 := by
    rw [f32_eval_frac _ 13421773 26 (by norm_num) (by norm_num) (by norm_num) (by norm_num)
      (by norm_num)]
    norm_num
  have h020 : f32 (20 / 100) = 13421773 / 67108864 := by
    rw [f32_eval_frac _ 13421773 26 (by norm_num) (by norm_num) (by norm_num) (by norm_num)
      (by norm_num)]
    norm_num
  have h070 : f32 (70 / 100) = 11744051 / 16777216 := by
    rw [f32_eval_frac _ 11744051 24 (by norm_num) (by norm_num) (by norm_num) (by norm_num)
      (by norm_num)]
    norm_num
  have h08 : f32 (8 / 10) = 13421773 / 16777216 := by
    rw [f32_eval_frac _ 13421773 24 (by norm_num) (by norm_num) (by norm_num) (by norm_num)
      (by norm_num)]
    norm_num
  have h36 : f32 (36 / 10) = 7549747 / 2097152 := by
    rw [f32_eval_frac _ 15099494 22 (by norm_num) (by norm_num) (by norm_num) (by norm_num)
      (by norm_num)]
    norm_num
  have h166 : f32 (166 / 10000) = 8912057 / 536870912 := by
    rw [f32_eval_frac _ 8912057 29 (by norm_num) (by norm_num) (by norm_num) (by norm_num)
      (by norm_num)]
    norm_num
  have hpi : f32 (314159265359 / 100000000000) = 13176795 / 4194304 := by
    rw [f32_eval_frac _ 13176795 22 (by norm_num) (by norm_num) (by norm_num) (by norm_num)
      (by norm_num)]
    norm_num
  exact ⟨h01, h02, h020, h070, h08, h36, h166, hpi⟩

theorem f32_one : f32 1 = 1 := f32_consts.1

theorem f32_two : f32 2 = 2 := f32_consts.2.1

theorem f32_five : f32 5 = 5 := f32_consts.2.2.1

theorem f32_thirty : f32 30 = 30 := f32_consts.2.2.2.1

theorem f32_ninety : f32 90 = 90 := f32_consts.2.2.2.2.1

theorem f32_hundred : f32 100 = 100 := f32_consts.2.2.2.2.2.1

theorem f32_two_hundred : f32 200 = 200 := f32_consts.2.2.2.2.2.2.1

theorem f32_225 : f32 225 = 225 := f32_consts.2.2.2.2.2.2.2.1

theorem f32_255 : f32 255 = 255 := f32_consts.2.2.2.2.2.2.2.2.1

theorem f32_550 : f32 550 = 550 := f32_consts.2.2.2.2.2.2.2.2.2.1

/-- The multiplier `0.7f` gives the jolt values 178 and 70 and the cranking
value 140: the products round to 178.5, 70 and 140. -/
theorem seventy_percent :
    f32 (255 * f32 (7 / 10)) = 357 / 2 ∧ f32 (100 * f32 (7 / 10)) = 70
    ∧ f32 (200 * f32 (7 / 10)) = 140 ∧ 0 ≤ f32 (7 / 10) ∧ f32 (7 / 10) ≤ 1 := by
  have h07 : f32 (7 / 10) = 11744051 / 16777216 := by
    rw [f32_eval_frac _ 11744051 24 (by norm_num) (by norm_num) (by norm_num) (by norm_num)
      (by norm_num)]
    norm_num
  rw [h07]
  refine ⟨?_, ?_, ?_, by norm_num, by norm_num⟩
  · rw [f32_eval_frac _ 11698176 16 (by norm_num) (by norm_num) (by norm_num) (by norm_num)
      (by norm_num)]
    norm_num
  · rw [f32_eval_frac _ 9175040 17 (by norm_num) (by norm_num) (by norm_num) (by norm_num)
      (by norm_num)]
    norm_num
  · rw [f32_eval_frac _ 9175040 16 (by norm_num) (by norm_num) (by norm_num) (by norm_num)
      (by norm_num)]
    norm_num
/-! ## The fine alert along an unpaused iteration -/

/-- The work record on which the lightbar cascade runs: counter incremented,
fined edge applied. -/
theorem fineEdge_tickStart (config : AppConfig) (tel : Telemetry) (clk : Clock)
    (s : LoopState) :
    (fineEdge config tel clk (tickStart s)).st.fine_effect_start_time
        = fineStart config tel clk s
    ∧ (config.fine_alert = true
        ∧ (fineEdge config tel clk (tickStart s)).st.is_in_fine_effect = true
        ↔ fineArmed config tel s) := by
  unfold fineEdge fineStart fineArmed fineEdgeSeen tickStart
  by_cases h1 : config.fine_alert = true <;>
  by_cases h2 : tel.fined = s.previous_fined_state <;> simp [h1, h2]

/-- The output of the running fine alert depends on the work record only
through its output record and the counter. -/
theorem fineFlash_out (e : ℚ) (w v : Work) (hout : w.out = v.out)
    (hpt : w.st.pulse_timer = v.st.pulse_timer) :
    (fineFlash e w).out = (fineFlash e v).out := by
  have hl : (fineLightbar e w).out = (fineLightbar e v).out := by
    simp only [fineLightbar]
    split_ifs <;> simp [hout]
  have hp : (fineLightbar e w).st.pulse_timer = (fineLightbar e v).st.pulse_timer := by
    simp [hpt]
  simp only [fineFlash, fineRumble, hp]
  split_ifs <;> simp [hl]

/-- While the fine alert runs, the cascade is the flash and rumble of the
alert on the zeroed record, and the alert stays active. -/
theorem afterLightbar_running (E : Externals) (config : AppConfig) (tel : Telemetry)
    (clk : Clock) (s : LoopState) (h : fineRunning config tel clk s) :
    (afterLightbar E config tel clk s).out
        = (fineFlash (fineElapsed config tel clk s)
            { st := { s with pulse_timer := s.pulse_timer + 1 }, out := zeroOutput
              display := freshDisplay }).out
    ∧ (afterLightbar E config tel clk s).st.is_in_fine_effect = true
    ∧ (afterLightbar E config tel clk s).st.fine_effect_start_time
        = fineStart config tel clk s
    ∧ (afterLightbar E config tel clk s).display.fine_alert_active = true := by
  obtain ⟨harm, hel⟩ := h
  have hs := fineEdge_tickStart config tel clk s
  have hc := hs.2.mpr harm
  have hnot : ¬ (duration_seconds (clk.fine_elapsed_now
      - (fineEdge config tel clk (tickStart s)).st.fine_effect_start_time)
        > FINE_EFFECT_DURATION_S) := by
    rw [hs.1]; exact not_lt.mpr hel
  unfold afterLightbar lightbarCascade
  rw [if_pos hc]
  simp only []
  rw [if_neg hnot]
  refine ⟨?_, ?_, ?_, ?_⟩
  · rw [hs.1]
    exact fineFlash_out _ _ _ (by simp [tickStart]) (by simp [tickStart])
  · simp [hc.2]
  · simp [hs.1]
  · simp

/-- Once the elapsed time of an armed fine alert exceeds the duration, the
cascade only ends the alert: the output record stays zeroed. -/
theorem afterLightbar_expired (E : Externals) (config : AppConfig) (tel : Telemetry)
    (clk : Clock) (s : LoopState) (harm : fineArmed config tel s)
    (hel : fineElapsed config tel clk s > FINE_EFFECT_DURATION_S) :
    (afterLightbar E config tel clk s).out = zeroOutput
    ∧ (afterLightbar E config tel clk s).st.is_in_fine_effect = false
    ∧ (afterLightbar E config tel clk s).display.fine_alert_active = true := by
  have hs := fineEdge_tickStart config tel clk s
  have hc := hs.2.mpr harm
  have hgt : duration_seconds (clk.fine_elapsed_now
      - (fineEdge config tel clk (tickStart s)).st.fine_effect_start_time)
        > FINE_EFFECT_DURATION_S := by
    rw [hs.1]; exact hel
  unfold afterLightbar lightbarCascade
  rw [if_pos hc]
  simp only []
  rw [if_pos hgt]
  simp [tickStart]

/-- The durations the loop reads are binary32 numbers, nonnegative for a
nonnegative elapsed time, and monotone in the elapsed time. -/
theorem duration_seconds_facts (d : ℚ) :
    f32 (duration_seconds d) = duration_seconds d
    ∧ (0 ≤ d → 0 ≤ duration_seconds d)
    ∧ (∀ d2, d ≤ d2 → duration_seconds d ≤ duration_seconds d2) := by
  refine ⟨f32_idem _, fun h => ?_, fun d2 h => ?_⟩
  · exact f32_nonneg (div_nonneg (f32_nonneg (by positivity)) (by norm_num))
  · exact f32_mono (div_le_div_of_nonneg_right (f32_mono (by linarith)) (by norm_num))

/-- An elapsed time of `c` seconds reads `c` when `c * 1e9` and `c` are
binary32 numbers, and an elapsed time of at most `c` reads at most `c`. -/
theorem duration_seconds_le (c : ℚ) (h9 : f32 (c * 1000000000) = c * 1000000000)
    (hc : f32 c = c) :
    duration_seconds c = c ∧ ∀ d, d ≤ c → duration_seconds d ≤ c := by
  have e : duration_seconds c = c := by
    unfold duration_seconds
    rw [h9, mul_div_assoc, div_self (by norm_num), mul_one, hc]
  refine ⟨e, fun d h => ?_⟩
  have := (duration_seconds_facts d).2.2 c h
  rwa [e] at this

/-- An elapsed time of 5 s reads 5.0, and an elapsed time of at most 5 s reads
at most 5.0. -/
theorem duration_seconds_five :
    duration_seconds 5 = 5 ∧ ∀ d, d ≤ 5 → duration_seconds d ≤ 5 := by
  apply duration_seconds_le 5 _ f32_consts.2.2.1
  have := f32_int_mul_pow 9765625 9 (by norm_num)
  norm_num at this ⊢
  exact this

/-- The elapsed times that read more than 5.0: the count of 5000000256 ns is
halfway between the binary32 numbers 5000000000 and 5000000512 and is rounded
to the second, whose quotient by 1e9 reads 5.000000476837158203125; every
smaller count is rounded to 5000000000 or less. -/
theorem duration_seconds_gt_five (d : ℚ) :
    duration_seconds d > 5 ↔ 5000000256 / 1000000000 ≤ d := by
  have h5 : f32 5000000000 = 5000000000 := by
    have := f32_int_mul_pow 9765625 9 (by norm_num)
    norm_num at this ⊢
    exact this
  have ht : f32 5000000256 = 5000000512 := by
    rw [f32_eval_int_tie 5000000256 9765626 9 (by norm_num) (by norm_num)
      (Or.inr (by norm_num)) (by decide)]
    norm_num
  have hq : f32 (5000000512 / 1000000000) = 10485761 / 2097152 := by
    rw [f32_eval_frac (5000000512 / 1000000000) 10485761 21 (by norm_num) (by norm_num)
      (by norm_num) (by norm_num) (by norm_num)]
    norm_num
  constructor
  · intro h
    by_contra hlt
    have hlt' : d * 1000000000 < 5000000256 := by
      have := not_le.mp hlt
      linarith
    have hle : f32 (d * 1000000000) ≤ 5000000000 := by
      rcases le_or_lt (d * 1000000000) 5000000000 with h1 | h1
      · have := f32_mono h1
        rwa [h5] at this
      · rw [f32_eval_int (d * 1000000000) 9765625 9 (by norm_num; linarith)
          (by norm_num; linarith) (by norm_num; linarith) (by norm_num; linarith)]
        norm_num
    have := f32_mono (show f32 (d * 1000000000) / 1000000000 ≤ 5 by
      rw [div_le_iff₀ (by norm_num)]; linarith)
    rw [f32_five] at this
    unfold duration_seconds at h
    exact absurd h (not_lt.mpr this)
  · intro h
    have h1 : (5000000512 : ℚ) ≤ f32 (d * 1000000000) := by
      have := f32_mono (show (5000000256 : ℚ) ≤ d * 1000000000 by linarith)
      rwa [ht] at this
    have h2 := f32_mono (show (5000000512 : ℚ) / 1000000000 ≤ f32 (d * 1000000000) / 1000000000
      from div_le_div_of_nonneg_right h1 (by norm_num))
    rw [hq] at h2
    unfold duration_seconds
    have : (5 : ℚ) < 10485761 / 2097152 := by norm_num
    exact lt_of_lt_of_le this h2

/-- Dividing a binary32 number by 0.25f is exact. -/
theorem f32_div_quarter (x : ℚ) : f32 (f32 x / (1 / 4)) = f32 x / (1 / 4) := by
  have := f32_mul_pow x 2
  rw [show f32 x / (1 / 4) = f32 x * 2 ^ 2 by ring]
  exact this

/-- For a nonnegative binary32 elapsed time the flash phase is the floor of the
number of quarter seconds, modulo 8. -/
theorem flash_phase_of_nonneg (e : ℚ) (h : 0 ≤ e) (hf : f32 e = e) :
    flash_phase e = ⌊e / (1 / 4)⌋ % 8 := by
  have h4 : 0 ≤ e / (1 / 4) := by positivity
  have hq : f32 (e / (1 / 4)) = e / (1 / 4) := by
    have := f32_div_quarter e
    rwa [hf] at this
  unfold flash_phase truncInt
  rw [hq, if_pos h4]
  exact Int.tmod_eq_emod (Int.floor_nonneg.mpr h4) (by decide)

/-- On the zeroed record the flash of the fine alert is the colour of its
phase. -/
theorem fineFlash_lightbar (e : ℚ) (st : LoopState) (d : DisplayData) :
    (fineFlash e { st := st, out := zeroOutput, display := d }).out.lightbar
      = fineFlashColour (flash_phase e) := by
  simp only [fineFlash, fineRumble_frame, fineLightbar, fineFlashColour]
  split_ifs <;> simp [zeroOutput]


/-- Sample readings of the conversion to `float` seconds: 1 s reads 1.0,
1.99999999 s reads 2.0, 5.0000001 s reads 5.0, 5.000001 s reads
5.00000095367431640625, 6 s reads 6.0 and 7 s reads 7.0. -/
theorem duration_seconds_samples :
    duration_seconds 1 = 1 ∧ duration_seconds (199999999 / 100000000) = 2
    ∧ duration_seconds (50000001 / 10000000) = 5
    ∧ duration_seconds (5000001 / 1000000) = 5242881 / 1048576
    ∧ duration_seconds 6 = 6 ∧ duration_seconds 7 = 7 := by
  have a1 : f32 1000000000 = 1000000000 := by
    have := f32_int_mul_pow 1953125 9 (by norm_num)
    norm_num at this ⊢
    exact this
  have a2 : f32 1999999990 = 2000000000 := by
    rw [f32_eval_int 1999999990 15625000 7 (by norm_num) (by norm_num) (by norm_num)
      (by norm_num)]
    norm_num
  have a3 : f32 5000000100 = 5000000000 := by
    rw [f32_eval_int 5000000100 9765625 9 (by norm_num) (by norm_num) (by norm_num)
      (by norm_num)]
    norm_num
  have a4 : f32 5000001000 = 5000001024 := by
    rw [f32_eval_int 5000001000 9765627 9 (by norm_num) (by norm_num) (by norm_num)
      (by norm_num)]
    norm_num
  have a5 : f32 (9765627 / 1953125) = 5242881 / 1048576 := by
    rw [f32_eval_frac (9765627 / 1953125) 10485762 21 (by norm_num) (by norm_num) (by norm_num)
      (by norm_num) (by norm_num)]
    norm_num
  have a6 : f32 6000000000 = 6000000000 := by
    have := f32_int_mul_pow 11718750 9 (by norm_num)
    norm_num at this ⊢
    exact this
  have a7 : f32 7000000000 = 7000000000 := by
    have := f32_int_mul_pow 13671875 9 (by norm_num)
    norm_num at this ⊢
    exact this
  have b6 : f32 6 = 6 := by
    have := f32_natCast 6 (by norm_num)
    norm_num at this ⊢
    exact this
  have b7 : f32 7 = 7 := by
    have := f32_natCast 7 (by norm_num)
    norm_num at this ⊢
    exact this
  refine ⟨?_, ?_, ?_, ?_, ?_, ?_⟩
  · unfold duration_seconds
    norm_num [a1, f32_one]
  · unfold duration_seconds
    norm_num [a2, f32_two]
  · unfold duration_seconds
    norm_num [a3, f32_five]
  · unfold duration_seconds
    norm_num [a4, a5]
  · unfold duration_seconds
    norm_num [a6, b6]
  · unfold duration_seconds
    norm_num [a7, b7]
/-! ## The rumble channels along an unpaused iteration -/

theorem maxRequest_nil : maxRequest [] = 0 := rfl

theorem maxRequest_singleton (a : Nat) : maxRequest [a] = a := by
  simp [maxRequest]

theorem maxRequest_append (l m : List Nat) :
    maxRequest (l ++ m) = max (maxRequest l) (maxRequest m) := by
  induction l with
  | nil => simp [maxRequest]
  | cons a l ih =>
    have h : maxRequest (a :: l ++ m) = max a (maxRequest (l ++ m)) := rfl
    have h2 : maxRequest (a :: l) = max a (maxRequest l) := rfl
    rw [h, h2, ih, max_assoc]

/-- A fine alert that is not armed leaves the rumble at zero and the alert
fields alone. -/
theorem afterLightbar_idle (E : Externals) (config : AppConfig) (tel : Telemetry)
    (clk : Clock) (s : LoopState) (h : ¬ fineArmed config tel s) :
    (afterLightbar E config tel clk s).out.leftRumble = 0
    ∧ (afterLightbar E config tel clk s).out.rightRumble = 0
    ∧ (afterLightbar E config tel clk s).display.fine_alert_active = false := by
  have hs := fineEdge_tickStart config tel clk s
  have hc : ¬ (config.fine_alert = true
      ∧ (fineEdge config tel clk (tickStart s)).st.is_in_fine_effect = true) :=
    fun hc => h (hs.2.mp hc)
  unfold afterLightbar lightbarCascade
  rw [if_neg hc]
  refine ⟨?_, ?_, ?_⟩ <;> split_ifs <;> simp [tickStart, zeroOutput, freshDisplay]

/-- The rumble after the lightbar cascade is what the fine alert requests. -/
theorem afterLightbar_rumble (E : Externals) (config : AppConfig) (tel : Telemetry)
    (clk : Clock) (s : LoopState) :
    (afterLightbar E config tel clk s).out.leftRumble
        = maxRequest (fineLeftRequest config tel clk s)
    ∧ (afterLightbar E config tel clk s).out.rightRumble
        = maxRequest (fineRightRequest config tel clk s) := by
  by_cases harm : fineArmed config tel s
  · by_cases hel : fineElapsed config tel clk s ≤ FINE_EFFECT_DURATION_S
    · have r := afterLightbar_running E config tel clk s ⟨harm, hel⟩
      have hrun : fineRunning config tel clk s := ⟨harm, hel⟩
      rw [r.1]
      by_cases hpt : (s.pulse_timer + 1) % 20 < 10
      · simp [fineLeftRequest, fineRightRequest, hrun, hpt, maxRequest, fineFlash, fineRumble,
          zeroOutput]
      · simp [fineLeftRequest, fineRightRequest, hrun, hpt, maxRequest, fineFlash, fineRumble,
          zeroOutput]
    · have x := afterLightbar_expired E config tel clk s harm (not_le.mp hel)
      have hrun : ¬ fineRunning config tel clk s := fun h => hel h.2
      rw [x.1]
      simp [fineLeftRequest, fineRightRequest, hrun, maxRequest, zeroOutput]
  · have x := afterLightbar_idle E config tel clk s harm
    have hrun : ¬ fineRunning config tel clk s := fun h => harm h.1
    rw [x.1, x.2.1]
    simp [fineLeftRequest, fineRightRequest, hrun, maxRequest]

/-- The refuel stage max-combines the refuel request into both motors. -/
theorem refuelStage_rumble (config : AppConfig) (tel : Telemetry) (s : LoopState) (w : Work)
    (hpt : w.st.pulse_timer = s.pulse_timer + 1) :
    (refuelStage config tel w).out.leftRumble
        = max w.out.leftRumble (maxRequest (refuelRequest config tel s))
    ∧ (refuelStage config tel w).out.rightRumble
        = max w.out.rightRumble (maxRequest (refuelRequest config tel s)) := by
  simp only [refuelStage, refuelRequest, hpt]
  constructor <;> split_ifs <;> simp_all [maxRequest]

/-- The gear-jolt stages max-combine the jolt request into both motors. -/
theorem gearJolt_rumble (config : AppConfig) (tel : Telemetry) (s : LoopState) (w : Work)
    (hg : w.st.previous_gear = s.previous_gear) (hj : w.st.jolt_state = s.jolt_state) :
    (gearJoltOutput config (gearJoltEdge config tel w)).out.leftRumble
        = max w.out.leftRumble (maxRequest (joltLeftRequest config tel s))
    ∧ (gearJoltOutput config (gearJoltEdge config tel w)).out.rightRumble
        = max w.out.rightRumble (maxRequest (joltRightRequest config tel s)) := by
  simp only [gearJoltOutput, gearJoltEdge, joltLeftRequest, joltRightRequest, joltPhase, hg, hj]
  constructor <;> split_ifs <;> simp_all [maxRequest]

/-- The cranking stage max-combines the cranking request into the right
motor. -/
theorem crankingStage_rumble (config : AppConfig) (tel : Telemetry) (s : LoopState) (w : Work)
    (hpt : w.st.pulse_timer = s.pulse_timer + 1) (hr : w.st.previous_rpm = s.previous_rpm) :
    (crankingStage config tel w).out.rightRumble
        = max w.out.rightRumble (maxRequest (crankingRequest config tel s)) := by
  simp only [crankingStage, crankingRequest, hpt, hr]
  split_ifs <;> simp_all [maxRequest]

/-- The engine-on edge and the startup stage max-combine the lurch request into
the left motor. -/
theorem startup_rumble (E : Externals) (config : AppConfig) (tel : Telemetry) (clk : Clock)
    (s : LoopState) (w : Work)
    (hp : w.st.previous_engine_state = s.previous_engine_state)
    (ha : w.st.is_in_startup_effect = s.is_in_startup_effect)
    (ht : w.st.engine_start_time = s.engine_start_time) :
    (startupStage E config clk (crankingStage config tel
        (engineStartEdge config tel clk w))).out.leftRumble
      = max w.out.leftRumble (maxRequest (startupLeftRequest E config tel clk s)) := by
  simp only [startupStage, crankingStage_frame, engineStartEdge, startupLeftRequest,
    startupElapsed, startupEdgeSeen, hp, ha, ht]
  split_ifs <;> simp_all [maxRequest]

/-- The engine-on block max-combines the hard-braking and body-roll requests
into the motors. -/
theorem engineOnBlock_rumble (E : Externals) (k : RpmBands) (config : AppConfig)
    (tel : Telemetry) (s : LoopState) (w : Work)
    (hpt : w.st.pulse_timer = s.pulse_timer + 1)
    (hs : w.st.previous_speed = s.previous_speed) :
    (engineOnBlock E k config tel w).out.leftRumble
        = max w.out.leftRumble (max (maxRequest (hardBrakingRequest config tel s))
            (maxRequest (bodyRollLeftRequest E config tel s)))
    ∧ (engineOnBlock E k config tel w).out.rightRumble
        = max w.out.rightRumble (max (maxRequest (hardBrakingRequest config tel s))
            (maxRequest (bodyRollRightRequest E config tel s))) := by
  simp only [engineOnBlock, brakeRollStage, hardBrakingRequest, bodyRollLeftRequest,
    bodyRollRightRequest, bodyRollActive, bodyRollRumble, hpt, hs]
  constructor <;> split_ifs <;> simp_all [maxRequest]
  all_goals
    rename_i h1 h2
    exact absurd h2.1.2.2.2.2 (not_lt.mpr h1)

/-- The rumble of an unpaused iteration is the maximum of the requests of the
tick, on each motor. -/
theorem unpaused_rumble (E : Externals) (k : RpmBands) (config : AppConfig)
    (tel : Telemetry) (clk : Clock) (s : LoopState) (hp : tel.paused = false) :
    (loopBody E k config tel clk s).out.leftRumble
        = maxRequest (leftRequests E config tel clk s)
    ∧ (loopBody E k config tel clk s).out.rightRumble
        = maxRequest (rightRequests E config tel clk s) := by
  have hfine := afterLightbar_rumble E config tel clk s
  have hrefuel := refuelStage_rumble config tel s
    (fuelLedStage E config tel (micLedStage config tel (afterLightbar E config tel clk s)))
    (by simp)
  have hjolt := gearJolt_rumble config tel s (beforeGearJolt E config tel clk s)
    (by simp) (by simp)
  have hcrank := crankingStage_rumble config tel s
    (engineStartEdge config tel clk (afterGearJolt E config tel clk s))
    (by simp [afterGearJolt]) (by simp [afterGearJolt])
  have hstart := startup_rumble E config tel clk s (afterGearJolt E config tel clk s)
    (by simp [afterGearJolt]) (by simp [afterGearJolt]) (by simp [afterGearJolt])
  have hblock := engineOnBlock_rumble E k config tel s
    (startupStage E config clk (crankingStage config tel
      (engineStartEdge config tel clk (afterGearJolt E config tel clk s))))
    (by simp [afterGearJolt]) (by simp [afterGearJolt])
  have hbefore : (beforeGearJolt E config tel clk s).out.leftRumble
        = max (maxRequest (fineLeftRequest config tel clk s))
            (maxRequest (refuelRequest config tel s))
      ∧ (beforeGearJolt E config tel clk s).out.rightRumble
        = max (maxRequest (fineRightRequest config tel clk s))
            (maxRequest (refuelRequest config tel s)) := by
    unfold beforeGearJolt
    rw [hrefuel.1, hrefuel.2]
    simp [hfine.1, hfine.2]
  have hafter : (afterGearJolt E config tel clk s).out.leftRumble
        = max (beforeGearJolt E config tel clk s).out.leftRumble
            (maxRequest (joltLeftRequest config tel s))
      ∧ (afterGearJolt E config tel clk s).out.rightRumble
        = max (beforeGearJolt E config tel clk s).out.rightRumble
            (maxRequest (joltRightRequest config tel s)) := hjolt
  have hleft : (loopBody E k config tel clk s).out.leftRumble
      = (engineOnBlock E k config tel (startupStage E config clk (crankingStage config tel
          (engineStartEdge config tel clk (afterGearJolt E config tel clk s))))).out.leftRumble := by
    simp [loopBody, hp, unpausedBody]
  have hright : (loopBody E k config tel clk s).out.rightRumble
      = (engineOnBlock E k config tel (startupStage E config clk (crankingStage config tel
          (engineStartEdge config tel clk (afterGearJolt E config tel clk s))))).out.rightRumble := by
    simp [loopBody, hp, unpausedBody]
  constructor
  · rw [hleft, hblock.1, hstart, hafter.1, hbefore.1]
    simp only [leftRequests, maxRequest_append, max_assoc]
  · rw [hright, hblock.2]
    have hr : (startupStage E config clk (crankingStage config tel
        (engineStartEdge config tel clk (afterGearJolt E config tel clk s)))).out.rightRumble
        = max (afterGearJolt E config tel clk s).out.rightRumble
            (maxRequest (crankingRequest config tel s)) := by
      have e : (startupStage E config clk (crankingStage config tel
          (engineStartEdge config tel clk (afterGearJolt E config tel clk s)))).out.rightRumble
          = (crankingStage config tel
              (engineStartEdge config tel clk (afterGearJolt E config tel clk s))).out.rightRumble := by
        simp only [startupStage_frame]
      have e2 : (engineStartEdge config tel clk (afterGearJolt E config tel clk s)).out.rightRumble
          = (afterGearJolt E config tel clk s).out.rightRumble := by
        simp only [engineStartEdge_frame]
      rw [e, hcrank, e2]
    rw [hr, hafter.2, hbefore.2]
    simp only [rightRequests, maxRequest_append, max_assoc]

/-! ## The output record of an unpaused iteration, field by field -/

/-- The unpaused body is the engine-on block on what precedes it. -/
theorem unpausedBody_eq (E : Externals) (k : RpmBands) (config : AppConfig) (tel : Telemetry)
    (clk : Clock) (s : LoopState) :
    unpausedBody E k config tel clk s
      = engineOnBlock E k config tel (beforeEngineOn E config tel clk s) := rfl

/-- Before the engine-on block the counter is the incremented one, the
previous speed is untouched and only the rumble and the early fields of the
output record have been written. -/
@[simp] theorem beforeEngineOn_frame (E : Externals) (config : AppConfig) (tel : Telemetry)
    (clk : Clock) (s : LoopState) :
    (beforeEngineOn E config tel clk s).st.pulse_timer = s.pulse_timer + 1
    ∧ (beforeEngineOn E config tel clk s).st.previous_speed = s.previous_speed
    ∧ (beforeEngineOn E config tel clk s).display.hard_braking_active = false
    ∧ (beforeEngineOn E config tel clk s).display.body_roll_active = false
    ∧ (beforeEngineOn E config tel clk s).out.leftTriggerEffect = zeroOutput.leftTriggerEffect
    ∧ (beforeEngineOn E config tel clk s).out.rightTriggerEffect
        = zeroOutput.rightTriggerEffect := by
  simp [beforeEngineOn, afterGearJolt, beforeGearJolt]

/-- The microphone LED of an unpaused iteration. -/
theorem unpaused_micLed (E : Externals) (k : RpmBands) (config : AppConfig) (tel : Telemetry)
    (clk : Clock) (s : LoopState) (hp : tel.paused = false) :
    (loopBody E k config tel clk s).out.microphoneLed = micLedValue config tel := by
  have h : (loopBody E k config tel clk s).out.microphoneLed
      = (micLedStage config tel (afterLightbar E config tel clk s)).out.microphoneLed := by
    simp [loopBody, hp, unpausedBody, afterGearJolt, beforeGearJolt]
  rw [h]
  simp only [micLedStage, micLedValue]
  split_ifs <;> simp

/-- The player LEDs of an unpaused iteration. -/
theorem unpaused_playerLeds (E : Externals) (k : RpmBands) (config : AppConfig)
    (tel : Telemetry) (clk : Clock) (s : LoopState) (hp : tel.paused = false) :
    (loopBody E k config tel clk s).out.playerLeds = playerLedsValue E config tel s := by
  have h : (loopBody E k config tel clk s).out.playerLeds
      = (fuelLedStage E config tel (micLedStage config tel
          (afterLightbar E config tel clk s))).out.playerLeds := by
    simp [loopBody, hp, unpausedBody, afterGearJolt, beforeGearJolt]
  rw [h]
  simp only [fuelLedStage, playerLedsValue, fuelBrightness, fuelBlinks]
  split_ifs <;> simp_all [zeroOutput]
  all_goals
    exfalso
    obtain ⟨_, hlt⟩ := ‹_ ∧ _›
    linarith

/-- The trigger effects of an unpaused iteration. -/
theorem unpaused_triggers (E : Externals) (k : RpmBands) (config : AppConfig)
    (tel : Telemetry) (clk : Clock) (s : LoopState) (hp : tel.paused = false) :
    (loopBody E k config tel clk s).out.leftTriggerEffect = leftTriggerValue config tel
    ∧ (loopBody E k config tel clk s).out.rightTriggerEffect
        = rightTriggerValue k config tel := by
  have h : (loopBody E k config tel clk s).out
      = (engineOnBlock E k config tel (beforeEngineOn E config tel clk s)).out := by
    simp [loopBody, hp, unpausedBody_eq]
  rw [h]
  simp only [engineOnBlock, leftTriggerValue, rightTriggerValue]
  constructor
  · split_ifs <;> simp_all [brakeTriggerStage]
  · split_ifs <;> simp_all [throttleTriggerStage]

/-- The lightbar after the cascade is the colour of the first rule that
applies. -/
theorem afterLightbar_lightbar (E : Externals) (config : AppConfig) (tel : Telemetry)
    (clk : Clock) (s : LoopState) :
    (afterLightbar E config tel clk s).out.lightbar
      = firstMatch (lightbarRules E config tel clk s) := by
  by_cases harm : fineArmed config tel s
  · have hfm : firstMatch (lightbarRules E config tel clk s) = fineRuleColour config tel clk s := by
      simp [lightbarRules, firstMatch, harm]
    rw [hfm]
    by_cases hel : fineElapsed config tel clk s ≤ FINE_EFFECT_DURATION_S
    · have r := afterLightbar_running E config tel clk s ⟨harm, hel⟩
      rw [r.1, fineFlash_lightbar, fineRuleColour, if_neg (not_lt.mpr hel)]
    · have x := afterLightbar_expired E config tel clk s harm (not_le.mp hel)
      rw [x.1, fineRuleColour, if_pos (not_le.mp hel)]
      rfl
  · have hs := fineEdge_tickStart config tel clk s
    have hc : ¬ (config.fine_alert = true
        ∧ (fineEdge config tel clk (tickStart s)).st.is_in_fine_effect = true) :=
      fun hc => harm (hs.2.mp hc)
    unfold afterLightbar lightbarCascade
    rw [if_neg hc]
    simp only [lightbarRules, firstMatch, parkBrakeRule, retarderRule, hazardRule, blinkerRule,
      retarder_blue_value, decide_eq_true_eq]
    rw [if_neg harm]
    split_ifs <;> simp [tickStart, zeroOutput]

/-- The lightbar of an unpaused iteration. -/
theorem unpaused_lightbar (E : Externals) (k : RpmBands) (config : AppConfig)
    (tel : Telemetry) (clk : Clock) (s : LoopState) (hp : tel.paused = false) :
    (loopBody E k config tel clk s).out.lightbar
      = firstMatch (lightbarRules E config tel clk s) := by
  rw [(loopBody_unpaused_frame E k config tel clk s hp).2.2.2.2.1, afterLightbar_lightbar]

/-! ## Facts about `map_value` -/

/-- The value of `map_value` is a point between `out_min` and `out_max`:
`out_min + t * (out_max - out_min)` for some `t` in [0,1], whatever the input
range is. -/
theorem map_value_convex (v a b c d : ℚ) :
    ∃ t : ℚ, 0 ≤ t ∧ t ≤ 1 ∧ map_value v a b c d = c + t * (d - c) := by
  unfold map_value
  simp only []
  by_cases hab : b = a
  · exact ⟨0, le_refl 0, zero_le_one, by rw [if_pos hab]; ring⟩
  · rw [if_neg hab]
    rcases lt_or_gt_of_ne hab with hlt | hgt
    · -- reversed range: the clamped value is `in_max`
      refine ⟨1, zero_le_one, le_refl 1, ?_⟩
      have hba : b - a ≠ 0 := sub_ne_zero.mpr hab
      have hv : (if (if v < a then a else v) > b then b else (if v < a then a else v)) = b := by
        split_ifs <;> first | rfl | (exfalso; linarith)
      rw [hv]
      field_simp
    · -- proper range
      have hba : 0 < b - a := sub_pos.mpr hgt
      refine ⟨((if (if v < a then a else v) > b then b else (if v < a then a else v)) - a)
        / (b - a), ?_, ?_, ?_⟩
      · apply div_nonneg _ hba.le
        split_ifs <;> linarith
      · rw [div_le_one hba]
        split_ifs <;> linarith
      · field_simp
        ring

/-- With `out_min ≤ out_max` the value of `map_value` lies between them. -/
theorem map_value_bounds (v a b c d : ℚ) (hcd : c ≤ d) :
    c ≤ map_value v a b c d ∧ map_value v a b c d ≤ d := by
  obtain ⟨t, h0, h1, h⟩ := map_value_convex v a b c d
  rw [h]
  constructor <;> nlinarith

/-- With `out_max ≤ out_min` the value of `map_value` lies between them. -/
theorem map_value_bounds_rev (v a b c d : ℚ) (hdc : d ≤ c) :
    d ≤ map_value v a b c d ∧ map_value v a b c d ≤ c := by
  obtain ⟨t, h0, h1, h⟩ := map_value_convex v a b c d
  rw [h]
  constructor <;> nlinarith

/-- At or below `in_min` of a proper range `map_value` is `out_min`. -/
theorem map_value_low (v a b c d : ℚ) (hab : a < b) (hv : v ≤ a) :
    map_value v a b c d = c := by
  unfold map_value
  simp only []
  have h1 : (if v < a then a else v) = a := by
    split_ifs <;> linarith
  rw [h1, if_neg (not_lt.mpr hab.le), if_neg (ne_of_gt hab)]
  simp

/-- At or above `in_max` of a proper range `map_value` is `out_max`. -/
theorem map_value_high (v a b c d : ℚ) (hab : a < b) (hv : b ≤ v) :
    map_value v a b c d = d := by
  unfold map_value
  simp only []
  have h1 : (if v < a then a else v) = v := if_neg (not_lt.mpr (by linarith))
  have h2 : (if v > b then b else v) = b := by
    split_ifs <;> linarith
  rw [h1, h2, if_neg (ne_of_gt hab)]
  have hba : b - a ≠ 0 := sub_ne_zero.mpr (ne_of_gt hab)
  field_simp

/-- Inside a proper range `map_value` is the linear interpolation. -/
theorem map_value_mid (v a b c d : ℚ) (hab : a < b) (h1 : a ≤ v) (h2 : v ≤ b) :
    map_value v a b c d = (v - a) * (d - c) / (b - a) + c := by
  unfold map_value
  simp only []
  rw [if_neg (not_lt.mpr h1), if_neg (not_lt.mpr h2), if_neg (ne_of_gt hab)]

/-- On an empty range `map_value` is `out_min`. -/
theorem map_value_empty (v a c d : ℚ) : map_value v a a c d = c := by
  unfold map_value
  simp

/-! ## Facts about `map_value` in `float` arithmetic -/

/-- The input of `map_value` after its two clamping statements, for an input
range that is not reversed. -/
theorem clamped_input_bounds (v a b : ℚ) (hab : a ≤ b) :
    a ≤ (if (if v < a then a else v) > b then b else (if v < a then a else v))
    ∧ (if (if v < a then a else v) > b then b else (if v < a then a else v)) ≤ b := by
  constructor <;> split_ifs <;> linarith

/-- The input of `map_value` after its two clamping statements, for a reversed
input range: it is `in_max`. -/
theorem clamped_input_reversed (v a b : ℚ) (hab : b < a) :
    (if (if v < a then a else v) > b then b else (if v < a then a else v)) = b := by
  split_ifs <;> first | rfl | (exfalso; linarith)

/-- With `in_max = in_min` the value is `out_min` (line 586). -/
theorem map_value_f32_empty (v a c d : ℚ) : map_value_f32 v a a c d = c := by
  simp [map_value_f32]

/-- At or below `in_min` of a proper range the value is `out_min` rounded. -/
theorem map_value_f32_low (v a b c d : ℚ) (hab : a < b) (hv : v ≤ a) :
    map_value_f32 v a b c d = f32 c := by
  unfold map_value_f32
  simp only []
  have h1 : (if v < a then a else v) = a := by
    split_ifs <;> linarith
  rw [h1, if_neg (not_lt.mpr hab.le), if_neg (ne_of_gt hab)]
  simp [f32_zero]

/-- Inside a proper range the value is the interpolation, every operation
rounded. -/
theorem map_value_f32_mid (v a b c d : ℚ) (hab : a < b) (h1 : a ≤ v) (h2 : v ≤ b) :
    map_value_f32 v a b c d
      = f32 (f32 (f32 (f32 (v - a) * f32 (d - c)) / f32 (b - a)) + c) := by
  unfold map_value_f32
  simp only []
  rw [if_neg (not_lt.mpr h1), if_neg (not_lt.mpr h2), if_neg (ne_of_gt hab)]

/-- At or above `in_max` of a proper range the value is the interpolation at
`in_max`, every operation rounded. -/
theorem map_value_f32_high (v a b c d : ℚ) (hab : a < b) (hv : b ≤ v) :
    map_value_f32 v a b c d
      = f32 (f32 (f32 (f32 (b - a) * f32 (d - c)) / f32 (b - a)) + c) := by
  unfold map_value_f32
  simp only []
  have h1 : (if v < a then a else v) = v := by
    rw [if_neg (not_lt.mpr (le_trans hab.le hv))]
  rw [h1, if_neg (ne_of_gt hab)]
  by_cases h : v > b
  · rw [if_pos h]
  · rw [if_neg h, le_antisymm (not_lt.mp h) hv]

/-- The rounded quotient at the heart of `map_value`: for a numerator factor
`t` between 0 and the rounded width `X` of the input range and a scale `K` in
[0, 255], the rounded quotient of the rounded product `t * K` by `X` is between
0 and 255.75. -/
theorem rounded_ratio_bounds (t K : ℚ) (x : ℚ) (ht0 : 0 ≤ t) (htX : t ≤ f32 x) (hK0 : 0 ≤ K)
    (hK : K ≤ 255) :
    0 ≤ f32 (f32 (t * K) / f32 x) ∧ f32 (f32 (t * K) / f32 x) ≤ K + 3 / 4 := by
  have hX0 : 0 ≤ f32 x := le_trans ht0 htX
  have hnum0 : 0 ≤ f32 (t * K) := f32_nonneg (mul_nonneg ht0 hK0)
  constructor
  · exact f32_nonneg (div_nonneg hnum0 hX0)
  · rcases eq_or_lt_of_le hX0 with h0 | hpos
    · rw [← h0, div_zero, f32_zero]
      linarith
    · have hXge := f32_pos_ge x hpos
      have hnum : f32 (t * K) ≤ f32 (f32 x * K) :=
        f32_mono (mul_le_mul_of_nonneg_right htX hK0)
      have herr := f32_error (f32 x * K)
      have hXK0 : 0 ≤ f32 x * K := mul_nonneg hX0 hK0
      rw [abs_of_nonneg hXK0] at herr
      have hup : f32 (f32 x * K) ≤ f32 x * K + f32 x * K / 2 ^ 24 + 1 / 2 ^ 150 := by
        have := (abs_le.mp herr).2
        linarith
      have hq : f32 (t * K) / f32 x ≤ K + K / 2 ^ 24 + 1 / 2 := by
        rw [div_le_iff₀ hpos]
        have h150 : (1 : ℚ) / 2 ^ 150 ≤ 1 / 2 * f32 x := by
          have : (1 : ℚ) / 2 ^ 150 = 1 / 2 * (1 / 2 ^ 149) := by norm_num
          rw [this]
          exact mul_le_mul_of_nonneg_left hXge (by norm_num)
        have e : (K + K / 2 ^ 24 + 1 / 2) * f32 x
            = f32 x * K + f32 x * K / 2 ^ 24 + 1 / 2 * f32 x := by ring
        rw [e]
        linarith
      have hq' : f32 (t * K) / f32 x ≤ K + 9 / 16 := by
        have : K / 2 ^ 24 ≤ 1 / 16 := by
          rw [div_le_iff₀ (by positivity)]
          norm_num
          linarith
        linarith
      have h2 := f32_error (f32 (t * K) / f32 x)
      have hq0 : 0 ≤ f32 (t * K) / f32 x := div_nonneg hnum0 hX0
      rw [abs_of_nonneg hq0] at h2
      have := (abs_le.mp h2).2
      have h3 : f32 (t * K) / f32 x / 2 ^ 24 ≤ 1 / 16 := by
        rw [div_le_iff₀ (by positivity)]
        norm_num
        linarith
      have h4 : (1 : ℚ) / 2 ^ 150 ≤ 1 / 16 := by norm_num
      linarith

/-- The rounded quotient at the heart of `map_value` whatever the input and its
range are: with a scale `K` in [0, 255] it is between 0 and `K + 3 / 4`. -/
theorem map_ratio_bounds (v a b K : ℚ) (hK0 : 0 ≤ K) (hK : K ≤ 255) :
    0 ≤ f32 (f32 (f32 ((if (if v < a then a else v) > b then b
          else (if v < a then a else v)) - a) * K) / f32 (b - a))
    ∧ f32 (f32 (f32 ((if (if v < a then a else v) > b then b
          else (if v < a then a else v)) - a) * K) / f32 (b - a)) ≤ K + 3 / 4 := by
  rcases lt_or_le b a with hlt | hge
  · rw [clamped_input_reversed v a b hlt]
    have e : f32 (b - a) = -f32 (a - b) := by
      rw [← f32_neg]
      congr 1
      ring
    rw [e, neg_mul, f32_neg, neg_div_neg_eq]
    exact rounded_ratio_bounds (f32 (a - b)) K (a - b) (f32_nonneg (by linarith)) (le_refl _)
      hK0 hK
  · have hin := clamped_input_bounds v a b hge
    exact rounded_ratio_bounds _ K (b - a) (f32_nonneg (by linarith [hin.1]))
      (f32_mono (by linarith [hin.2])) hK0 hK

/-- The binary32 numbers -0.75 and 255.75. -/
theorem f32_range_ends : f32 (-(3 / 4)) = -(3 / 4) ∧ f32 (1023 / 4) = 1023 / 4 := by
  constructor
  · have := f32_int_div_pow 3 2 (by norm_num) (by norm_num)
    rw [f32_neg]
    norm_num at this ⊢
    exact this
  · have := f32_int_div_pow 1023 2 (by norm_num) (by norm_num)
    norm_num at this ⊢
    exact this

/-- Rounding keeps a value within -0.75 and 255.75. -/
theorem f32_keeps_range (x : ℚ) (h0 : -(3 / 4) ≤ x) (h1 : x ≤ 1023 / 4) :
    -(3 / 4) ≤ f32 x ∧ f32 x ≤ 1023 / 4 := by
  have a := f32_mono h0
  have b := f32_mono h1
  rw [f32_range_ends.1] at a
  rw [f32_range_ends.2] at b
  exact ⟨a, b⟩

/-- An increasing interpolation: with `out_min` not negative, `out_max` at most
255 and their difference a binary32 number, whatever the input and its range
are, the value of `map_value` is between 0 and 255.75. -/
theorem map_value_f32_up_bounds (v a b c d : ℚ) (hKf : f32 (d - c) = d - c) (hc0 : 0 ≤ c)
    (hcd : c ≤ d) (hd : d ≤ 255) :
    0 ≤ map_value_f32 v a b c d ∧ map_value_f32 v a b c d ≤ 1023 / 4 := by
  unfold map_value_f32
  simp only []
  by_cases hab : b = a
  · rw [if_pos hab]
    constructor <;> linarith
  · rw [if_neg hab, hKf]
    have h := map_ratio_bounds v a b (d - c) (by linarith) (by linarith)
    constructor
    · exact f32_nonneg (by linarith [h.1])
    · exact (f32_keeps_range _ (by linarith [h.1]) (by linarith [h.2])).2

/-- A decreasing interpolation to 0: with `out_min` a binary32 number in
[0, 255] and `out_max = 0`, whatever the input and its range are, the value of
`map_value` is between -0.75 and `out_min`. -/
theorem map_value_f32_down_bounds (v a b c : ℚ) (hcf : f32 c = c) (hc0 : 0 ≤ c)
    (hc : c ≤ 255) :
    -(3 / 4) ≤ map_value_f32 v a b c 0 ∧ map_value_f32 v a b c 0 ≤ c := by
  unfold map_value_f32
  simp only []
  by_cases hab : b = a
  · rw [if_pos hab]
    constructor <;> linarith
  · rw [if_neg hab, zero_sub, f32_neg, hcf, mul_neg, f32_neg, neg_div, f32_neg]
    have h := map_ratio_bounds v a b c hc0 hc
    constructor
    · exact (f32_keeps_range _ (by linarith [h.2]) (by linarith [h.1])).1
    · have := f32_mono (show -f32 (f32 (f32 ((if (if v < a then a else v) > b then b
          else (if v < a then a else v)) - a) * c) / f32 (b - a)) + c ≤ c by linarith [h.1])
      rwa [hcf] at this

/-- A value within -0.75 and 255.75 scaled by a multiplier in [0,1] and rounded
stays within -0.75 and 255.75. -/
theorem scaled_keeps_range (x m : ℚ) (h0 : -(3 / 4) ≤ x) (h1 : x ≤ 1023 / 4) (hm0 : 0 ≤ m)
    (hm1 : m ≤ 1) : -(3 / 4) ≤ f32 (x * m) ∧ f32 (x * m) ≤ 1023 / 4 := by
  apply f32_keeps_range
  · rcases le_or_lt 0 x with hx | hx
    · have := mul_nonneg hx hm0
      linarith
    · nlinarith
  · rcases le_or_lt 0 x with hx | hx
    · nlinarith
    · nlinarith

/-- A sine within [-1, 1], shifted, halved and rounded as the pulses do, is
within [0, 1]. -/
theorem half_sine_in_unit (E : Externals) (hsin : ∀ x, -1 ≤ E.sin x ∧ E.sin x ≤ 1) (x : ℚ) :
    0 ≤ f32 (f32 (E.sin x + 1) / 2) ∧ f32 (f32 (E.sin x + 1) / 2) ≤ 1 := by
  have h := hsin x
  have a0 : 0 ≤ f32 (E.sin x + 1) := f32_nonneg (by linarith [h.1])
  have a2 : f32 (E.sin x + 1) ≤ 2 := by
    have := f32_mono (show E.sin x + 1 ≤ 2 by linarith [h.2])
    rwa [f32_two] at this
  constructor
  · exact f32_nonneg (div_nonneg a0 (by norm_num))
  · have := f32_mono (show f32 (E.sin x + 1) / 2 ≤ 1 by linarith)
    rwa [f32_one] at this

/-- A value in the open range from -1 to 256 is converted to 8 bits by
truncation, without wrapping. -/
theorem castU8_no_wrap (q : ℚ) (h0 : -1 < q) (h1 : q < 256) :
    castU8 q = ⌊q⌋₊ ∧ ⌊q⌋₊ ≤ 255 := by
  have hfl : ⌊q⌋₊ ≤ 255 := by
    have : ⌊q⌋₊ < 256 := (Nat.floor_lt' (by norm_num)).mpr (by exact_mod_cast h1)
    omega
  refine ⟨?_, hfl⟩
  rcases le_or_lt 0 q with hq | hq
  · exact castU8_of_range q hq h1
  · have hc : ⌈q⌉ = 0 := by
      rw [Int.ceil_eq_iff]
      constructor
      · simpa using h0
      · simpa using hq.le
    have hf : ⌊q⌋₊ = 0 := Nat.floor_of_nonpos hq.le
    unfold castU8 truncInt
    rw [if_neg (not_le.mpr hq), hc, hf]
    rfl

/-! ## The brake-trigger force -/

/-- The speed in km/h of the tick is a binary32 number. -/
theorem current_speed_kmph_f32 (tel : Telemetry) :
    f32 (current_speed_kmph tel) = current_speed_kmph tel := f32_idem _

/-- The brake-trigger interpolation: 0 at 0 km/h or less, 200 at 90 km/h or
more, and the rounded quotient of the rounded product in between. -/
theorem brake_map_cases (v : ℚ) (hv : f32 v = v) :
    (v ≤ 0 → map_value_f32 v 0 90 0 200 = 0)
    ∧ (90 ≤ v → map_value_f32 v 0 90 0 200 = 200)
    ∧ (0 ≤ v → v ≤ 90 → map_value_f32 v 0 90 0 200 = f32 (f32 (v * 200) / 90)
        ∧ 0 ≤ f32 (f32 (v * 200) / 90) ∧ f32 (f32 (v * 200) / 90) ≤ 200) := by
  have h18 : f32 18000 = 18000 := by
    have := f32_natCast 18000 (by norm_num)
    norm_num at this ⊢
    exact this
  refine ⟨?_, ?_, ?_⟩
  · intro h
    rw [map_value_f32_low v 0 90 0 200 (by norm_num) h, f32_zero]
  · intro h
    rw [map_value_f32_high v 0 90 0 200 (by norm_num) h]
    norm_num [f32_ninety, f32_two_hundred, h18]
  · intro h0 h90
    refine ⟨?_, ?_, ?_⟩
    · rw [map_value_f32_mid v 0 90 0 200 (by norm_num) h0 h90]
      simp only [sub_zero, add_zero, f32_idem, hv, f32_ninety, f32_two_hundred]
    · exact f32_nonneg (div_nonneg (f32_nonneg (by positivity)) (by norm_num))
    · have a : f32 (v * 200) ≤ 18000 := by
        have := f32_mono (show v * 200 ≤ 18000 by linarith)
        rwa [h18] at this
      have := f32_mono (show f32 (v * 200) / 90 ≤ 200 by
        rw [div_le_iff₀ (by norm_num)]; linarith)
      rwa [f32_two_hundred] at this

/-- The brake-trigger force before its conversion, by the range of the speed,
for a multiplier in [0,1]; it is converted by truncation. -/
theorem brake_force_cases (config : AppConfig) (tel : Telemetry)
    (hm0 : 0 ≤ config.brake_trigger_resistance_multiplier)
    (hm1 : config.brake_trigger_resistance_multiplier ≤ 1) :
    (current_speed_kmph tel ≤ 0 → brake_force_value config tel = 0)
    ∧ (90 ≤ current_speed_kmph tel →
        brake_force_value config tel = f32 (200 * config.brake_trigger_resistance_multiplier))
    ∧ (0 ≤ current_speed_kmph tel → current_speed_kmph tel ≤ 90 →
        brake_force_value config tel
          = f32 (f32 (f32 (current_speed_kmph tel * 200) / 90)
              * config.brake_trigger_resistance_multiplier))
    ∧ castU8 (brake_force_value config tel) = ⌊brake_force_value config tel⌋₊ := by
  have c := brake_map_cases (current_speed_kmph tel) (current_speed_kmph_f32 tel)
  have hb := map_value_f32_up_bounds (current_speed_kmph tel) 0 90 0 200
    (by norm_num [f32_two_hundred]) (le_refl _) (by norm_num) (by norm_num)
  have hr := scaled_keeps_range _ _ (by linarith [hb.1]) hb.2 hm0 hm1
  refine ⟨?_, ?_, ?_, ?_⟩
  · intro h
    unfold brake_force_value
    rw [c.1 h, zero_mul, f32_zero]
  · intro h
    unfold brake_force_value
    rw [c.2.1 h]
  · intro h0 h90
    unfold brake_force_value
    rw [(c.2.2 h0 h90).1]
  · have h0 : 0 ≤ brake_force_value config tel :=
      f32_nonneg (mul_nonneg hb.1 hm0)
    exact castU8_of_range _ h0 (by unfold brake_force_value; linarith [hr.2])

/-- The rounding error of the brake-trigger force between 0 and 90 km/h: the
value the loop computes is within 2^-14 of `200 m v / 90`. -/
theorem brake_force_error (v m : ℚ) (h0 : 0 ≤ v) (h90 : v ≤ 90) (hm0 : 0 ≤ m) (hm1 : m ≤ 1) :
    |f32 (f32 (f32 (v * 200) / 90) * m) - 200 * m * v / 90| ≤ 1 / 2 ^ 14 := by
  have e1 := f32_error (v * 200)
  rw [abs_of_nonneg (show 0 ≤ v * 200 by positivity)] at e1
  have b1 : |f32 (v * 200) - v * 200| ≤ 18000 / 2 ^ 24 + 1 / 2 ^ 150 := by
    refine le_trans e1 ?_
    have : v * 200 / 2 ^ 24 ≤ 18000 / 2 ^ 24 := by
      apply div_le_div_of_nonneg_right _ (by positivity)
      linarith
    linarith
  have x1_0 : 0 ≤ f32 (v * 200) := f32_nonneg (by positivity)
  have x1_le : f32 (v * 200) ≤ 18001 := by
    have := (abs_le.mp b1).2
    have : (18000 : ℚ) / 2 ^ 24 + 1 / 2 ^ 150 ≤ 1 := by norm_num
    linarith
  have q0 : 0 ≤ f32 (v * 200) / 90 := div_nonneg x1_0 (by norm_num)
  have q_le : f32 (v * 200) / 90 ≤ 201 := by
    rw [div_le_iff₀ (by norm_num)]
    linarith
  have e2 := f32_error (f32 (v * 200) / 90)
  rw [abs_of_nonneg q0] at e2
  have b2 : |f32 (f32 (v * 200) / 90) - f32 (v * 200) / 90| ≤ 201 / 2 ^ 24 + 1 / 2 ^ 150 := by
    refine le_trans e2 ?_
    have : f32 (v * 200) / 90 / 2 ^ 24 ≤ 201 / 2 ^ 24 :=
      div_le_div_of_nonneg_right q_le (by positivity)
    linarith
  have x2_0 : 0 ≤ f32 (f32 (v * 200) / 90) := f32_nonneg q0
  have x2_le : f32 (f32 (v * 200) / 90) ≤ 202 := by
    have := (abs_le.mp b2).2
    have : (201 : ℚ) / 2 ^ 24 + 1 / 2 ^ 150 ≤ 1 := by norm_num
    linarith
  have p0 : 0 ≤ f32 (f32 (v * 200) / 90) * m := mul_nonneg x2_0 hm0
  have p_le : f32 (f32 (v * 200) / 90) * m ≤ 202 := by nlinarith
  have e3 := f32_error (f32 (f32 (v * 200) / 90) * m)
  rw [abs_of_nonneg p0] at e3
  have b3 : |f32 (f32 (f32 (v * 200) / 90) * m) - f32 (f32 (v * 200) / 90) * m|
      ≤ 202 / 2 ^ 24 + 1 / 2 ^ 150 := by
    refine le_trans e3 ?_
    have : f32 (f32 (v * 200) / 90) * m / 2 ^ 24 ≤ 202 / 2 ^ 24 :=
      div_le_div_of_nonneg_right p_le (by positivity)
    linarith
  -- assemble the three errors
  have c1 : |f32 (v * 200) / 90 - v * 200 / 90| ≤ (18000 / 2 ^ 24 + 1 / 2 ^ 150) / 90 := by
    rw [← sub_div, abs_div, abs_of_pos (show (0 : ℚ) < 90 by norm_num)]
    exact div_le_div_of_nonneg_right b1 (by norm_num)
  have c2 : |f32 (f32 (v * 200) / 90) - v * 200 / 90|
      ≤ 201 / 2 ^ 24 + 1 / 2 ^ 150 + (18000 / 2 ^ 24 + 1 / 2 ^ 150) / 90 := by
    have := abs_sub_le (f32 (f32 (v * 200) / 90)) (f32 (v * 200) / 90) (v * 200 / 90)
    linarith
  have c3 : |f32 (f32 (v * 200) / 90) * m - v * 200 / 90 * m|
      ≤ 201 / 2 ^ 24 + 1 / 2 ^ 150 + (18000 / 2 ^ 24 + 1 / 2 ^ 150) / 90 := by
    rw [← sub_mul, abs_mul, abs_of_nonneg hm0]
    calc |f32 (f32 (v * 200) / 90) - v * 200 / 90| * m
        ≤ |f32 (f32 (v * 200) / 90) - v * 200 / 90| * 1 :=
          mul_le_mul_of_nonneg_left hm1 (abs_nonneg _)
      _ ≤ _ := by rw [mul_one]; exact c2
  have c4 := abs_sub_le (f32 (f32 (f32 (v * 200) / 90) * m)) (f32 (f32 (v * 200) / 90) * m)
    (v * 200 / 90 * m)
  have e : 200 * m * v / 90 = v * 200 / 90 * m := by ring
  rw [e]
  have hnum : (202 : ℚ) / 2 ^ 24 + 1 / 2 ^ 150
      + (201 / 2 ^ 24 + 1 / 2 ^ 150 + (18000 / 2 ^ 24 + 1 / 2 ^ 150) / 90) ≤ 1 / 2 ^ 14 := by
    norm_num
  linarith
/-! ## Facts about the fuel gauge -/

/-- The zone count at its thresholds. -/
theorem num_leds_thresholds (p : ℚ) :
    (5 ≤ num_leds_to_light p ↔ 80 < p) ∧ (4 ≤ num_leds_to_light p ↔ 60 < p)
    ∧ (3 ≤ num_leds_to_light p ↔ 40 < p) ∧ (2 ≤ num_leds_to_light p ↔ 20 < p)
    ∧ (1 ≤ num_leds_to_light p ↔ f32 (1 / 10) < p) ∧ num_leds_to_light p ≤ 5 := by
  have h01 : (0 : ℚ) < f32 (1 / 10) ∧ f32 (1 / 10) < 20 := by
    rw [f32_decimals.1]; norm_num
  unfold num_leds_to_light
  split_ifs <;> refine ⟨?_, ?_, ?_, ?_, ?_, ?_⟩ <;>
    first
    | (constructor <;> intro h <;> linarith)
    | omega

/-- The zone count does not decrease with the percentage. -/
theorem num_leds_monotone (p q : ℚ) (h : p ≤ q) : num_leds_to_light p ≤ num_leds_to_light q := by
  have hp := num_leds_thresholds p
  have hq := num_leds_thresholds q
  by_contra hlt
  have hlt' : num_leds_to_light q < num_leds_to_light p := not_le.mp hlt
  have h5 := hp.2.2.2.2.2
  rcases Nat.lt_or_ge (num_leds_to_light q) 1 with c1 | c1
  · have : 1 ≤ num_leds_to_light p := by omega
    have a := hp.2.2.2.2.1.mp this
    have b := hq.2.2.2.2.1.mpr (by linarith)
    omega
  rcases Nat.lt_or_ge (num_leds_to_light q) 2 with c2 | c2
  · have : 2 ≤ num_leds_to_light p := by omega
    have a := hp.2.2.2.1.mp this
    have b := hq.2.2.2.1.mpr (by linarith)
    omega
  rcases Nat.lt_or_ge (num_leds_to_light q) 3 with c3 | c3
  · have : 3 ≤ num_leds_to_light p := by omega
    have a := hp.2.2.1.mp this
    have b := hq.2.2.1.mpr (by linarith)
    omega
  rcases Nat.lt_or_ge (num_leds_to_light q) 4 with c4 | c4
  · have : 4 ≤ num_leds_to_light p := by omega
    have a := hp.2.1.mp this
    have b := hq.2.1.mpr (by linarith)
    omega
  · have : 5 ≤ num_leds_to_light p := by omega
    have a := hp.1.mp this
    have b := hq.1.mpr (by linarith)
    omega

/-- Of any 60 consecutive counter values, 30 fall in the first half of the
60-tick cycle. -/
theorem half_of_sixty (t : Nat) :
    ((List.range 60).filter (fun i => decide ((t + i) % 60 < 30))).length = 30 := by
  have h : ∀ i, (t + i) % 60 = (t % 60 + i) % 60 := fun i => by omega
  simp only [h]
  have hr : t % 60 < 60 := Nat.mod_lt _ (by decide)
  generalize t % 60 = r at hr
  interval_cases r <;> rfl

/-- With the fuel gauge enabled the brightness of an unpaused iteration is the
gauge's brightness at the incremented counter. -/
theorem unpaused_brightness (E : Externals) (k : RpmBands) (config : AppConfig)
    (tel : Telemetry) (clk : Clock) (s : LoopState)
    (hp : tel.paused = false) (hen : config.fuel_player_leds = true) :
    (loopBody E k config tel clk s).out.playerLeds.brightness
      = fuelBrightness tel (s.pulse_timer + 1) := by
  rw [unpaused_playerLeds E k config tel clk s hp, playerLedsValue, if_pos hen]


/-- The table entry of the zone count, by the range of the percentage. -/
theorem led_bitmasks_table (E : Externals) (p : ℚ) :
    led_bitmasks E (num_leds_to_light p)
      = (if p > 80 then
          E.PLAYER_LED_LEFT ||| E.PLAYER_LED_MIDDLE_LEFT ||| E.PLAYER_LED_MIDDLE
            ||| E.PLAYER_LED_MIDDLE_RIGHT ||| E.PLAYER_LED_RIGHT
        else if p > 60 then
          E.PLAYER_LED_LEFT ||| E.PLAYER_LED_MIDDLE_LEFT ||| E.PLAYER_LED_MIDDLE_RIGHT
            ||| E.PLAYER_LED_RIGHT
        else if p > 40 then
          E.PLAYER_LED_LEFT ||| E.PLAYER_LED_MIDDLE ||| E.PLAYER_LED_RIGHT
        else if p > 20 then
          E.PLAYER_LED_MIDDLE_LEFT ||| E.PLAYER_LED_MIDDLE_RIGHT
        else if p > f32 (1 / 10) then E.PLAYER_LED_MIDDLE
        else 0) := by
  unfold num_leds_to_light
  split_ifs <;> rfl

/-- With the constants 1, 2, 4, 8 and 16 the table entry `n` lights `n` zones. -/
theorem litZones_table (E : Externals) (n : Nat)
    (hE : E.PLAYER_LED_LEFT = 1 ∧ E.PLAYER_LED_MIDDLE_LEFT = 2 ∧ E.PLAYER_LED_MIDDLE = 4
      ∧ E.PLAYER_LED_MIDDLE_RIGHT = 8 ∧ E.PLAYER_LED_RIGHT = 16) (hn : n ≤ 5) :
    litZones E (led_bitmasks E n) = n := by
  obtain ⟨h1, h2, h3, h4, h5⟩ := hE
  unfold litZones
  interval_cases n <;> simp only [led_bitmasks, h1, h2, h3, h4, h5] <;> decide

/-- The fuel percentage of the samples: 5 of 100 litres read 5.0, and 60 of 100
litres read 60.000003814697265625. -/
theorem fuel_percentage_samples :
    fuel_percentage lowFuel = 5 ∧ fuel_percentage sixtyOfHundred = 15728641 / 262144 := by
  have b1 : f32 (1 / 20) = 13421773 / 268435456 := by
    rw [f32_eval_frac (1 / 20) 13421773 28 (by norm_num) (by norm_num) (by norm_num)
      (by norm_num) (by norm_num)]
    norm_num
  have b2 : f32 (335544325 / 67108864) = 5 := by
    rw [f32_eval_frac (335544325 / 67108864) 10485760 21 (by norm_num) (by norm_num)
      (by norm_num) (by norm_num) (by norm_num)]
    norm_num
  have a1 : f32 (3 / 5) = 5033165 / 8388608 := by
    rw [f32_eval_frac (3 / 5) 10066330 24 (by norm_num) (by norm_num) (by norm_num)
      (by norm_num) (by norm_num)]
    norm_num
  have a2 : f32 (125829125 / 2097152) = 15728641 / 262144 := by
    rw [f32_eval_frac (125829125 / 2097152) 15728641 18 (by norm_num) (by norm_num) (by norm_num)
      (by norm_num) (by norm_num)]
    norm_num
  constructor
  · norm_num [fuel_percentage, lowFuel, quietTelemetry, b1, b2]
  · norm_num [fuel_percentage, sixtyOfHundred, quietTelemetry, a1, a2]
/-! ## Hard braking in the engine-on block -/

/-- While the hard-braking condition holds with the engine on, the engine-on
block reports hard braking and not body roll, and max-combines the braking
pulse into both motors on the first half of the 6-tick cycle only. -/
theorem engineOnBlock_hard_braking (E : Externals) (k : RpmBands) (config : AppConfig)
    (tel : Telemetry) (w : Work) (hengine : tel.engineEnabled = true)
    (hcond : hardBrakingCond config tel w.st.previous_speed) :
    (engineOnBlock E k config tel w).display.hard_braking_active = true
    ∧ (engineOnBlock E k config tel w).display.body_roll_active = w.display.body_roll_active
    ∧ (w.st.pulse_timer % 6 < 3 →
        (engineOnBlock E k config tel w).out.leftRumble
          = max w.out.leftRumble (castU8 (f32 (255 * config.hard_braking_multiplier)))
        ∧ (engineOnBlock E k config tel w).out.rightRumble
          = max w.out.rightRumble (castU8 (f32 (255 * config.hard_braking_multiplier))))
    ∧ (¬ w.st.pulse_timer % 6 < 3 →
        (engineOnBlock E k config tel w).out.leftRumble = w.out.leftRumble
        ∧ (engineOnBlock E k config tel w).out.rightRumble = w.out.rightRumble) := by
  have hb : brakeRollStage E config tel w
      = if w.st.pulse_timer % 6 < 6 / 2 then
          (({ w with display := { w.display with hard_braking_active := true } } : Work).maxLeft
            (castU8 (f32 (255 * config.hard_braking_multiplier)))).maxRight
            (castU8 (f32 (255 * config.hard_braking_multiplier)))
        else { w with display := { w.display with hard_braking_active := true } } := by
    unfold brakeRollStage
    rw [if_pos hcond]
  unfold engineOnBlock
  rw [if_pos hengine]
  simp only [throttleTriggerStage_frame, brakeTriggerStage_frame, hb]
  refine ⟨?_, ?_, ?_, ?_⟩
  · split_ifs <;> simp
  · split_ifs <;> simp
  · intro h
    have h' : w.st.pulse_timer % 6 < 6 / 2 := h
    rw [if_pos h']
    simp
  · intro h
    have h' : ¬ w.st.pulse_timer % 6 < 6 / 2 := h
    rw [if_neg h']
    simp

/-! ## The whole output record of an unpaused iteration -/

/-- Converting zero gives zero. -/
theorem castU8_zero : castU8 0 = 0 := by
  rw [castU8_of_range 0 (le_refl 0) (by norm_num)]
  simp

/-! ## How the output record depends on the configuration -/

/-- Every iteration stores the snapshot's RPM and fined flag as the previous
ones. -/
theorem runLoop_succ_previous (E : Externals) (k : RpmBands) (config : AppConfig)
    (tels : Nat → Telemetry) (clks : Nat → Clock) (s : LoopState) (n : Nat) :
    (runLoop E k config tels clks s (n + 1)).previous_rpm = (tels n).engineRpm
    ∧ (runLoop E k config tels clks s (n + 1)).previous_fined_state = (tels n).fined := by
  simp [runLoop, loopBody, storePrevious]

/-- Over unpaused iterations the counter advances by one per iteration. -/
theorem runLoop_pulse_timer (E : Externals) (k : RpmBands) (config : AppConfig)
    (tels : Nat → Telemetry) (clks : Nat → Clock) (s : LoopState) (n : Nat)
    (h : ∀ i < n, (tels i).paused = false) :
    (runLoop E k config tels clks s n).pulse_timer = s.pulse_timer + n := by
  induction n with
  | zero => rfl
  | succ n ih =>
    have f := loopBody_unpaused_frame E k config (tels n) (clks n)
      (runLoop E k config tels clks s n) (h n (Nat.lt_succ_self n))
    show (loopBody E k config (tels n) (clks n) (runLoop E k config tels clks s n)).st.pulse_timer
      = s.pulse_timer + (n + 1)
    rw [f.2.2.2.2.2.2.1, ih (fun i hi => h i (Nat.lt_succ_of_lt hi))]
    rfl

/-- Of any 20 consecutive counter values, 10 are in the first half of the
20-tick cycle and 10 in the second. -/
theorem half_of_twenty (t : Nat) :
    (List.range 20).countP (fun i => decide ((t + i + 1) % 20 < 10)) = 10
    ∧ (List.range 20).countP (fun i => decide (¬ (t + i + 1) % 20 < 10)) = 10 := by
  have key : ∀ r : Fin 20,
      (List.range 20).countP (fun i => decide ((r.val + i + 1) % 20 < 10)) = 10
      ∧ (List.range 20).countP (fun i => decide (¬ (r.val + i + 1) % 20 < 10)) = 10 := by
    decide
  have hmod : ∀ i, (t + i + 1) % 20 = (t % 20 + i + 1) % 20 := fun i => by omega
  simp only [hmod]
  exact key ⟨t % 20, Nat.mod_lt t (by decide)⟩

/-- Of any 10 consecutive counter values, 5 are in the first half of the
10-tick cycle. -/
theorem half_of_ten (t : Nat) :
    (List.range 10).countP (fun i => decide ((t + i + 1) % 10 < 5)) = 5 := by
  have key : ∀ r : Fin 10,
      (List.range 10).countP (fun i => decide ((r.val + i + 1) % 10 < 5)) = 5 := by
    decide
  have hmod : ∀ i, (t + i + 1) % 10 = (t % 10 + i + 1) % 10 := fun i => by omega
  simp only [hmod]
  exact key ⟨t % 10, Nat.mod_lt t (by decide)⟩

/-- A running fine alert stays as it is over unpaused iterations that read the
same snapshot and clock without a fined edge. -/
theorem runLoop_steady_fine (E : Externals) (k : RpmBands) (config : AppConfig)
    (tel : Telemetry) (clk : Clock) (s : LoopState) (hp : tel.paused = false)
    (hen : config.fine_alert = true) (hact : s.is_in_fine_effect = true)
    (hno : tel.fined = s.previous_fined_state)
    (hel : clk.fine_elapsed_now - s.fine_effect_start_time ≤ FINE_EFFECT_DURATION_S) (n : Nat) :
    (runLoop E k config (fun _ => tel) (fun _ => clk) s n).is_in_fine_effect = true
    ∧ (runLoop E k config (fun _ => tel) (fun _ => clk) s n).fine_effect_start_time
        = s.fine_effect_start_time
    ∧ (runLoop E k config (fun _ => tel) (fun _ => clk) s n).previous_fined_state = tel.fined
    ∧ fineRunning config tel clk (runLoop E k config (fun _ => tel) (fun _ => clk) s n) := by
  have run_of : ∀ s2 : LoopState, s2.is_in_fine_effect = true →
      s2.fine_effect_start_time = s.fine_effect_start_time → s2.previous_fined_state = tel.fined →
      fineRunning config tel clk s2 := by
    intro s2 h1 h2 h3
    refine ⟨⟨hen, Or.inr h1⟩, ?_⟩
    unfold fineElapsed fineStart fineEdgeSeen
    rw [if_neg (fun h => h.2 h3.symm), h2]
    exact duration_seconds_five.2 _ hel
  induction n with
  | zero => exact ⟨hact, rfl, hno.symm, run_of s hact rfl hno.symm⟩
  | succ n ih =>
    have f := loopBody_unpaused_frame E k config tel clk
      (runLoop E k config (fun _ => tel) (fun _ => clk) s n) hp
    have r := afterLightbar_running E config tel clk
      (runLoop E k config (fun _ => tel) (fun _ => clk) s n) ih.2.2.2
    have hstart : fineStart config tel clk (runLoop E k config (fun _ => tel) (fun _ => clk) s n)
        = s.fine_effect_start_time := by
      unfold fineStart fineEdgeSeen
      rw [if_neg (fun h => h.2 ih.2.2.1.symm), ih.2.1]
    have h1 : (runLoop E k config (fun _ => tel) (fun _ => clk) s (n + 1)).is_in_fine_effect
        = true := by
      show (loopBody E k config tel clk _).st.is_in_fine_effect = true
      rw [f.2.2.1, r.2.1]
    have h2 : (runLoop E k config (fun _ => tel) (fun _ => clk) s (n + 1)).fine_effect_start_time
        = s.fine_effect_start_time := by
      show (loopBody E k config tel clk _).st.fine_effect_start_time = _
      rw [f.2.2.2.1, r.2.2.1, hstart]
    have h3 := (runLoop_succ_previous E k config (fun _ => tel) (fun _ => clk) s n).2
    exact ⟨h1, h2, h3, run_of _ h1 h2 h3⟩

/-- The rumble of a running fine alert right after the cascade: 200 on the
left motor alone in the first half of the 20-tick cycle, 200 on the right motor
alone in the second half. -/
theorem fine_rumble_one_motor (E : Externals) (config : AppConfig) (tel : Telemetry)
    (clk : Clock) (s : LoopState) (h : fineRunning config tel clk s) :
    ((s.pulse_timer + 1) % 20 < 10 →
        (afterLightbar E config tel clk s).out.leftRumble = 200
        ∧ (afterLightbar E config tel clk s).out.rightRumble = 0)
    ∧ (¬ (s.pulse_timer + 1) % 20 < 10 →
        (afterLightbar E config tel clk s).out.leftRumble = 0
        ∧ (afterLightbar E config tel clk s).out.rightRumble = 200) := by
  have r := afterLightbar_rumble E config tel clk s
  rw [r.1, r.2]
  constructor <;> intro hpt <;> simp [fineLeftRequest, fineRightRequest, h, hpt, maxRequest]

/-- The cranking flag of an unpaused iteration is the one the cranking stage
sets. -/
theorem unpaused_cranking_flag (E : Externals) (k : RpmBands) (config : AppConfig)
    (tel : Telemetry) (clk : Clock) (s : LoopState) (hp : tel.paused = false) :
    ((loopBody E k config tel clk s).display.engine_cranking_active = true
      ↔ (config.engine_start_effects = true ∧ tel.engineEnabled = false ∧ tel.engineRpm > 0
          ∧ tel.engineRpm ≥ s.previous_rpm)) := by
  have h : (loopBody E k config tel clk s).display.engine_cranking_active
      = (crankingStage config tel
          (engineStartEdge config tel clk (afterGearJolt E config tel clk s))).display.engine_cranking_active := by
    simp [loopBody, hp, unpausedBody]
  rw [h]
  simp only [crankingStage]
  have hr : (engineStartEdge config tel clk (afterGearJolt E config tel clk s)).st.previous_rpm
      = s.previous_rpm := by
    simp [afterGearJolt]
  have hd : (engineStartEdge config tel clk
      (afterGearJolt E config tel clk s)).display.engine_cranking_active = false := by
    simp [afterGearJolt]
  rw [hr]
  split_ifs with hc h5
  · simp [hc]
  · simp [hc]
  · simp [hc, afterGearJolt]

/-- The cranking request while cranking, for a multiplier in [0,1]. -/
theorem crankingRequest_active (config : AppConfig) (tel : Telemetry) (s : LoopState)
    (hen : config.engine_start_effects = true)
    (hm0 : 0 ≤ config.engine_start_multiplier) (hm1 : config.engine_start_multiplier ≤ 1)
    (hc : tel.engineEnabled = false ∧ tel.engineRpm > 0 ∧ tel.engineRpm ≥ s.previous_rpm) :
    crankingRequest config tel s
      = if (s.pulse_timer + 1) % 10 < 5 then [⌊f32 (200 * config.engine_start_multiplier)⌋₊] else [] := by
  unfold crankingRequest
  rw [castU8_scaled 200 _ f32_consts.2.2.2.2.2.2.1 (by norm_num) (by norm_num) hm0 hm1]
  by_cases h5 : (s.pulse_timer + 1) % 10 < 5
  · rw [if_pos ⟨hen, hc.1, hc.2.1, hc.2.2, h5⟩, if_pos h5]
  · rw [if_neg (fun h => h5 h.2.2.2.2), if_neg h5]

/-- The lower-priority rules decide the lightbar of a tick on which the fine
alert is not armed. -/
theorem lightbar_lower_rules (E : Externals) (k : RpmBands) (config : AppConfig)
    (tel : Telemetry) (clk : Clock) (s : LoopState) (hp : tel.paused = false)
    (h : ¬ fineArmed config tel s) :
    (loopBody E k config tel clk s).out.lightbar
      = firstMatch (lightbarRules E config tel clk s).tail := by
  rw [unpaused_lightbar E k config tel clk s hp]
  simp [lightbarRules, firstMatch, h]

/-! ## Monotonicity of `map_value` -/

/-- The input of `map_value` after its two clamping statements (lines 584-585). -/
theorem map_value_clamped_input_mono (a b : ℚ) (hab : a < b) (v w : ℚ) (hvw : v ≤ w) :
    (if (if v < a then a else v) > b then b else (if v < a then a else v))
      ≤ (if (if w < a then a else w) > b then b else (if w < a then a else w)) := by
  split_ifs <;> linarith

/-- On a proper input range `map_value` is non-decreasing in its value when
`out_min ≤ out_max`. -/
theorem map_value_mono (a b c d : ℚ) (hab : a < b) (hcd : c ≤ d) (v w : ℚ) (hvw : v ≤ w) :
    map_value v a b c d ≤ map_value w a b c d := by
  have hba : 0 < b - a := sub_pos.mpr hab
  have hin := map_value_clamped_input_mono a b hab v w hvw
  unfold map_value
  simp only []
  rw [if_neg (ne_of_gt hab), if_neg (ne_of_gt hab)]
  have : ((if (if v < a then a else v) > b then b else (if v < a then a else v)) - a) * (d - c)
      ≤ ((if (if w < a then a else w) > b then b else (if w < a then a else w)) - a) * (d - c) :=
    mul_le_mul_of_nonneg_right (by linarith) (by linarith)
  have h2 := div_le_div_of_nonneg_right this hba.le
  linarith

/-- On a proper input range `map_value` is non-increasing in its value when
`out_max ≤ out_min`. -/
theorem map_value_anti (a b c d : ℚ) (hab : a < b) (hdc : d ≤ c) (v w : ℚ) (hvw : v ≤ w) :
    map_value w a b c d ≤ map_value v a b c d := by
  have hba : 0 < b - a := sub_pos.mpr hab
  have hin := map_value_clamped_input_mono a b hab v w hvw
  unfold map_value
  simp only []
  rw [if_neg (ne_of_gt hab), if_neg (ne_of_gt hab)]
  have : ((if (if w < a then a else w) > b then b else (if w < a then a else w)) - a) * (d - c)
      ≤ ((if (if v < a then a else v) > b then b else (if v < a then a else v)) - a) * (d - c) :=
    mul_le_mul_of_nonpos_right (by linarith) (by linarith)
  have h2 := div_le_div_of_nonneg_right this hba.le
  linarith

/-! ## The config parser -/

/-- A trimmed string that is not empty ends in a character that is not
whitespace. -/
theorem trim_copy_last (X : TextExternals) (s : List Char) (h : trim_copy X s ≠ []) :
    X.isspace ((trim_copy X s).getLast h) = false := by
  have := List.rdropWhile_last_not X.isspace (s.dropWhile X.isspace) h
  simpa using this

/-- A trimmed string that is not empty starts with a character that is not
whitespace. -/
theorem trim_copy_head (X : TextExternals) (s : List Char) (c : Char)
    (h : (trim_copy X s).head? = some c) : X.isspace c = false := by
  obtain ⟨r, hr⟩ : trim_copy X s <+: s.dropWhile X.isspace := List.rdropWhile_prefix X.isspace _
  have hd : (s.dropWhile X.isspace).head? = some c := by
    rw [← hr]
    cases ht : trim_copy X s with
    | nil => rw [ht] at h; simp at h
    | cons a l =>
      rw [ht] at h
      simpa using h
  have hnot := List.head?_dropWhile_not X.isspace s
  rw [hd] at hnot
  exact hnot

/-- Skipping whitespace from a position inside a string whose last character
is not whitespace stops before the end. -/
theorem skip_space_lt (p : Char → Bool) (t : List Char) (h : t ≠ [])
    (hlast : p (t.getLast h) = false) (idx : Nat) (hidx : idx < t.length) :
    idx + ((t.drop idx).takeWhile p).length < t.length := by
  have hne : t.drop idx ≠ [] := by
    intro h0
    have := congrArg List.length h0
    simp at this
    omega
  have hl : (t.drop idx).getLast hne = t.getLast h := List.getLast_drop hne
  have hneq : (t.drop idx).takeWhile p ≠ t.drop idx := by
    intro heq
    have hall := List.takeWhile_eq_self_iff.mp heq
    have := hall _ (List.getLast_mem hne)
    rw [hl, hlast] at this
    exact Bool.false_ne_true this
  have hpre : (t.drop idx).takeWhile p <+: t.drop idx := List.takeWhile_prefix p
  have hle := hpre.length_le
  have hlt : ((t.drop idx).takeWhile p).length < (t.drop idx).length := by
    rcases Nat.lt_or_ge ((t.drop idx).takeWhile p).length (t.drop idx).length with h1 | h1
    · exact h1
    · exact absurd (hpre.eq_of_length (le_antisymm hle h1)) hneq
  rw [List.length_drop] at hlt
  omega

/-- The outcome of `try_parse_float`: the value of `std::stof` when the
trimmed string is not empty and `std::stof` consumes all of it, failure
otherwise. -/
theorem try_parse_float_eq (X : TextExternals) (raw : List Char) :
    try_parse_float X raw
      = if trim_copy X raw = [] then none
        else match X.stof (trim_copy X raw) with
          | none => none
          | some (v, idx) => if idx = (trim_copy X raw).length then some v else none := by
  unfold try_parse_float
  simp only [List.isEmpty_iff]
  by_cases h : trim_copy X raw = []
  · simp [h]
  · rw [if_neg h, if_neg h]
    cases hs : X.stof (trim_copy X raw) with
    | none => rfl
    | some r =>
      obtain ⟨v, idx⟩ := r
      simp only []
      rcases Nat.lt_trichotomy idx (trim_copy X raw).length with hlt | heq | hgt
      · have := skip_space_lt X.isspace _ h (trim_copy_last X raw h) idx hlt
        rw [if_pos (by omega), if_neg (by omega)]
      · rw [if_neg (by simp [heq]), if_pos heq]
      · rw [if_pos (by rw [List.drop_eq_nil_of_le hgt.le]; simp; omega), if_neg (by omega)]

/-- The value `clamp01` gives: for a finite value a number within [0,1], 0
for a value at or below 0, 1 for a value at or above 1, the value itself in
between; 1 for the positive infinity and 0 for the negative one; and a NaN for
a NaN. -/
theorem clamp01_spec :
    (∀ f : ℚ, ∃ c : ℚ, clamp01 (FloatValue.finite f) = FloatValue.finite c ∧ 0 ≤ c ∧ c ≤ 1
      ∧ (f ≤ 0 → c = 0) ∧ (1 ≤ f → c = 1) ∧ (0 ≤ f → f ≤ 1 → c = f))
    ∧ clamp01 (FloatValue.infinity false) = FloatValue.finite 1
    ∧ clamp01 (FloatValue.infinity true) = FloatValue.finite 0
    ∧ clamp01 FloatValue.nan = FloatValue.nan := by
  refine ⟨?_, rfl, rfl, rfl⟩
  intro f
  unfold clamp01
  simp only [FloatValue.lt, decide_eq_true_eq]
  by_cases h0 : f < 0
  · rw [if_pos h0]
    exact ⟨0, rfl, le_refl 0, by norm_num, fun _ => rfl, fun h => by linarith,
      fun h _ => by linarith⟩
  · rw [if_neg h0]
    by_cases h1 : 1 < f
    · rw [if_pos h1]
      exact ⟨1, rfl, by norm_num, le_refl 1, fun h => by linarith, fun _ => rfl,
        fun _ h => by linarith⟩
    · rw [if_neg h1]
      exact ⟨f, rfl, not_lt.mp h0, not_lt.mp h1, fun h => le_antisymm h (not_lt.mp h0),
        fun h => le_antisymm (not_lt.mp h1) h, fun _ _ => rfl⟩

/-- The pair `parse_bool_or_multiplier` leaves after a successful conversion
to a finite value: the clamped value and whether it is above 0. -/
theorem parse_finite (X : TextExternals) (raw : List Char) (enabled : Bool)
    (multiplier : FloatValue) (f : ℚ)
    (h : try_parse_float X raw = some (FloatValue.finite f)) :
    (f ≤ 0 → parse_bool_or_multiplier X raw enabled multiplier = (false, FloatValue.finite 0))
    ∧ (1 ≤ f → parse_bool_or_multiplier X raw enabled multiplier = (true, FloatValue.finite 1))
    ∧ (0 < f → f < 1 →
        parse_bool_or_multiplier X raw enabled multiplier = (true, FloatValue.finite f)) := by
  obtain ⟨c, hc, _, _, c0, c1, cm⟩ := clamp01_spec.1 f
  have hp : parse_bool_or_multiplier X raw enabled multiplier
      = ((FloatValue.finite 0).lt (FloatValue.finite c), FloatValue.finite c) := by
    unfold parse_bool_or_multiplier
    rw [h]
    simp only [hc]
  refine ⟨?_, ?_, ?_⟩
  · intro h0
    rw [hp, c0 h0]
    simp [FloatValue.lt]
  · intro h1
    rw [hp, c1 h1]
    simp [FloatValue.lt]
  · intro h0 h1
    rw [hp, cm h0.le h1.le]
    simp [FloatValue.lt, h0]

/-- The pair `parse_bool_or_multiplier` leaves after a successful conversion
to a value that is not finite: (enabled, 1) for the positive infinity,
(disabled, 0) for the negative one and (disabled, NaN) for a NaN. -/
theorem parse_not_finite (X : TextExternals) (raw : List Char) (enabled : Bool)
    (multiplier : FloatValue) :
    (try_parse_float X raw = some (FloatValue.infinity false) →
        parse_bool_or_multiplier X raw enabled multiplier = (true, FloatValue.finite 1))
    ∧ (try_parse_float X raw = some (FloatValue.infinity true) →
        parse_bool_or_multiplier X raw enabled multiplier = (false, FloatValue.finite 0))
    ∧ (try_parse_float X raw = some FloatValue.nan →
        parse_bool_or_multiplier X raw enabled multiplier = (false, FloatValue.nan)) := by
  refine ⟨?_, ?_, ?_⟩ <;> intro h <;> unfold parse_bool_or_multiplier <;> rw [h] <;>
    simp [clamp01, FloatValue.lt]

/-- The pair `parse_bool_or_multiplier` leaves after a failed conversion is the
pair it found. -/
theorem parse_failed (X : TextExternals) (raw : List Char) (enabled : Bool)
    (multiplier : FloatValue) (h : try_parse_float X raw = none) :
    parse_bool_or_multiplier X raw enabled multiplier = (enabled, multiplier) := by
  unfold parse_bool_or_multiplier
  rw [h]
/-! ## The throttle-trigger frequency -/

/-- The bands of a zero usable range: `engineRpmMax` at idle puts the soft-zone
end and the redline start at idle too. -/
theorem rpmBands_idle : (rpmBands 550).low_rpm_end = 550 ∧ (rpmBands 550).high_rpm_start = 550 := by
  constructor <;> norm_num [rpmBands, IDLE_RPM, f32_zero, f32_550]

/-- At or below the soft-zone end the frequency is the soft-zone interpolation
scaled by the multiplier. -/
theorem vibration_frequency_soft (k : RpmBands) (config : AppConfig) (tel : Telemetry)
    (h : tel.engineRpm ≤ k.low_rpm_end) :
    vibration_frequency k config tel
      = f32 (map_value_f32 tel.engineRpm IDLE_RPM k.low_rpm_end 200 0
          * config.throttle_trigger_vibration_multiplier) := by
  unfold vibration_frequency
  rw [if_pos h]

/-- Above the soft-zone end and from the redline start on the frequency is the
redline interpolation scaled by the multiplier. -/
theorem vibration_frequency_redline (k : RpmBands) (config : AppConfig) (tel : Telemetry)
    (h1 : k.low_rpm_end < tel.engineRpm) (h2 : k.high_rpm_start ≤ tel.engineRpm) :
    vibration_frequency k config tel
      = f32 (map_value_f32 tel.engineRpm k.high_rpm_start tel.engineRpmMax 0 255
          * config.throttle_trigger_vibration_multiplier) := by
  unfold vibration_frequency
  rw [if_neg (not_le.mpr h1), if_pos h2]

/-- The throttle frequency is within -0.75 and 255.75 for a multiplier in
[0,1], whatever the bands and the RPM are. -/
theorem vibration_frequency_range (k : RpmBands) (config : AppConfig) (tel : Telemetry)
    (hm0 : 0 ≤ config.throttle_trigger_vibration_multiplier)
    (hm1 : config.throttle_trigger_vibration_multiplier ≤ 1) :
    -(3 / 4) ≤ vibration_frequency k config tel ∧ vibration_frequency k config tel ≤ 1023 / 4 := by
  unfold vibration_frequency
  split_ifs
  · have h := map_value_f32_down_bounds tel.engineRpm IDLE_RPM k.low_rpm_end 200
      f32_two_hundred (by norm_num) (by norm_num)
    exact scaled_keeps_range _ _ h.1 (by linarith [h.2]) hm0 hm1
  · have h := map_value_f32_up_bounds tel.engineRpm k.high_rpm_start tel.engineRpmMax 0 255
      (by norm_num [f32_255]) (le_refl _) (by norm_num) (le_refl _)
    exact scaled_keeps_range _ _ (by linarith [h.1]) h.2 hm0 hm1
  · exact scaled_keeps_range 0 _ (by norm_num) (by norm_num) hm0 hm1

/-- The bands of a truck with `engineRpmMax = 2500`: the soft zone ends at 940
and the redline starts at 1915. -/
theorem sampleBands_values : sampleBands.low_rpm_end = 940 ∧ sampleBands.high_rpm_start = 1915 := by
  have a1 : f32 (1950) = 1950 := by
    have := f32_natCast 1950 (by norm_num)
    norm_num at this ⊢
    exact this
  have a3 : f32 (13086228675 / 33554432) = 390 := by
    rw [f32_eval_frac (13086228675 / 33554432) 12779520 15 (by norm_num) (by norm_num)
      (by norm_num) (by norm_num) (by norm_num)]
    norm_num
  have a4 : f32 (940) = 940 := by
    have := f32_natCast 940 (by norm_num)
    norm_num at this ⊢
    exact this
  have a6 : f32 (11450449725 / 8388608) = 1365 := by
    rw [f32_eval_frac (11450449725 / 8388608) 11182080 13 (by norm_num) (by norm_num)
      (by norm_num) (by norm_num) (by norm_num)]
    norm_num
  have a7 : f32 (1915) = 1915 := by
    have := f32_natCast 1915 (by norm_num)
    norm_num at this ⊢
    exact this
  constructor
  · simp only [sampleBands, rpmBands, IDLE_RPM]
    rw [f32_decimals.2.2.1]
    norm_num [a1, a3, a4]
  · simp only [sampleBands, rpmBands, IDLE_RPM]
    rw [f32_decimals.2.2.2.1]
    norm_num [a1, a6, a7]

/-- The speed and the brake-trigger force of the sample at 9 m/s: the speed
reads 32.399997711181640625 km/h and the force before its conversion is
71.99999237060546875. -/
theorem cruising_values :
    current_speed_kmph cruising = 8493465 / 262144
    ∧ brake_force_value defaultConfig cruising = 9437183 / 131072 := by
  have hv : f32 (67947723 / 2097152) = 8493465 / 262144 := by
    rw [f32_eval_frac (67947723 / 2097152) 8493465 18 (by norm_num) (by norm_num) (by norm_num)
      (by norm_num) (by norm_num)]
    norm_num
  have h1 : f32 (212336625 / 32768) = 13271039 / 2048 := by
    rw [f32_eval_frac (212336625 / 32768) 13271039 11 (by norm_num) (by norm_num) (by norm_num)
      (by norm_num) (by norm_num)]
    norm_num
  have h2 : f32 (13271039 / 184320) = 9437183 / 131072 := by
    rw [f32_eval_frac (13271039 / 184320) 9437183 17 (by norm_num) (by norm_num) (by norm_num)
      (by norm_num) (by norm_num)]
    norm_num
  have h3 : f32 (9437183 / 131072) = 9437183 / 131072 := by
    rw [f32_eval_frac (9437183 / 131072) 9437183 17 (by norm_num) (by norm_num) (by norm_num)
      (by norm_num) (by norm_num)]
    norm_num
  have hs : current_speed_kmph cruising = 8493465 / 262144 := by
    unfold current_speed_kmph KMPH_CONVERSION
    rw [f32_decimals.2.2.2.2.2.1]
    norm_num [cruising, quietTelemetry, hv]
  refine ⟨hs, ?_⟩
  have c := (brake_force_cases defaultConfig cruising (by norm_num [defaultConfig])
    (by norm_num [defaultConfig])).2.2.1 (by rw [hs]; norm_num) (by rw [hs]; norm_num)
  rw [c, hs]
  norm_num [defaultConfig, h1, h2, h3]

/-- Sample values of the throttle frequency at multiplier 1. With the bands of
a maximum of 2500 RPM: 211.4102630615234375 at 2400 RPM; and, on a tick that
reports a maximum of 3000 RPM, 66.9815673828125 at 2200 RPM. With the bands of
a maximum of 564 RPM: 255.0000152587890625 at 564 RPM. -/
theorem throttle_samples :
    vibration_frequency sampleBands defaultConfig nearRedline = 13854983 / 65536
    ∧ vibration_frequency sampleBands defaultConfig otherTruck = 548713 / 8192
    ∧ vibration_frequency (rpmBands 564) defaultConfig shortRange = 16711681 / 65536 := by
  have n485 : f32 (485) = 485 := by
    have := f32_natCast 485 (by norm_num)
    norm_num at this ⊢
    exact this
  have n123675 : f32 (123675) = 123675 := by
    have := f32_natCast 123675 (by norm_num)
    norm_num at this ⊢
    exact this
  have n585 : f32 (585) = 585 := by
    have := f32_natCast 585 (by norm_num)
    norm_num at this ⊢
    exact this
  have d5 : f32 (8245 / 39) = 13854983 / 65536 := by
    rw [f32_eval_frac (8245 / 39) 13854983 16 (by norm_num) (by norm_num) (by norm_num)
      (by norm_num) (by norm_num)]
    norm_num
  have d6 : f32 (13854983 / 65536) = 13854983 / 65536 := by
    rw [f32_eval_frac (13854983 / 65536) 13854983 16 (by norm_num) (by norm_num) (by norm_num)
      (by norm_num) (by norm_num)]
    norm_num
  have n285 : f32 (285) = 285 := by
    have := f32_natCast 285 (by norm_num)
    norm_num at this ⊢
    exact this
  have n72675 : f32 (72675) = 72675 := by
    have := f32_natCast 72675 (by norm_num)
    norm_num at this ⊢
    exact this
  have n1085 : f32 (1085) = 1085 := by
    have := f32_natCast 1085 (by norm_num)
    norm_num at this ⊢
    exact this
  have a5 : f32 (14535 / 217) = 548713 / 8192 := by
    rw [f32_eval_frac (14535 / 217) 8779408 17 (by norm_num) (by norm_num) (by norm_num)
      (by norm_num) (by norm_num)]
    norm_num
  have a6 : f32 (548713 / 8192) = 548713 / 8192 := by
    rw [f32_eval_frac (548713 / 8192) 8779408 17 (by norm_num) (by norm_num) (by norm_num)
      (by norm_num) (by norm_num)]
    norm_num
  have b1 : f32 (14) = 14 := by
    have := f32_natCast 14 (by norm_num)
    norm_num at this ⊢
    exact this
  have b3 : f32 (93952411 / 33554432) = 11744051 / 4194304 := by
    rw [f32_eval_frac (93952411 / 33554432) 11744051 22 (by norm_num) (by norm_num)
      (by norm_num) (by norm_num) (by norm_num)]
    norm_num
  have b4 : f32 (2318611251 / 4194304) = 9057075 / 16384 := by
    rw [f32_eval_frac (2318611251 / 4194304) 9057075 14 (by norm_num) (by norm_num)
      (by norm_num) (by norm_num) (by norm_num)]
    norm_num
  have b6 : f32 (82208357 / 8388608) = 10276045 / 1048576 := by
    rw [f32_eval_frac (82208357 / 8388608) 10276045 20 (by norm_num) (by norm_num)
      (by norm_num) (by norm_num) (by norm_num)]
    norm_num
  have b7 : f32 (586992845 / 1048576) = 9171763 / 16384 := by
    rw [f32_eval_frac (586992845 / 1048576) 9171763 14 (by norm_num) (by norm_num)
      (by norm_num) (by norm_num) (by norm_num)]
    norm_num
  have b8 : f32 (68813 / 16384) = 68813 / 16384 := by
    rw [f32_eval_frac (68813 / 16384) 8808064 21 (by norm_num) (by norm_num) (by norm_num)
      (by norm_num) (by norm_num)]
    norm_num
  have b10 : f32 (17547315 / 16384) = 4386829 / 4096 := by
    rw [f32_eval_frac_tie (17547315 / 16384) 8773658 13 (by norm_num) (by norm_num)
      (by norm_num) (Or.inr (by norm_num)) (by decide)]
    norm_num
  have b11 : f32 (17547316 / 68813) = 16711681 / 65536 := by
    rw [f32_eval_frac (17547316 / 68813) 16711681 16 (by norm_num) (by norm_num) (by norm_num)
      (by norm_num) (by norm_num)]
    norm_num
  have b12 : f32 (16711681 / 65536) = 16711681 / 65536 := by
    rw [f32_eval_frac (16711681 / 65536) 16711681 16 (by norm_num) (by norm_num) (by norm_num)
      (by norm_num) (by norm_num)]
    norm_num
  have hb564 : (rpmBands 564).low_rpm_end = 9057075 / 16384
      ∧ (rpmBands 564).high_rpm_start = 9171763 / 16384 := by
    constructor
    · simp only [rpmBands, IDLE_RPM]
      rw [f32_decimals.2.2.1]
      norm_num [b1, b3, b4]
    · simp only [rpmBands, IDLE_RPM]
      rw [f32_decimals.2.2.2.1]
      norm_num [b1, b6, b7]
  refine ⟨?_, ?_, ?_⟩
  · rw [vibration_frequency_redline sampleBands defaultConfig nearRedline
      (by rw [sampleBands_values.1]; norm_num [nearRedline, quietTelemetry])
      (by rw [sampleBands_values.2]; norm_num [nearRedline, quietTelemetry]),
      sampleBands_values.2,
      map_value_f32_mid _ _ _ _ _ (by norm_num [nearRedline, quietTelemetry])
        (by norm_num [nearRedline, quietTelemetry]) (by norm_num [nearRedline, quietTelemetry])]
    norm_num [nearRedline, quietTelemetry, defaultConfig, n485, f32_255, n123675, n585, d5, d6]
  · rw [vibration_frequency_redline sampleBands defaultConfig otherTruck
      (by rw [sampleBands_values.1]; norm_num [otherTruck, quietTelemetry])
      (by rw [sampleBands_values.2]; norm_num [otherTruck, quietTelemetry]),
      sampleBands_values.2,
      map_value_f32_mid _ _ _ _ _ (by norm_num [otherTruck, quietTelemetry])
        (by norm_num [otherTruck, quietTelemetry]) (by norm_num [otherTruck, quietTelemetry])]
    norm_num [otherTruck, quietTelemetry, defaultConfig, n285, f32_255, n72675, n1085, a5, a6]
  · rw [vibration_frequency_redline (rpmBands 564) defaultConfig shortRange
      (by rw [hb564.1]; norm_num [shortRange, quietTelemetry])
      (by rw [hb564.2]; norm_num [shortRange, quietTelemetry]),
      hb564.2,
      map_value_f32_mid _ _ _ _ _ (by norm_num [shortRange, quietTelemetry])
        (by norm_num [shortRange, quietTelemetry]) (by norm_num [shortRange, quietTelemetry])]
    norm_num [shortRange, quietTelemetry, defaultConfig, b8, f32_255, b10, b11, b12]

/-! ## Ranges of the values converted to 8 bits -/

/-- The argument of the sine of the startup lurch: for an elapsed time read as
a `float` from 0 up to, and not including, the 1.5 s of the lurch, the rounded
product of the progress and `PI` is between 0 and 3.1415925025939941, the
largest binary32 number below pi. -/
theorem startup_argument_bound (e : ℚ) (he : f32 e = e) (h0 : 0 ≤ e)
    (h1 : e < STARTUP_EFFECT_DURATION_S) :
    0 ≤ f32 (f32 (e / STARTUP_EFFECT_DURATION_S) * PI)
    ∧ f32 (f32 (e / STARTUP_EFFECT_DURATION_S) * PI) ≤ 6588397 / 2097152 := by
  have p1 : f32 (12582911 / 12582912) = 16777215 / 16777216 := by
    rw [f32_eval_frac (12582911 / 12582912) 16777215 24 (by norm_num) (by norm_num)
      (by norm_num) (by norm_num) (by norm_num)]
    norm_num
  have p2 : f32 (221069922725925 / 70368744177664) = 6588397 / 2097152 := by
    rw [f32_eval_frac (221069922725925 / 70368744177664) 13176794 22 (by norm_num)
      (by norm_num) (by norm_num) (by norm_num) (by norm_num)]
    norm_num
  have hPI : PI = 13176795 / 4194304 := f32_decimals.2.2.2.2.2.2.2
  have hprog0 : 0 ≤ f32 (e / STARTUP_EFFECT_DURATION_S) :=
    f32_nonneg (div_nonneg h0 (by norm_num [STARTUP_EFFECT_DURATION_S]))
  have hlt : f32 e < ((12582912 : ℤ) : ℚ) * 2 ^ (-23 : ℤ) := by
    rw [he]
    have : (((12582912 : ℤ) : ℚ)) * 2 ^ (-23 : ℤ) = 15 / 10 := by norm_num
    rw [this]
    exact h1
  have hpred := f32_le_pred e 12582912 (-23) (by norm_num) hlt
  rw [he] at hpred
  have he' : e ≤ 12582911 / 8388608 := by
    have : ((((12582912 : ℤ) : ℚ)) - 1) * 2 ^ (-23 : ℤ) = 12582911 / 8388608 := by norm_num
    rw [this] at hpred
    exact hpred
  have hprog : f32 (e / STARTUP_EFFECT_DURATION_S) ≤ 16777215 / 16777216 := by
    have := f32_mono (show e / STARTUP_EFFECT_DURATION_S ≤ 12582911 / 12582912 by
      rw [STARTUP_EFFECT_DURATION_S, div_le_iff₀ (by norm_num)]
      linarith)
    rwa [p1] at this
  constructor
  · exact f32_nonneg (mul_nonneg hprog0 (by rw [hPI]; norm_num))
  · have := f32_mono (show f32 (e / STARTUP_EFFECT_DURATION_S) * PI
        ≤ 221069922725925 / 70368744177664 by
      rw [hPI]
      linarith)
    rwa [p2] at this

/-- The retarder pulse before its conversion is within [0, 255] for a sine
within [-1, 1]. -/
theorem retarder_blue_range (E : Externals) (hsin : ∀ x, -1 ≤ E.sin x ∧ E.sin x ≤ 1)
    (tel : Telemetry) (t : Nat) :
    0 ≤ retarder_blue_value E tel t ∧ retarder_blue_value E tel t ≤ 255 := by
  unfold retarder_blue_value
  have h := half_sine_in_unit E hsin
    (f32 (f32 (f32 (t : ℚ) * f32 (1 / 10)) * f32 (tel.retarderBrake : ℚ)))
  constructor
  · exact f32_nonneg (mul_nonneg h.1 (by norm_num))
  · have := f32_mono (show f32 (f32 (E.sin (f32 (f32 (f32 (t : ℚ) * f32 (1 / 10))
        * f32 (tel.retarderBrake : ℚ))) + 1) / 2) * 255 ≤ 255 by linarith [h.2])
    rwa [f32_255] at this

/-- The refuel strength before its conversion is within -0.75 and 255 for a
multiplier in [0,1]. -/
theorem rumble_strength_range (config : AppConfig) (tel : Telemetry)
    (hm0 : 0 ≤ config.refuel_rumble_multiplier) (hm1 : config.refuel_rumble_multiplier ≤ 1) :
    -(3 / 4) ≤ rumble_strength config tel ∧ rumble_strength config tel ≤ 1023 / 4 := by
  unfold rumble_strength
  have h := map_value_f32_down_bounds (fuel_percentage tel) 0 100 255 f32_255 (by norm_num)
    (le_refl _)
  exact scaled_keeps_range _ _ h.1 (by linarith [h.2]) hm0 hm1

/-- The startup lurch before its conversion is within [0, 255] for a multiplier
in [0,1], an elapsed time read from 0 up to the duration of the lurch, and a
sine that is at most 1 and not negative up to the largest binary32 number
below pi. -/
theorem startup_lurch_range (E : Externals) (config : AppConfig) (e : ℚ)
    (hsin : ∀ x, -1 ≤ E.sin x ∧ E.sin x ≤ 1)
    (hsin0 : ∀ x, 0 ≤ x → x ≤ 6588397 / 2097152 → 0 ≤ E.sin x)
    (hm0 : 0 ≤ config.engine_start_multiplier) (hm1 : config.engine_start_multiplier ≤ 1)
    (he : f32 e = e) (h0 : 0 ≤ e) (h1 : e < STARTUP_EFFECT_DURATION_S) :
    0 ≤ startup_lurch_value E config e ∧ startup_lurch_value E config e ≤ 255 := by
  have ha := startup_argument_bound e he h0 h1
  have hs0 := hsin0 _ ha.1 ha.2
  have hs1 := (hsin (f32 (f32 (e / STARTUP_EFFECT_DURATION_S) * PI))).2
  have a0 : 0 ≤ f32 (E.sin (f32 (f32 (e / STARTUP_EFFECT_DURATION_S) * PI)) * 255) :=
    f32_nonneg (mul_nonneg hs0 (by norm_num))
  have a1 : f32 (E.sin (f32 (f32 (e / STARTUP_EFFECT_DURATION_S) * PI)) * 255) ≤ 255 := by
    have := f32_mono (show E.sin (f32 (f32 (e / STARTUP_EFFECT_DURATION_S) * PI)) * 255
      ≤ 255 by linarith)
    rwa [f32_255] at this
  unfold startup_lurch_value
  simp only []
  constructor
  · exact f32_nonneg (mul_nonneg a0 hm0)
  · have := f32_mono (show f32 (E.sin (f32 (f32 (e / STARTUP_EFFECT_DURATION_S) * PI)) * 255)
        * config.engine_start_multiplier ≤ 255 by nlinarith)
    rwa [f32_255] at this

/-- The body-roll amplitude is within [0, 255.75] for a multiplier in [0,1]. -/
theorem pulse_amplitude_range (E : Externals) (config : AppConfig) (tel : Telemetry)
    (hm0 : 0 ≤ config.body_roll_multiplier) (hm1 : config.body_roll_multiplier ≤ 1) :
    0 ≤ pulse_amplitude E config tel ∧ pulse_amplitude E config tel ≤ 1023 / 4 := by
  unfold pulse_amplitude
  have f225 : f32 (255 - 30) = 255 - 30 := by
    have := f32_225
    norm_num at this ⊢
    exact this
  have h := map_value_f32_up_bounds (roll_abs E tel) (f32 (1 / 10)) 2 30 255 f225 (by norm_num)
    (by norm_num) (le_refl _)
  constructor
  · exact f32_nonneg (mul_nonneg h.1 hm0)
  · exact (scaled_keeps_range _ _ (by linarith [h.1]) h.2 hm0 hm1).2

/-- The body-roll rumble before its conversion is within [0, 255.75] for a
multiplier in [0,1] and a sine within [-1, 1]. -/
theorem body_roll_range (E : Externals) (config : AppConfig) (tel : Telemetry) (t : Nat)
    (hsin : ∀ x, -1 ≤ E.sin x ∧ E.sin x ≤ 1)
    (hm0 : 0 ≤ config.body_roll_multiplier) (hm1 : config.body_roll_multiplier ≤ 1) :
    0 ≤ body_roll_value E config tel t ∧ body_roll_value E config tel t ≤ 1023 / 4 := by
  unfold body_roll_value
  have h := half_sine_in_unit E hsin (f32 (f32 (t : ℚ) * f32 (2 / 10)))
  have a := pulse_amplitude_range E config tel hm0 hm1
  constructor
  · exact f32_nonneg (mul_nonneg h.1 a.1)
  · have := f32_mono (show f32 (f32 (E.sin (f32 (f32 (t : ℚ) * f32 (2 / 10))) + 1) / 2)
        * pulse_amplitude E config tel ≤ 1023 / 4 by nlinarith [h.1, h.2, a.1, a.2])
    rwa [f32_range_ends.2] at this

/-- The brake-trigger force before its conversion is within [0, 255.75] for a
multiplier in [0,1]. -/
theorem brake_force_range (config : AppConfig) (tel : Telemetry)
    (hm0 : 0 ≤ config.brake_trigger_resistance_multiplier)
    (hm1 : config.brake_trigger_resistance_multiplier ≤ 1) :
    0 ≤ brake_force_value config tel ∧ brake_force_value config tel ≤ 1023 / 4 := by
  have hb := map_value_f32_up_bounds (current_speed_kmph tel) 0 90 0 200
    (by norm_num [f32_two_hundred]) (le_refl _) (by norm_num) (by norm_num)
  unfold brake_force_value
  constructor
  · exact f32_nonneg (mul_nonneg hb.1 hm0)
  · exact (scaled_keeps_range _ _ (by linarith [hb.1]) hb.2 hm0 hm1).2

/-- Every request is an 8-bit value. -/
theorem castU8_le (q : ℚ) : castU8 q ≤ 255 := by
  unfold castU8
  have h := Int.emod_lt_of_pos (truncInt q) (show (0 : ℤ) < 256 by norm_num)
  have h0 := Int.emod_nonneg (truncInt q) (show (256 : ℤ) ≠ 0 by norm_num)
  omega

/-- A value that fits its channel is converted by truncation to one of
0..255. -/
theorem fitsU8_castU8 (v : ℚ) (h : fitsU8 v) : castU8 v = ⌊v⌋₊ ∧ ⌊v⌋₊ ≤ 255 :=
  castU8_no_wrap v h.1 h.2

/-- A value within -0.75 and 255.75 fits its channel. -/
theorem fitsU8_of_range (v : ℚ) (h0 : -(3 / 4) ≤ v) (h1 : v ≤ 1023 / 4) : fitsU8 v :=
  ⟨by linarith, by linarith⟩

/-- The arch is within [0, 1]. -/
theorem arch_bounds (x : ℚ) : 0 ≤ archExternals.sin x ∧ archExternals.sin x ≤ 1 := by
  show 0 ≤ (if 0 ≤ x ∧ x ≤ 3 then x * (3 - x) * (4 / 9) else 0)
    ∧ (if 0 ≤ x ∧ x ≤ 3 then x * (3 - x) * (4 / 9) else 0) ≤ 1
  split_ifs with h
  · constructor
    · have := mul_nonneg h.1 (show 0 ≤ 3 - x by linarith [h.2])
      linarith
    · nlinarith [sq_nonneg (2 * x - 3)]
  · constructor <;> norm_num

/-- The throttle frequency at the end of the soft zone of a truck with a
maximum of 759 RPM, at multiplier 1: -0.0000152587890625. -/
theorem soft_zone_end_value :
    (rpmBands 759).low_rpm_end = 9696051 / 16384
    ∧ vibration_frequency (rpmBands 759) defaultConfig softZoneEnd = -(1 / 65536) := by
  have c1 : f32 (209) = 209 := by
    have := f32_natCast 209 (by norm_num)
    norm_num at this ⊢
    exact this
  have c3 : f32 (2805150557 / 67108864) = 10957619 / 262144 := by
    rw [f32_eval_frac (2805150557 / 67108864) 10957619 18 (by norm_num) (by norm_num)
      (by norm_num) (by norm_num) (by norm_num)]
    norm_num
  have c4 : f32 (155136819 / 262144) = 9696051 / 16384 := by
    rw [f32_eval_frac (155136819 / 262144) 9696051 14 (by norm_num) (by norm_num)
      (by norm_num) (by norm_num) (by norm_num)]
    norm_num
  have c8 : f32 (684851 / 16384) = 684851 / 16384 := by
    rw [f32_eval_frac (684851 / 16384) 10957616 18 (by norm_num) (by norm_num) (by norm_num)
      (by norm_num) (by norm_num)]
    norm_num
  have c10 : f32 (17121275 / 2048) = 4280319 / 512 := by
    rw [f32_eval_frac_tie (17121275 / 2048) 8560638 10 (by norm_num) (by norm_num)
      (by norm_num) (Or.inr (by norm_num)) (by decide)]
    norm_num
  have c11 : f32 (136970208 / 684851) = 13107201 / 65536 := by
    rw [f32_eval_frac (136970208 / 684851) 13107201 16 (by norm_num) (by norm_num)
      (by norm_num) (by norm_num) (by norm_num)]
    norm_num
  have c12 : f32 (1 / 65536) = 1 / 65536 := by
    have := f32_int_div_pow 1 16 (by norm_num) (by norm_num)
    norm_num at this ⊢
    exact this
  have hl : (rpmBands 759).low_rpm_end = 9696051 / 16384 := by
    simp only [rpmBands, IDLE_RPM]
    rw [f32_decimals.2.2.1]
    norm_num [c1, c3, c4]
  refine ⟨hl, ?_⟩
  rw [vibration_frequency_soft _ _ _ (by rw [hl]; norm_num [softZoneEnd, quietTelemetry]), hl,
    IDLE_RPM, map_value_f32_mid _ _ _ _ _ (by norm_num) (by norm_num [softZoneEnd, quietTelemetry])
      (by norm_num [softZoneEnd, quietTelemetry])]
  have e1 : softZoneEnd.engineRpm - 550 = 684851 / 16384 := by
    norm_num [softZoneEnd, quietTelemetry]
  have e2 : (9696051 / 16384 : ℚ) - 550 = 684851 / 16384 := by norm_num
  have e3 : ((0 : ℚ) - 200) = -200 := by norm_num
  rw [e1, e2, e3, c8, f32_neg, f32_two_hundred]
  have e4 : (684851 / 16384 : ℚ) * -200 = -(17121275 / 2048) := by norm_num
  rw [e4, f32_neg, c10]
  have e5 : (-(4280319 / 512) : ℚ) / (684851 / 16384) = -(136970208 / 684851) := by norm_num
  rw [e5, f32_neg, c11]
  have e6 : (-(13107201 / 65536) : ℚ) + 200 = -(1 / 65536) := by norm_num
  rw [e6, f32_neg, c12]
  have e7 : defaultConfig.throttle_trigger_vibration_multiplier = 1 := rfl
  rw [e7, mul_one, f32_neg, c12]
/-! ## Paused ticks -/

/-- C1: on a tick whose snapshot is paused, for every config and every prior
loop state, the output record handed to the device is the zeroed record:
lightbar (0,0,0), both rumbles 0, both trigger effects zero, player-LED bitmask
0 and microphone LED off. -/
theorem paused_output_zero (E : Externals) (k : RpmBands) (config : AppConfig)
    (tel : Telemetry) (clk : Clock) (s : LoopState) (hp : tel.paused = true) :
    (loopBody E k config tel clk s).out = zeroOutput
    ∧ (loopBody E k config tel clk s).out.lightbar = { r := 0, g := 0, b := 0 }
    ∧ (loopBody E k config tel clk s).out.leftRumble = 0
    ∧ (loopBody E k config tel clk s).out.rightRumble = 0
    ∧ (loopBody E k config tel clk s).out.leftTriggerEffect
        = { effectType := TriggerEffectType.NoResitance, startPosition := 0, force := 0 }
    ∧ (loopBody E k config tel clk s).out.rightTriggerEffect
        = { effectType := TriggerEffectType.NoResitance, startPosition := 0, keepEffect := false
            beginForce := 0, middleForce := 0, endForce := 0, frequency := 0 }
    ∧ (loopBody E k config tel clk s).out.playerLeds.bitmask = 0
    ∧ (loopBody E k config tel clk s).out.microphoneLed = MicLed.OFF := by
  simp [loopBody, hp, zeroOutput]

/-- Witness of C1: a paused snapshot with the parking brake on, a gear engaged
and a fine pending still yields the zeroed record. -/
theorem paused_output_zero_witness :
    ({ quietTelemetry with paused := true, parkBrake := true, gear := 4, fined := true }
        : Telemetry).paused = true
    ∧ (loopBody sampleExternals sampleBands defaultConfig
        { quietTelemetry with paused := true, parkBrake := true, gear := 4, fined := true }
        (clockAt 1) initialState).out = zeroOutput :=
  ⟨rfl, (paused_output_zero sampleExternals sampleBands defaultConfig
      { quietTelemetry with paused := true, parkBrake := true, gear := 4, fined := true }
      (clockAt 1) initialState rfl).1⟩

/-- Counterexample to C2 as stated: a paused tick that sees gear 4 after
previous gear 3 overwrites `previous_gear` (and the other previous values), so
the loop state is not the same after the tick as before it. -/
theorem paused_state_changes :
    ({ quietTelemetry with paused := true, gear := 4 } : Telemetry).paused = true
    ∧ ({ initialState with previous_gear := 3 } : LoopState).previous_gear = 3
    ∧ (loopBody sampleExternals sampleBands defaultConfig
        { quietTelemetry with paused := true, gear := 4 } (clockAt 1)
        { initialState with previous_gear := 3 }).st.previous_gear = 4
    ∧ (loopBody sampleExternals sampleBands defaultConfig
        { quietTelemetry with paused := true, gear := 4 } (clockAt 1)
        { initialState with previous_gear := 3 }).st
        ≠ { initialState with previous_gear := 3 } := by
  refine ⟨rfl, rfl, rfl, ?_⟩
  intro h
  have h2 := congrArg LoopState.previous_gear h
  simp [loopBody, storePrevious, quietTelemetry, initialState] at h2

/-- C2 (amended): on a paused tick the counter, the fine-alert and
startup-lurch flags and start times and the gear-jolt phase keep their values,
while the five previous values are set to the values of the snapshot. -/
theorem paused_state_frame (E : Externals) (k : RpmBands) (config : AppConfig)
    (tel : Telemetry) (clk : Clock) (s : LoopState) (hp : tel.paused = true) :
    (loopBody E k config tel clk s).st.pulse_timer = s.pulse_timer
    ∧ (loopBody E k config tel clk s).st.is_in_fine_effect = s.is_in_fine_effect
    ∧ (loopBody E k config tel clk s).st.fine_effect_start_time = s.fine_effect_start_time
    ∧ (loopBody E k config tel clk s).st.is_in_startup_effect = s.is_in_startup_effect
    ∧ (loopBody E k config tel clk s).st.engine_start_time = s.engine_start_time
    ∧ (loopBody E k config tel clk s).st.jolt_state = s.jolt_state
    ∧ (loopBody E k config tel clk s).st.previous_speed = tel.speed
    ∧ (loopBody E k config tel clk s).st.previous_rpm = tel.engineRpm
    ∧ (loopBody E k config tel clk s).st.previous_gear = tel.gear
    ∧ (loopBody E k config tel clk s).st.previous_engine_state = tel.engineEnabled
    ∧ (loopBody E k config tel clk s).st.previous_fined_state = tel.fined := by
  simp [loopBody, hp, storePrevious]

/-- Witness of C2 (amended): the paused tick of the counterexample. -/
theorem paused_state_frame_witness :
    ({ quietTelemetry with paused := true, gear := 4 } : Telemetry).paused = true
    ∧ (loopBody sampleExternals sampleBands defaultConfig
        { quietTelemetry with paused := true, gear := 4 } (clockAt 1)
        { initialState with previous_gear := 3, pulse_timer := 7 }).st.pulse_timer = 7 :=
  ⟨rfl, (paused_state_frame sampleExternals sampleBands defaultConfig
      { quietTelemetry with paused := true, gear := 4 } (clockAt 1)
      { initialState with previous_gear := 3, pulse_timer := 7 } rfl).1⟩

/-! ## Gear jolt -/

/-- C3: with gear jolt enabled at multiplier m in [0,1] and the jolt idle, a
change between two distinct nonzero gears a and b gives, on three unpaused
ticks with the gear held at b: the Phase 1 contribution (left trunc(255 m),
right trunc(100 m)), then the Phase 2 contribution (left trunc(100 m), right
trunc(255 m)), then no jolt contribution with the phase idle. The products
255 m and 100 m are the `float` products `255.0f * m` and `100.0f * m` of the
code. Each contribution is max-combined into the rumble reached before the jolt
stage. -/
theorem gear_jolt_two_ticks (E : Externals) (k : RpmBands) (config : AppConfig)
    (t1 t2 t3 : Telemetry) (c1 c2 c3 : Clock) (s : LoopState) (a b : Int) (m : ℚ)
    (hen : config.gear_jolt = true) (hm : config.gear_jolt_multiplier = m)
    (hm0 : 0 ≤ m) (hm1 : m ≤ 1)
    (hidle : s.jolt_state = 0) (hprev : s.previous_gear = a)
    (ha : a ≠ 0) (hb : b ≠ 0) (hab : a ≠ b)
    (hp1 : t1.paused = false) (hp2 : t2.paused = false) (hp3 : t3.paused = false)
    (hg1 : t1.gear = b) (hg2 : t2.gear = b) (hg3 : t3.gear = b) :
    -- first tick: Phase 1
    ((afterGearJolt E config t1 c1 s).out.leftRumble
        = max (beforeGearJolt E config t1 c1 s).out.leftRumble ⌊f32 (255 * m)⌋₊
      ∧ (afterGearJolt E config t1 c1 s).out.rightRumble
        = max (beforeGearJolt E config t1 c1 s).out.rightRumble ⌊f32 (100 * m)⌋₊
      ∧ (loopBody E k config t1 c1 s).display.gear_jolt_active = true
      ∧ (loopBody E k config t1 c1 s).st.jolt_state = 2)
    -- second tick: Phase 2
    ∧ ((afterGearJolt E config t2 c2 (loopBody E k config t1 c1 s).st).out.leftRumble
        = max (beforeGearJolt E config t2 c2 (loopBody E k config t1 c1 s).st).out.leftRumble
            ⌊f32 (100 * m)⌋₊
      ∧ (afterGearJolt E config t2 c2 (loopBody E k config t1 c1 s).st).out.rightRumble
        = max (beforeGearJolt E config t2 c2 (loopBody E k config t1 c1 s).st).out.rightRumble
            ⌊f32 (255 * m)⌋₊
      ∧ (loopBody E k config t2 c2 (loopBody E k config t1 c1 s).st).display.gear_jolt_active
        = true
      ∧ (loopBody E k config t2 c2 (loopBody E k config t1 c1 s).st).st.jolt_state = 0)
    -- third tick: idle, no contribution
    ∧ ((afterGearJolt E config t3 c3
          (loopBody E k config t2 c2 (loopBody E k config t1 c1 s).st).st).out
        = (beforeGearJolt E config t3 c3
          (loopBody E k config t2 c2 (loopBody E k config t1 c1 s).st).st).out
      ∧ (loopBody E k config t3 c3
          (loopBody E k config t2 c2 (loopBody E k config t1 c1 s).st).st).display.gear_jolt_active
        = false
      ∧ (loopBody E k config t3 c3
          (loopBody E k config t2 c2 (loopBody E k config t1 c1 s).st).st).st.jolt_state = 0) := by
  have h255 : castU8 (f32 (255 * m)) = ⌊f32 (255 * m)⌋₊ :=
    castU8_scaled 255 m f32_255 (by norm_num) (by norm_num) hm0 hm1
  have h100 : castU8 (f32 (100 * m)) = ⌊f32 (100 * m)⌋₊ :=
    castU8_scaled 100 m f32_hundred (by norm_num) (by norm_num) hm0 hm1
  -- first tick
  have f1 := loopBody_unpaused_frame E k config t1 c1 s hp1
  have e1 := jolt_edge_tick E config t1 c1 s hen
    (by rw [hg1, hprev]; exact fun h => hab h.symm) (by rw [hg1]; exact hb)
    (by rw [hprev]; exact ha)
  have s1j : (loopBody E k config t1 c1 s).st.jolt_state = 2 := by rw [f1.1, e1.2.2.1]
  have s1g : (loopBody E k config t1 c1 s).st.previous_gear = b := by
    rw [f1.2.2.2.2.2.2.2.1, hg1]
  -- second tick
  have f2 := loopBody_unpaused_frame E k config t2 c2 (loopBody E k config t1 c1 s).st hp2
  have e2 := jolt_second_tick E config t2 c2 (loopBody E k config t1 c1 s).st hen
    (by rw [hg2, s1g]) s1j
  have s2j : (loopBody E k config t2 c2 (loopBody E k config t1 c1 s).st).st.jolt_state = 0 := by
    rw [f2.1, e2.2.2.1]
  have s2g : (loopBody E k config t2 c2 (loopBody E k config t1 c1 s).st).st.previous_gear
      = b := by
    rw [f2.2.2.2.2.2.2.2.1, hg2]
  -- third tick
  have f3 := loopBody_unpaused_frame E k config t3 c3
    (loopBody E k config t2 c2 (loopBody E k config t1 c1 s).st).st hp3
  have e3 := jolt_idle_tick E config t3 c3
    (loopBody E k config t2 c2 (loopBody E k config t1 c1 s).st).st
    (Or.inl (by rw [hg3, s2g])) s2j
  rw [hm] at e1 e2
  rw [h255, h100] at e1 e2
  refine ⟨⟨e1.1, e1.2.1, ?_, s1j⟩, ⟨e2.1, e2.2.1, ?_, s2j⟩, ⟨e3.1, ?_, ?_⟩⟩
  · rw [f1.2.1, e1.2.2.2]
  · rw [f2.2.1, e2.2.2.2]
  · rw [f3.2.1, e3.2.2]
  · rw [f3.1, e3.2.1]

/-- Witness of C3: the change from gear 3 to gear 4 at multiplier `0.7f`, on
three quiet ticks: Phase 1 is left 178, right 70, and the jolt is over after
the second tick. -/
theorem gear_jolt_two_ticks_witness :
    (afterGearJolt sampleExternals joltAtSeventy inGearFour (clockAt 0)
        fromGearThree).out.leftRumble
      = max (beforeGearJolt sampleExternals joltAtSeventy inGearFour (clockAt 0)
          fromGearThree).out.leftRumble 178
    ∧ (afterGearJolt sampleExternals joltAtSeventy inGearFour (clockAt 0)
        fromGearThree).out.rightRumble
      = max (beforeGearJolt sampleExternals joltAtSeventy inGearFour (clockAt 0)
          fromGearThree).out.rightRumble 70
    ∧ (loopBody sampleExternals sampleBands joltAtSeventy inGearFour (clockAt 0)
        fromGearThree).st.jolt_state = 2
    ∧ (loopBody sampleExternals sampleBands joltAtSeventy inGearFour (clockAt 0)
        (loopBody sampleExternals sampleBands joltAtSeventy inGearFour (clockAt 0)
          fromGearThree).st).st.jolt_state = 0 := by
  have h := gear_jolt_two_ticks sampleExternals sampleBands joltAtSeventy
    inGearFour inGearFour inGearFour (clockAt 0) (clockAt 0) (clockAt 0)
    fromGearThree 3 4 (f32 (7 / 10)) rfl rfl seventy_percent.2.2.2.1 seventy_percent.2.2.2.2
    rfl rfl (by decide) (by decide) (by decide) rfl rfl rfl rfl rfl rfl
  have v1 : ⌊f32 (255 * f32 (7 / 10))⌋₊ = 178 := by
    rw [seventy_percent.1]
    exact (Nat.floor_eq_iff (by norm_num)).mpr ⟨by norm_num, by norm_num⟩
  have v2 : ⌊f32 (100 * f32 (7 / 10))⌋₊ = 70 := by
    rw [seventy_percent.2.1]
    exact (Nat.floor_eq_iff (by norm_num)).mpr ⟨by norm_num, by norm_num⟩
  rw [v1, v2] at h
  exact ⟨h.1.1, h.1.2.1, h.1.2.2.2, h.2.1.2.2.2⟩

/-- Counterexample to C4 as stated: with the gear going 3, 4, 5 on quiet
unpaused ticks at multiplier 1, the first tick leaves the jolt state at 2 with
previous gear 4, and the second tick (4 to 5, arriving while Phase 2 is
pending) replays Phase 1 (left 255, right 100) and leaves the state at 2 again:
it is not Phase 2 (left 100, right 255) and the jolt does not return to idle. -/
theorem gear_jolt_restarts :
    (loopBody sampleExternals sampleBands defaultConfig { quietTelemetry with gear := 4 }
        (clockAt 0) { initialState with previous_gear := 3 }).st
      = { initialState with pulse_timer := 1, previous_gear := 4, jolt_state := 2 }
    ∧ (loopBody sampleExternals sampleBands defaultConfig { quietTelemetry with gear := 5 }
        (clockAt 0)
        { initialState with pulse_timer := 1, previous_gear := 4, jolt_state := 2 }).out.leftRumble
      = 255
    ∧ (loopBody sampleExternals sampleBands defaultConfig { quietTelemetry with gear := 5 }
        (clockAt 0)
        { initialState with pulse_timer := 1, previous_gear := 4, jolt_state := 2 }).out.rightRumble
      = 100
    ∧ (loopBody sampleExternals sampleBands defaultConfig { quietTelemetry with gear := 5 }
        (clockAt 0)
        { initialState with pulse_timer := 1, previous_gear := 4, jolt_state := 2 }).st.jolt_state
      = 2 := by
  refine ⟨?_, ?_, ?_, ?_⟩ <;>
  norm_num [loopBody, unpausedBody, afterGearJolt, beforeGearJolt, afterLightbar, tickStart,
    fineEdge, lightbarCascade, micLedStage, fuelLedStage, refuelStage, gearJoltEdge,
    gearJoltOutput, engineStartEdge, crankingStage, startupStage, engineOnBlock, storePrevious,
    quietTelemetry, initialState, defaultConfig, clockAt, sampleExternals, zeroOutput,
    freshDisplay, is_critical_warning, is_minor_warning, fuel_percentage, num_leds_to_light,
    led_bitmasks, castU8, truncInt, f32_one, f32_255, f32_hundred]
  all_goals rfl

/-- C4 (amended): a qualifying gear-change edge starts the jolt at Phase 1
whatever the phase was. On every unpaused tick with gear jolt enabled on which
the gear differs from the previous gear and both are nonzero, the tick plays
the Phase 1 contribution (the conversions of the `float` products
`255.0f * m` and `100.0f * m`), reports the jolt active and leaves the state at
2 (Phase 2 pending), for every prior value of the jolt state. -/
theorem gear_jolt_edge_from_any_phase (E : Externals) (k : RpmBands) (config : AppConfig)
    (tel : Telemetry) (clk : Clock) (s : LoopState)
    (hp : tel.paused = false) (hen : config.gear_jolt = true)
    (hne : tel.gear ≠ s.previous_gear) (hg : tel.gear ≠ 0) (hprev : s.previous_gear ≠ 0) :
    (afterGearJolt E config tel clk s).out.leftRumble
        = max (beforeGearJolt E config tel clk s).out.leftRumble
            (castU8 (f32 (255 * config.gear_jolt_multiplier)))
    ∧ (afterGearJolt E config tel clk s).out.rightRumble
        = max (beforeGearJolt E config tel clk s).out.rightRumble
            (castU8 (f32 (100 * config.gear_jolt_multiplier)))
    ∧ (loopBody E k config tel clk s).display.gear_jolt_active = true
    ∧ (loopBody E k config tel clk s).st.jolt_state = 2
    ∧ (loopBody E k config tel clk s).st.previous_gear = tel.gear := by
  have f := loopBody_unpaused_frame E k config tel clk s hp
  have e := jolt_edge_tick E config tel clk s hen hne hg hprev
  refine ⟨e.1, e.2.1, ?_, ?_, f.2.2.2.2.2.2.2.1⟩
  · rw [f.2.1, e.2.2.2]
  · rw [f.1, e.2.2.1]

/-- Witness of C4 (amended): the edge 4 to 5 arriving with Phase 2 pending. -/
theorem gear_jolt_edge_from_any_phase_witness :
    ({ initialState with previous_gear := 4, jolt_state := 2 } : LoopState).jolt_state = 2
    ∧ (loopBody sampleExternals sampleBands defaultConfig { quietTelemetry with gear := 5 }
        (clockAt 0) { initialState with previous_gear := 4, jolt_state := 2 }).st.jolt_state
        = 2 :=
  ⟨rfl, (gear_jolt_edge_from_any_phase sampleExternals sampleBands defaultConfig
      { quietTelemetry with gear := 5 } (clockAt 0)
      { initialState with previous_gear := 4, jolt_state := 2 }
      rfl rfl (by decide) (by decide) (by decide)).2.2.2.1⟩

/-- C5: on an unpaused tick with the jolt idle, if the current gear is 0 or
the previous gear is 0 the jolt stays idle, the jolt stage leaves the output
record unchanged (no rumble contribution) and the jolt is not reported active,
whatever the other gear value and the configuration are. -/
theorem neutral_never_jolts (E : Externals) (k : RpmBands) (config : AppConfig)
    (tel : Telemetry) (clk : Clock) (s : LoopState)
    (hp : tel.paused = false) (hidle : s.jolt_state = 0)
    (hzero : tel.gear = 0 ∨ s.previous_gear = 0) :
    (loopBody E k config tel clk s).st.jolt_state = 0
    ∧ (afterGearJolt E config tel clk s).out = (beforeGearJolt E config tel clk s).out
    ∧ (loopBody E k config tel clk s).display.gear_jolt_active = false := by
  have f := loopBody_unpaused_frame E k config tel clk s hp
  have e := jolt_idle_tick E config tel clk s (Or.inr hzero) hidle
  refine ⟨?_, e.1, ?_⟩
  · rw [f.1, e.2.1]
  · rw [f.2.1, e.2.2]

/-- Witness of C5: the change from gear 3 to neutral. -/
theorem neutral_never_jolts_witness :
    (({ quietTelemetry with gear := 0 } : Telemetry).gear = 0
      ∨ ({ initialState with previous_gear := 3 } : LoopState).previous_gear = 0)
    ∧ (loopBody sampleExternals sampleBands defaultConfig { quietTelemetry with gear := 0 }
        (clockAt 0) { initialState with previous_gear := 3 }).st.jolt_state = 0 :=
  ⟨Or.inl rfl, (neutral_never_jolts sampleExternals sampleBands defaultConfig
      { quietTelemetry with gear := 0 } (clockAt 0) { initialState with previous_gear := 3 }
      rfl rfl (Or.inl rfl)).1⟩

/-! ## Fine alert -/

/-- C6: on an unpaused tick with the fine alert enabled on which the fined
flag differs from the previous one, whatever the prior state of the fine effect
(inactive, active or about to expire), the fine effect is active after the tick
and its start time is the clock reading taken at the edge on that tick. The
tick reads the clock a second time for the elapsed time (line 837); that
reading is taken to lie within the alert's duration of the first. -/
theorem fined_edge_arms (E : Externals) (k : RpmBands) (config : AppConfig)
    (tel : Telemetry) (clk : Clock) (s : LoopState)
    (hp : tel.paused = false) (hen : config.fine_alert = true)
    (hedge : tel.fined ≠ s.previous_fined_state)
    (hclk : clk.fine_elapsed_now - clk.fine_start_now ≤ FINE_EFFECT_DURATION_S) :
    (loopBody E k config tel clk s).st.is_in_fine_effect = true
    ∧ (loopBody E k config tel clk s).st.fine_effect_start_time = clk.fine_start_now := by
  have hstart : fineStart config tel clk s = clk.fine_start_now := by
    unfold fineStart fineEdgeSeen
    rw [if_pos ⟨hen, hedge⟩]
  have hrun : fineRunning config tel clk s := by
    refine ⟨⟨hen, Or.inl hedge⟩, ?_⟩
    unfold fineElapsed
    rw [hstart]
    exact duration_seconds_five.2 _ hclk
  have f := loopBody_unpaused_frame E k config tel clk s hp
  have r := afterLightbar_running E config tel clk s hrun
  refine ⟨?_, ?_⟩
  · rw [f.2.2.1, r.2.1]
  · rw [f.2.2.2.1, r.2.2.1, hstart]

/-- Witness of C6: a fined edge arriving while an old alert, started 4.9 s
before, is still active; the alert restarts at the reading 49/10. -/
theorem fined_edge_arms_witness :
    ({ quietTelemetry with fined := true } : Telemetry).fined
        ≠ ({ initialState with is_in_fine_effect := true } : LoopState).previous_fined_state
    ∧ (loopBody sampleExternals sampleBands defaultConfig { quietTelemetry with fined := true }
        (clockAt (49 / 10)) { initialState with is_in_fine_effect := true }).st.fine_effect_start_time
        = (clockAt (49 / 10)).fine_start_now :=
  ⟨by decide, (fined_edge_arms sampleExternals sampleBands defaultConfig
      { quietTelemetry with fined := true } (clockAt (49 / 10))
      { initialState with is_in_fine_effect := true } rfl rfl (by decide)
      (by norm_num [clockAt, FINE_EFFECT_DURATION_S])).2⟩

/-- Counterexample to C7 as stated: an alert started at time 0 and read at
exactly 5.0 s, with no new edge, is still active after the tick, and the tick
carries the blue flash (phase 20 mod 8 = 4) and the alert's left rumble of
200. -/
theorem fine_alert_active_at_five :
    (clockAt 5).fine_elapsed_now - fineActiveState.fine_effect_start_time = 5
    ∧ (loopBody sampleExternals sampleBands defaultConfig quietTelemetry (clockAt 5)
        fineActiveState).st.is_in_fine_effect = true
    ∧ (loopBody sampleExternals sampleBands defaultConfig quietTelemetry (clockAt 5)
        fineActiveState).out.lightbar = { r := 0, g := 0, b := 255 }
    ∧ (afterLightbar sampleExternals defaultConfig quietTelemetry (clockAt 5)
        fineActiveState).out.leftRumble = 200 := by
  have hel : fineElapsed defaultConfig quietTelemetry (clockAt 5) fineActiveState = 5 := by
    have e : (clockAt 5).fine_elapsed_now
        - fineStart defaultConfig quietTelemetry (clockAt 5) fineActiveState = 5 := by
      norm_num [fineStart, fineEdgeSeen, clockAt, quietTelemetry, initialState, fineActiveState,
        defaultConfig]
    rw [fineElapsed, e, duration_seconds_five.1]
  have hrun : fineRunning defaultConfig quietTelemetry (clockAt 5) fineActiveState := by
    refine ⟨⟨rfl, Or.inr rfl⟩, ?_⟩
    rw [hel]
    norm_num [FINE_EFFECT_DURATION_S]
  have hph : flash_phase 5 = 4 := by
    rw [flash_phase_of_nonneg 5 (by norm_num) f32_five]
    norm_num
  have f := loopBody_unpaused_frame sampleExternals sampleBands defaultConfig quietTelemetry
    (clockAt 5) fineActiveState rfl
  have r := afterLightbar_running sampleExternals defaultConfig quietTelemetry (clockAt 5)
    fineActiveState hrun
  refine ⟨?_, ?_, ?_, ?_⟩
  · norm_num [clockAt, initialState, fineActiveState]
  · rw [f.2.2.1, r.2.1]
  · rw [f.2.2.2.2.1, r.1, fineFlash_lightbar, hel, hph]
    decide
  · rw [r.1, hel]
    simp [fineFlash, fineRumble, fineLightbar, hph, initialState, fineActiveState, zeroOutput]

/-- C7 (amended): the tick reads the elapsed time of the alert as a `float`
number of seconds (`duration_seconds`). On an unpaused tick with the fine alert
enabled and active and no new fined edge, if that reading is greater than 5.0
the alert is inactive after the tick, the lightbar is (0,0,0) and the alert
adds no rumble; if the reading is at most 5.0 the alert stays active. The
reading is greater than 5.0 exactly when the elapsed time is at least
5.000000256 s, so an elapsed time of exactly 5.0 s keeps the alert active. -/
theorem fine_alert_expiry (E : Externals) (k : RpmBands) (config : AppConfig)
    (tel : Telemetry) (clk : Clock) (s : LoopState)
    (hp : tel.paused = false) (hen : config.fine_alert = true)
    (hno : tel.fined = s.previous_fined_state) (hact : s.is_in_fine_effect = true) :
    (duration_seconds (clk.fine_elapsed_now - s.fine_effect_start_time) > 5 →
        (loopBody E k config tel clk s).st.is_in_fine_effect = false
        ∧ (loopBody E k config tel clk s).out.lightbar = { r := 0, g := 0, b := 0 }
        ∧ (afterLightbar E config tel clk s).out.leftRumble = 0
        ∧ (afterLightbar E config tel clk s).out.rightRumble = 0)
    ∧ (duration_seconds (clk.fine_elapsed_now - s.fine_effect_start_time) ≤ 5 →
        (loopBody E k config tel clk s).st.is_in_fine_effect = true)
    ∧ (duration_seconds (clk.fine_elapsed_now - s.fine_effect_start_time) > 5
        ↔ 5000000256 / 1000000000 ≤ clk.fine_elapsed_now - s.fine_effect_start_time) := by
  have hstart : fineStart config tel clk s = s.fine_effect_start_time := by
    unfold fineStart fineEdgeSeen
    rw [if_neg (fun h => h.2 hno)]
  have harm : fineArmed config tel s := ⟨hen, Or.inr hact⟩
  have f := loopBody_unpaused_frame E k config tel clk s hp
  refine ⟨?_, ?_, duration_seconds_gt_five _⟩
  · intro hgt
    have x := afterLightbar_expired E config tel clk s harm
      (by unfold fineElapsed FINE_EFFECT_DURATION_S; rw [hstart]; exact hgt)
    refine ⟨?_, ?_, ?_, ?_⟩
    · rw [f.2.2.1, x.2.1]
    · rw [f.2.2.2.2.1, x.1]; rfl
    · rw [x.1]; rfl
    · rw [x.1]; rfl
  · intro hle
    have r := afterLightbar_running E config tel clk s
      ⟨harm, by unfold fineElapsed FINE_EFFECT_DURATION_S; rw [hstart]; exact hle⟩
    rw [f.2.2.1, r.2.1]

/-- Witness of C7 (amended): an alert started at time 0 is inactive after a
tick that reads it at 6 s, and still active after a tick that reads it at
5.0000001 s, which reads 5.0. -/
theorem fine_alert_expiry_witness :
    duration_seconds ((clockAt 6).fine_elapsed_now - fineActiveState.fine_effect_start_time) > 5
    ∧ (loopBody sampleExternals sampleBands defaultConfig quietTelemetry (clockAt 6)
        fineActiveState).st.is_in_fine_effect = false
    ∧ duration_seconds ((clockAt (50000001 / 10000000)).fine_elapsed_now
        - fineActiveState.fine_effect_start_time) ≤ 5
    ∧ (loopBody sampleExternals sampleBands defaultConfig quietTelemetry
        (clockAt (50000001 / 10000000)) fineActiveState).st.is_in_fine_effect = true := by
  have e6 : (clockAt 6).fine_elapsed_now - fineActiveState.fine_effect_start_time = 6 := by
    norm_num [clockAt, fineActiveState, initialState]
  have e5 : (clockAt (50000001 / 10000000)).fine_elapsed_now
      - fineActiveState.fine_effect_start_time = 50000001 / 10000000 := by
    norm_num [clockAt, fineActiveState, initialState]
  have h6 : duration_seconds ((clockAt 6).fine_elapsed_now
      - fineActiveState.fine_effect_start_time) > 5 := by
    rw [e6, duration_seconds_samples.2.2.2.2.1]; norm_num
  have h5 : duration_seconds ((clockAt (50000001 / 10000000)).fine_elapsed_now
      - fineActiveState.fine_effect_start_time) ≤ 5 := by
    rw [e5, duration_seconds_samples.2.2.1]
  exact ⟨h6,
    ((fine_alert_expiry sampleExternals sampleBands defaultConfig quietTelemetry (clockAt 6)
      fineActiveState rfl rfl rfl rfl).1 h6).1,
    h5,
    (fine_alert_expiry sampleExternals sampleBands defaultConfig quietTelemetry
      (clockAt (50000001 / 10000000)) fineActiveState rfl rfl rfl rfl).2.1 h5⟩

/-- C8: on an unpaused tick on which the fine alert is active within its
duration (the clock not before its start) and the parking brake is engaged
with the park-brake lightbar enabled, the lightbar is the flash colour of the
fine alert for the phase k = floor(elapsed / 0.25) mod 8, where elapsed is the
`float` number of seconds the tick reads: (255,0,0) for k in {0,2}, (0,0,255)
for k in {4,6} and (0,0,0) otherwise; the park-brake red is not shown. -/
theorem fine_alert_over_park_brake (E : Externals) (k : RpmBands) (config : AppConfig)
    (tel : Telemetry) (clk : Clock) (s : LoopState)
    (hp : tel.paused = false) (hrun : fineRunning config tel clk s)
    (h0 : 0 ≤ fineElapsed config tel clk s)
    (hpark : tel.parkBrake = true) (hcfg : config.park_brake_lightbar = true) :
    (loopBody E k config tel clk s).out.lightbar
      = fineFlashColour (⌊fineElapsed config tel clk s / (1 / 4)⌋ % 8) := by
  have f := loopBody_unpaused_frame E k config tel clk s hp
  have r := afterLightbar_running E config tel clk s hrun
  rw [f.2.2.2.2.1, r.1, fineFlash_lightbar,
    flash_phase_of_nonneg _ h0 (by unfold fineElapsed; exact (duration_seconds_facts _).1)]

/-- Witness of C8: parking brake on; an alert read at 1 s is in phase 4 and the
lightbar is blue; an alert read at 1.99999999 s reads 2.0, is in phase 0 and
the lightbar is red. -/
theorem fine_alert_over_park_brake_witness :
    parkedQuiet.parkBrake = true
    ∧ (loopBody sampleExternals sampleBands defaultConfig parkedQuiet (clockAt 1)
        fineActiveState).out.lightbar = { r := 0, g := 0, b := 255 }
    ∧ (loopBody sampleExternals sampleBands defaultConfig parkedQuiet
        (clockAt (199999999 / 100000000)) fineActiveState).out.lightbar
      = { r := 255, g := 0, b := 0 } := by
  have e1 : fineElapsed defaultConfig parkedQuiet (clockAt 1) fineActiveState = 1 := by
    have e : (clockAt 1).fine_elapsed_now
        - fineStart defaultConfig parkedQuiet (clockAt 1) fineActiveState = 1 := by
      norm_num [fineStart, fineEdgeSeen, clockAt, parkedQuiet, quietTelemetry, initialState,
        fineActiveState, defaultConfig]
    rw [fineElapsed, e, duration_seconds_samples.1]
  have e2 : fineElapsed defaultConfig parkedQuiet (clockAt (199999999 / 100000000))
      fineActiveState = 2 := by
    have e : (clockAt (199999999 / 100000000)).fine_elapsed_now
        - fineStart defaultConfig parkedQuiet (clockAt (199999999 / 100000000)) fineActiveState
        = 199999999 / 100000000 := by
      norm_num [fineStart, fineEdgeSeen, clockAt, parkedQuiet, quietTelemetry, initialState,
        fineActiveState, defaultConfig]
    rw [fineElapsed, e, duration_seconds_samples.2.1]
  have w1 := fine_alert_over_park_brake sampleExternals sampleBands defaultConfig parkedQuiet
    (clockAt 1) fineActiveState rfl
    ⟨⟨rfl, Or.inr rfl⟩, by rw [e1]; norm_num [FINE_EFFECT_DURATION_S]⟩
    (by rw [e1]; norm_num) rfl rfl
  have w2 := fine_alert_over_park_brake sampleExternals sampleBands defaultConfig parkedQuiet
    (clockAt (199999999 / 100000000)) fineActiveState rfl
    ⟨⟨rfl, Or.inr rfl⟩, by rw [e2]; norm_num [FINE_EFFECT_DURATION_S]⟩
    (by rw [e2]; norm_num) rfl rfl
  rw [e1] at w1
  rw [e2] at w2
  refine ⟨rfl, ?_, ?_⟩
  · rw [w1]
    norm_num [fineFlashColour]
  · rw [w2]
    norm_num [fineFlashColour]
/-! ## Rumble combination and the fuel gauge -/

/-- C9: on every unpaused tick the final left rumble is the maximum of the left
intensities requested on that tick by the fine alert, refuel, gear jolt,
startup lurch, hard braking or body roll, and 0 when there is no request;
likewise the right rumble for the fine alert, refuel, gear jolt, cranking, hard
braking or body roll. -/
theorem rumble_max_combined (E : Externals) (k : RpmBands) (config : AppConfig)
    (tel : Telemetry) (clk : Clock) (s : LoopState) (hp : tel.paused = false) :
    (loopBody E k config tel clk s).out.leftRumble
        = maxRequest (leftRequests E config tel clk s)
    ∧ (loopBody E k config tel clk s).out.rightRumble
        = maxRequest (rightRequests E config tel clk s) :=
  unpaused_rumble E k config tel clk s hp

/-- Witness of C9: refuelling an empty tank at rest while a gear jolt starts:
left is max(255, 255), not a sum. -/
theorem rumble_max_combined_witness :
    ({ quietTelemetry with refuel := true, gear := 4 } : Telemetry).paused = false
    ∧ (loopBody sampleExternals sampleBands defaultConfig
        { quietTelemetry with refuel := true, gear := 4 } (clockAt 0)
        { initialState with previous_gear := 3 }).out.leftRumble
      = maxRequest (leftRequests sampleExternals defaultConfig
          { quietTelemetry with refuel := true, gear := 4 } (clockAt 0)
          { initialState with previous_gear := 3 }) :=
  ⟨rfl, (rumble_max_combined sampleExternals sampleBands defaultConfig
      { quietTelemetry with refuel := true, gear := 4 } (clockAt 0)
      { initialState with previous_gear := 3 } rfl).1⟩

/-- C10: for every snapshot with `fuelCapacity` zero or negative and any fuel
amount, the fuel percentage is 0 (the guarded branch, no division), no LED zone
is lit and the player-LED bitmask of the output record is 0. -/
theorem zero_capacity_fuel (E : Externals) (k : RpmBands) (config : AppConfig)
    (tel : Telemetry) (clk : Clock) (s : LoopState) (hcap : tel.fuelCapacity ≤ 0) :
    fuel_percentage tel = 0
    ∧ num_leds_to_light (fuel_percentage tel) = 0
    ∧ (loopBody E k config tel clk s).out.playerLeds.bitmask = 0 := by
  have hfp : fuel_percentage tel = 0 := by
    unfold fuel_percentage
    rw [if_neg (not_lt.mpr hcap)]
  have hn : num_leds_to_light (fuel_percentage tel) = 0 := by
    rw [hfp]
    norm_num [num_leds_to_light, f32_decimals.1]
  refine ⟨hfp, hn, ?_⟩
  by_cases hp : tel.paused = false
  · have h1 : (loopBody E k config tel clk s).out.playerLeds
        = (fuelLedStage E config tel (micLedStage config tel
            (afterLightbar E config tel clk s))).out.playerLeds := by
      simp [loopBody, hp, unpausedBody, afterGearJolt, beforeGearJolt]
    rw [h1]
    simp only [fuelLedStage, hn]
    split_ifs <;> simp [led_bitmasks, zeroOutput]
  · simp [loopBody, hp, zeroOutput]

/-- Witness of C10: capacity 0 with 50 litres reported, everything enabled. -/
theorem zero_capacity_fuel_witness :
    ({ quietTelemetry with fuel := 50 } : Telemetry).fuelCapacity ≤ 0
    ∧ (loopBody sampleExternals sampleBands defaultConfig { quietTelemetry with fuel := 50 }
        (clockAt 0) initialState).out.playerLeds.bitmask = 0 :=
  ⟨by norm_num [quietTelemetry],
   (zero_capacity_fuel sampleExternals sampleBands defaultConfig
      { quietTelemetry with fuel := 50 } (clockAt 0) initialState
      (by norm_num [quietTelemetry])).2.2⟩

/-! ## Trigger effects -/

/-- C11: on an unpaused tick with the engine on and brake-trigger resistance
enabled at multiplier m in [0,1], the left trigger is a continuous resistance
from start position 0 whose force is 0 at a speed of 0 km/h or less,
trunc(200 m) at 90 km/h or more, and trunc(200 m v / 90) at a speed v between
0 and 90 km/h. The speed v is the `float` the tick computes and the products
and the quotient are `float` operations, in the order of the code: v times 200,
divided by 90, times m; the value truncated is within 2^-14 of the exact
200 m v / 90. -/
theorem brake_trigger_endpoints (E : Externals) (k : RpmBands) (config : AppConfig)
    (tel : Telemetry) (clk : Clock) (s : LoopState) (m : ℚ)
    (hp : tel.paused = false) (hengine : tel.engineEnabled = true)
    (hen : config.brake_trigger_resistance = true)
    (hm : config.brake_trigger_resistance_multiplier = m) (hm0 : 0 ≤ m) (hm1 : m ≤ 1) :
    (loopBody E k config tel clk s).out.leftTriggerEffect.effectType
        = TriggerEffectType.ContinuousResitance
    ∧ (loopBody E k config tel clk s).out.leftTriggerEffect.startPosition = 0
    ∧ (current_speed_kmph tel ≤ 0 →
        (loopBody E k config tel clk s).out.leftTriggerEffect.force = 0)
    ∧ (90 ≤ current_speed_kmph tel →
        (loopBody E k config tel clk s).out.leftTriggerEffect.force = ⌊f32 (200 * m)⌋₊)
    ∧ (0 ≤ current_speed_kmph tel → current_speed_kmph tel ≤ 90 →
        (loopBody E k config tel clk s).out.leftTriggerEffect.force
          = ⌊f32 (f32 (f32 (current_speed_kmph tel * 200) / 90) * m)⌋₊
        ∧ |f32 (f32 (f32 (current_speed_kmph tel * 200) / 90) * m)
            - 200 * m * current_speed_kmph tel / 90| ≤ 1 / 2 ^ 14) := by
  have h := (unpaused_triggers E k config tel clk s hp).1
  have hv : leftTriggerValue config tel
      = { effectType := TriggerEffectType.ContinuousResitance, startPosition := 0
          force := castU8 (brake_force_value config tel) } := by
    unfold leftTriggerValue
    rw [if_pos ⟨hengine, hen⟩]
  rw [hv] at h
  rw [h]
  have c := brake_force_cases config tel (by rw [hm]; exact hm0) (by rw [hm]; exact hm1)
  rw [hm] at c
  refine ⟨rfl, rfl, ?_, ?_, ?_⟩
  · intro hlow
    show castU8 (brake_force_value config tel) = 0
    rw [c.2.2.2, c.1 hlow]
    simp
  · intro hhigh
    show castU8 (brake_force_value config tel) = ⌊f32 (200 * m)⌋₊
    rw [c.2.2.2, c.2.1 hhigh]
  · intro h0 h90
    constructor
    · show castU8 (brake_force_value config tel)
        = ⌊f32 (f32 (f32 (current_speed_kmph tel * 200) / 90) * m)⌋₊
      rw [c.2.2.2, c.2.2.1 h0 h90]
    · exact brake_force_error _ m h0 h90 hm0 hm1

/-- Witness of C11: at 9 m/s the speed reads 32.399997711181640625 km/h and the
force at multiplier 1 is 71. -/
theorem brake_trigger_endpoints_witness :
    cruising.paused = false
    ∧ current_speed_kmph cruising = 8493465 / 262144
    ∧ (loopBody sampleExternals sampleBands defaultConfig cruising (clockAt 0)
        initialState).out.leftTriggerEffect.force = 71 := by
  have w := brake_trigger_endpoints sampleExternals sampleBands defaultConfig cruising
    (clockAt 0) initialState 1 rfl rfl rfl rfl (by norm_num) (by norm_num)
  have hs := cruising_values.1
  have hf := (brake_force_cases defaultConfig cruising (by norm_num [defaultConfig])
    (by norm_num [defaultConfig])).2.2.1 (by rw [hs]; norm_num) (by rw [hs]; norm_num)
  have e : f32 (f32 (f32 (current_speed_kmph cruising * 200) / 90) * 1) = 9437183 / 131072 := by
    have d : defaultConfig.brake_trigger_resistance_multiplier = 1 := rfl
    rw [d] at hf
    rw [← hf, cruising_values.2]
  refine ⟨rfl, hs, ?_⟩
  rw [(w.2.2.2.2 (by rw [hs]; norm_num) (by rw [hs]; norm_num)).1, e]
  exact (Nat.floor_eq_iff (by norm_num)).mpr ⟨by norm_num, by norm_num⟩

/-- Counterexample to C14 as stated: with `engineRpmMax` 550 (zero usable
range), engine on, throttle vibration at multiplier 1 and an RPM of 500, below
idle, the right-trigger frequency is 200, not 0. -/
theorem zero_range_soft_zone_full :
    (rpmBands 550).low_rpm_end = 550 ∧ (rpmBands 550).high_rpm_start = 550
    ∧ (loopBody sampleExternals (rpmBands 550) defaultConfig zeroRangeLow (clockAt 0)
        initialState).out.rightTriggerEffect.frequency = 200 := by
  refine ⟨rpmBands_idle.1, rpmBands_idle.2, ?_⟩
  rw [(unpaused_triggers sampleExternals (rpmBands 550) defaultConfig zeroRangeLow (clockAt 0)
    initialState rfl).2]
  have hf : vibration_frequency (rpmBands 550) defaultConfig zeroRangeLow = 200 := by
    rw [vibration_frequency_soft _ _ _ (by
      rw [rpmBands_idle.1]; norm_num [zeroRangeLow, quietTelemetry]), rpmBands_idle.1, IDLE_RPM,
      map_value_f32_empty]
    norm_num [defaultConfig, f32_two_hundred]
  unfold rightTriggerValue
  rw [if_pos ⟨rfl, rfl⟩, hf]
  show castU8 200 = 200
  rw [castU8_of_range 200 (by norm_num) (by norm_num)]
  norm_num

/-- C14 (amended): with a zero usable RPM range (`engineRpmMax` 550, so the
soft-zone end and the redline start are 550 too), on an unpaused tick with the
engine on and throttle vibration enabled at multiplier m in [0,1], the
frequency is trunc(200 m), the truncated `float` product, for an RPM at or
below 550, where `map_value` falls back to the soft zone's `out_min` of 200,
and 0 for every RPM above 550. -/
theorem zero_range_throttle (E : Externals) (k : RpmBands) (config : AppConfig)
    (tel : Telemetry) (clk : Clock) (s : LoopState) (m : ℚ)
    (hp : tel.paused = false) (hengine : tel.engineEnabled = true)
    (hen : config.throttle_trigger_vibration = true)
    (hm : config.throttle_trigger_vibration_multiplier = m) (hm0 : 0 ≤ m) (hm1 : m ≤ 1)
    (hmax : tel.engineRpmMax = 550) (hk : k = rpmBands 550) :
    (tel.engineRpm ≤ 550 →
        vibration_frequency k config tel = f32 (200 * m)
        ∧ (loopBody E k config tel clk s).out.rightTriggerEffect.frequency = ⌊f32 (200 * m)⌋₊)
    ∧ (550 < tel.engineRpm →
        vibration_frequency k config tel = 0
        ∧ (loopBody E k config tel clk s).out.rightTriggerEffect.frequency = 0) := by
  have h := (unpaused_triggers E k config tel clk s hp).2
  have hv : rightTriggerValue k config tel
      = { effectType := TriggerEffectType.EffectEx, startPosition := 0, keepEffect := true
          beginForce := 0, middleForce := 0, endForce := 0
          frequency := castU8 (vibration_frequency k config tel) } := by
    unfold rightTriggerValue
    rw [if_pos ⟨hengine, hen⟩]
  rw [hv] at h
  have e1 : k.low_rpm_end = 550 := by rw [hk]; exact rpmBands_idle.1
  have e2 : k.high_rpm_start = 550 := by rw [hk]; exact rpmBands_idle.2
  constructor
  · intro hr
    have hf : vibration_frequency k config tel = f32 (200 * m) := by
      rw [vibration_frequency_soft k config tel (by rw [e1]; exact hr), e1, IDLE_RPM,
        map_value_f32_empty, hm]
    refine ⟨hf, ?_⟩
    rw [h]
    show castU8 (vibration_frequency k config tel) = ⌊f32 (200 * m)⌋₊
    rw [hf, castU8_scaled 200 m f32_two_hundred (by norm_num) (by norm_num) hm0 hm1]
  · intro hr
    have hf : vibration_frequency k config tel = 0 := by
      rw [vibration_frequency_redline k config tel (by rw [e1]; exact hr)
        (by rw [e2]; exact hr.le), e2, hmax, map_value_f32_empty, zero_mul, f32_zero]
    refine ⟨hf, ?_⟩
    rw [h]
    show castU8 (vibration_frequency k config tel) = 0
    rw [hf, castU8_of_range 0 (le_refl 0) (by norm_num)]
    simp

/-- Witness of C14 (amended): zero range, RPM 600 above idle: frequency 0. -/
theorem zero_range_throttle_witness :
    (550 : ℚ) < zeroRangeHigh.engineRpm
    ∧ (loopBody sampleExternals (rpmBands 550) defaultConfig zeroRangeHigh (clockAt 0)
        initialState).out.rightTriggerEffect.frequency = 0 :=
  ⟨by norm_num [zeroRangeHigh, quietTelemetry],
   ((zero_range_throttle sampleExternals (rpmBands 550) defaultConfig zeroRangeHigh
      (clockAt 0) initialState 1 rfl rfl rfl rfl (by norm_num) (by norm_num) rfl rfl).2
      (by norm_num [zeroRangeHigh, quietTelemetry])).2⟩

/-- C15: on every unpaused tick the lightbar is the colour of the first rule
that applies, in the order fine alert, park brake, retarder pulse, hazard and
blinker, and (0,0,0) when none applies. In particular, with no fine alert
armed, an engaged parking brake gives exactly (255,0,0) whatever the retarder
level and the blinkers are, and with neither fine alert nor park brake an
active retarder rule leaves red and green at 0 whatever the blinkers are. -/
theorem lightbar_priority_cascade (E : Externals) (k : RpmBands) (config : AppConfig)
    (tel : Telemetry) (clk : Clock) (s : LoopState) (hp : tel.paused = false) :
    (loopBody E k config tel clk s).out.lightbar
        = firstMatch (lightbarRules E config tel clk s)
    ∧ (¬ fineArmed config tel s → parkBrakeRule config tel →
        (loopBody E k config tel clk s).out.lightbar = { r := 255, g := 0, b := 0 })
    ∧ (¬ fineArmed config tel s → ¬ parkBrakeRule config tel → retarderRule config tel →
        (loopBody E k config tel clk s).out.lightbar.r = 0
        ∧ (loopBody E k config tel clk s).out.lightbar.g = 0) := by
  have h := unpaused_lightbar E k config tel clk s hp
  refine ⟨h, ?_, ?_⟩
  · intro hfine hpark
    rw [h]
    simp [lightbarRules, firstMatch, hfine, hpark]
  · intro hfine hpark hret
    rw [h]
    simp [lightbarRules, firstMatch, hfine, hpark, hret]

/-- Witness of C15: parking brake engaged with the retarder at level 2, the
engine on and both blinkers on: the lightbar is the park-brake red. -/
theorem lightbar_priority_cascade_witness :
    parkedHazards.paused = false
    ∧ (loopBody sampleExternals sampleBands defaultConfig parkedHazards (clockAt 0)
        initialState).out.lightbar = { r := 255, g := 0, b := 0 } :=
  ⟨rfl, (lightbar_priority_cascade sampleExternals sampleBands defaultConfig parkedHazards
      (clockAt 0) initialState rfl).2.1
      (by simp [fineArmed, parkedHazards, quietTelemetry, initialState, defaultConfig])
      (by simp [parkBrakeRule, parkedHazards, defaultConfig])⟩

/-- Counterexample to C20 as stated: with the engine off, both blinkers on, the
blinker option enabled and no fine alert, park brake or retarder, the lightbar
is (0,0,0), not red+green. -/
theorem hazards_need_engine :
    ({ quietTelemetry with blinkerLeftOn := true, blinkerRightOn := true }
        : Telemetry).engineEnabled = false
    ∧ defaultConfig.blinkers_lightbar = true
    ∧ (loopBody sampleExternals sampleBands defaultConfig
        { quietTelemetry with blinkerLeftOn := true, blinkerRightOn := true } (clockAt 0)
        initialState).out.lightbar = { r := 0, g := 0, b := 0 } := by
  refine ⟨rfl, rfl, ?_⟩
  rw [unpaused_lightbar sampleExternals sampleBands defaultConfig
    { quietTelemetry with blinkerLeftOn := true, blinkerRightOn := true } (clockAt 0)
    initialState rfl]
  simp [lightbarRules, firstMatch, fineArmed, parkBrakeRule, retarderRule, hazardRule,
    blinkerRule, quietTelemetry, initialState, defaultConfig]

/-- C20 (amended): on an unpaused tick with no fine alert armed, an engaged
parking brake with its option enabled gives steady red (255,0,0); with no park
brake and no retarder rule, the blinker option enabled and the engine on, both
blinkers give red+green (255,255,0) and exactly one blinker gives green
(0,255,0); with the engine off and no park brake the lightbar stays (0,0,0)
whatever the blinkers are. -/
theorem blinker_park_colours (E : Externals) (k : RpmBands) (config : AppConfig)
    (tel : Telemetry) (clk : Clock) (s : LoopState)
    (hp : tel.paused = false) (hfine : ¬ fineArmed config tel s) :
    (parkBrakeRule config tel →
        (loopBody E k config tel clk s).out.lightbar = { r := 255, g := 0, b := 0 })
    ∧ (¬ parkBrakeRule config tel → ¬ retarderRule config tel →
        config.blinkers_lightbar = true → tel.engineEnabled = true →
        tel.blinkerLeftOn = true → tel.blinkerRightOn = true →
        (loopBody E k config tel clk s).out.lightbar = { r := 255, g := 255, b := 0 })
    ∧ (¬ parkBrakeRule config tel → ¬ retarderRule config tel →
        config.blinkers_lightbar = true → tel.engineEnabled = true →
        (tel.blinkerLeftOn = true ∧ tel.blinkerRightOn = false
          ∨ tel.blinkerLeftOn = false ∧ tel.blinkerRightOn = true) →
        (loopBody E k config tel clk s).out.lightbar = { r := 0, g := 255, b := 0 })
    ∧ (¬ parkBrakeRule config tel → tel.engineEnabled = false →
        (loopBody E k config tel clk s).out.lightbar = { r := 0, g := 0, b := 0 }) := by
  have h := unpaused_lightbar E k config tel clk s hp
  rw [h]
  refine ⟨?_, ?_, ?_, ?_⟩
  · intro hpark
    simp [lightbarRules, firstMatch, hfine, hpark]
  · intro hpark hret hb he hl hr
    simp [lightbarRules, firstMatch, hfine, hpark, hret, hazardRule, hb, he, hl, hr]
  · intro hpark hret hb he hone
    rcases hone with ⟨hl, hr⟩ | ⟨hl, hr⟩ <;>
      simp [lightbarRules, firstMatch, hfine, hpark, hret, hazardRule, blinkerRule, hb, he,
        hl, hr]
  · intro hpark he
    simp [lightbarRules, firstMatch, hfine, hpark, retarderRule, hazardRule, blinkerRule, he]

/-- Witness of C20 (amended): engine on, left blinker only: green. -/
theorem blinker_park_colours_witness :
    ({ quietTelemetry with engineEnabled := true, blinkerLeftOn := true }
        : Telemetry).engineEnabled = true
    ∧ (loopBody sampleExternals sampleBands defaultConfig
        { quietTelemetry with engineEnabled := true, blinkerLeftOn := true } (clockAt 0)
        initialState).out.lightbar = { r := 0, g := 255, b := 0 } :=
  ⟨rfl, (blinker_park_colours sampleExternals sampleBands defaultConfig
      { quietTelemetry with engineEnabled := true, blinkerLeftOn := true } (clockAt 0)
      initialState rfl
      (by simp [fineArmed, quietTelemetry, initialState, defaultConfig])).2.2.1
      (by simp [parkBrakeRule, quietTelemetry])
      (by simp [retarderRule, quietTelemetry])
      rfl rfl (Or.inl ⟨rfl, rfl⟩)⟩

/-! ## Fuel gauge on the player LEDs -/

/-- C16: with the fuel player LEDs enabled, on every unpaused tick the bitmask
is the table entry of the zone count n of the fuel percentage p, the `float`
the tick computes: all five LED constants for p > 80, the four outer ones for
p > 60, left, middle and right for p > 40, the two inner ones for p > 20, the
middle one for p > 0.1 (the `float` constant) and no LED otherwise. When the
five constants are the bits 1, 2, 4, 8 and 16, exactly n of the five zones are
lit. The zone count n is the step function with thresholds 80, 60, 40, 20 and
0.1: at least 5 exactly above 80, at least 4 exactly above 60, at least 3
exactly above 40, at least 2 exactly above 20, at least 1 exactly above 0.1.
It never exceeds 5 and does not decrease when the percentage grows. -/
theorem fuel_led_zones (E : Externals) (k : RpmBands) (config : AppConfig)
    (tel : Telemetry) (clk : Clock) (s : LoopState)
    (hp : tel.paused = false) (hen : config.fuel_player_leds = true) :
    (loopBody E k config tel clk s).out.playerLeds.bitmask
        = led_bitmasks E (num_leds_to_light (fuel_percentage tel))
    ∧ (loopBody E k config tel clk s).out.playerLeds.bitmask
        = (if fuel_percentage tel > 80 then
            E.PLAYER_LED_LEFT ||| E.PLAYER_LED_MIDDLE_LEFT ||| E.PLAYER_LED_MIDDLE
              ||| E.PLAYER_LED_MIDDLE_RIGHT ||| E.PLAYER_LED_RIGHT
          else if fuel_percentage tel > 60 then
            E.PLAYER_LED_LEFT ||| E.PLAYER_LED_MIDDLE_LEFT ||| E.PLAYER_LED_MIDDLE_RIGHT
              ||| E.PLAYER_LED_RIGHT
          else if fuel_percentage tel > 40 then
            E.PLAYER_LED_LEFT ||| E.PLAYER_LED_MIDDLE ||| E.PLAYER_LED_RIGHT
          else if fuel_percentage tel > 20 then
            E.PLAYER_LED_MIDDLE_LEFT ||| E.PLAYER_LED_MIDDLE_RIGHT
          else if fuel_percentage tel > f32 (1 / 10) then E.PLAYER_LED_MIDDLE
          else 0)
    ∧ (E.PLAYER_LED_LEFT = 1 ∧ E.PLAYER_LED_MIDDLE_LEFT = 2 ∧ E.PLAYER_LED_MIDDLE = 4
        ∧ E.PLAYER_LED_MIDDLE_RIGHT = 8 ∧ E.PLAYER_LED_RIGHT = 16 →
        litZones E (loopBody E k config tel clk s).out.playerLeds.bitmask
          = num_leds_to_light (fuel_percentage tel))
    ∧ (∀ p : ℚ, (5 ≤ num_leds_to_light p ↔ 80 < p) ∧ (4 ≤ num_leds_to_light p ↔ 60 < p)
        ∧ (3 ≤ num_leds_to_light p ↔ 40 < p) ∧ (2 ≤ num_leds_to_light p ↔ 20 < p)
        ∧ (1 ≤ num_leds_to_light p ↔ f32 (1 / 10) < p) ∧ num_leds_to_light p ≤ 5)
    ∧ (∀ p q : ℚ, p ≤ q → num_leds_to_light p ≤ num_leds_to_light q) := by
  have hb : (loopBody E k config tel clk s).out.playerLeds.bitmask
      = led_bitmasks E (num_leds_to_light (fuel_percentage tel)) := by
    rw [unpaused_playerLeds E k config tel clk s hp, playerLedsValue, if_pos hen]
  refine ⟨hb, ?_, ?_, num_leds_thresholds, num_leds_monotone⟩
  · rw [hb]
    exact led_bitmasks_table E (fuel_percentage tel)
  · intro hE
    rw [hb]
    exact litZones_table E _ hE (num_leds_thresholds _).2.2.2.2.2

/-- Witness of C16: 60 litres in a tank of 100 give the percentage
60.000003814697265625, which lights four zones: the bitmask is 27, every LED
but the middle one. -/
theorem fuel_led_zones_witness :
    sixtyOfHundred.paused = false
    ∧ fuel_percentage sixtyOfHundred = 15728641 / 262144
    ∧ (loopBody sampleExternals sampleBands defaultConfig sixtyOfHundred (clockAt 0)
        initialState).out.playerLeds.bitmask = 27
    ∧ litZones sampleExternals (loopBody sampleExternals sampleBands defaultConfig sixtyOfHundred
        (clockAt 0) initialState).out.playerLeds.bitmask = 4 := by
  have w := fuel_led_zones sampleExternals sampleBands defaultConfig sixtyOfHundred (clockAt 0)
    initialState rfl rfl
  have hn : num_leds_to_light (fuel_percentage sixtyOfHundred) = 4 := by
    rw [fuel_percentage_samples.2]
    norm_num [num_leds_to_light]
  refine ⟨rfl, fuel_percentage_samples.2, ?_, ?_⟩
  · rw [w.1, hn]
    rfl
  · rw [w.2.2.1 ⟨rfl, rfl, rfl, rfl, rfl⟩, hn]

/-- Counterexample to C17 as stated: at fuel percentage 5 (one zone lit, lower
half of the zone) the brightness on the tick with counter 1 is HIGH and on the
tick with counter 31, 30 ticks later, it is LOW: the brightness is not periodic
with period 30. -/
theorem fuel_blink_period_not_thirty :
    fuel_percentage lowFuel = 5 ∧ num_leds_to_light (fuel_percentage lowFuel) = 1
    ∧ (loopBody sampleExternals sampleBands defaultConfig lowFuel (clockAt 0)
        { initialState with pulse_timer := 0 }).out.playerLeds.brightness = LedBrightness.HIGH
    ∧ (loopBody sampleExternals sampleBands defaultConfig lowFuel (clockAt 0)
        { initialState with pulse_timer := 30 }).out.playerLeds.brightness = LedBrightness.LOW := by
  have hfp : fuel_percentage lowFuel = 5 := fuel_percentage_samples.1
  have hn : num_leds_to_light (fuel_percentage lowFuel) = 1 := by
    rw [hfp]; norm_num [num_leds_to_light, f32_decimals.1]
  have hb : fuelBlinks lowFuel := by
    unfold fuelBlinks
    rw [hn, hfp]
    norm_num
  refine ⟨hfp, hn, ?_, ?_⟩
  · rw [unpaused_brightness sampleExternals sampleBands defaultConfig lowFuel (clockAt 0) _ rfl
      rfl, fuelBrightness, if_pos hb]
    rfl
  · rw [unpaused_brightness sampleExternals sampleBands defaultConfig lowFuel (clockAt 0) _ rfl
      rfl, fuelBrightness, if_pos hb]
    rfl

/-- C17 (amended): with the fuel player LEDs enabled, on every unpaused tick
the brightness is that of the fuel gauge at the incremented counter, for the
fuel percentage p the tick computes as a `float`. With at least one zone lit
and p in the lower half of its 20-point zone (p < 20 n - 10) it blinks on a
60-tick 50% duty cycle, 30 ticks HIGH then 30 ticks LOW: the brightness 60
ticks later is the same, 30 ticks later it is the other one, and it is HIGH on
30 of any 60 consecutive ticks. Otherwise, and with no zone lit, it is steady
HIGH. -/
theorem fuel_blink_cycle (E : Externals) (k : RpmBands) (config : AppConfig)
    (tel : Telemetry) (clk : Clock) (s : LoopState)
    (hp : tel.paused = false) (hen : config.fuel_player_leds = true) :
    (loopBody E k config tel clk s).out.playerLeds.brightness
        = fuelBrightness tel (s.pulse_timer + 1)
    ∧ (fuelBlinks tel ↔ num_leds_to_light (fuel_percentage tel) ≥ 1
        ∧ fuel_percentage tel < 20 * (num_leds_to_light (fuel_percentage tel) : ℚ) - 10)
    ∧ (fuelBlinks tel →
        (∀ t : Nat, fuelBrightness tel t
            = if t % 60 < 30 then LedBrightness.HIGH else LedBrightness.LOW)
        ∧ (∀ t : Nat, fuelBrightness tel (t + 60) = fuelBrightness tel t)
        ∧ (∀ t : Nat, fuelBrightness tel (t + 30) ≠ fuelBrightness tel t)
        ∧ (∀ t : Nat, ((List.range 60).filter
            (fun i => decide (fuelBrightness tel (t + i) = LedBrightness.HIGH))).length = 30))
    ∧ (¬ fuelBlinks tel → ∀ t : Nat, fuelBrightness tel t = LedBrightness.HIGH) := by
  refine ⟨?_, ?_, ?_, ?_⟩
  · exact unpaused_brightness E k config tel clk s hp hen
  · unfold fuelBlinks
    rw [mul_comm (20 : ℚ)]
    exact Iff.rfl
  · intro hb
    have hf : ∀ t : Nat, fuelBrightness tel t
        = if t % 60 < 30 then LedBrightness.HIGH else LedBrightness.LOW := by
      intro t
      rw [fuelBrightness, if_pos hb]
    refine ⟨hf, ?_, ?_, ?_⟩
    · intro t
      rw [hf, hf, Nat.add_mod_right]
    · intro t
      rw [hf, hf]
      have h30 : (t + 30) % 60 < 30 ↔ ¬ t % 60 < 30 := by omega
      by_cases h : t % 60 < 30
      · rw [if_pos h, if_neg (by rw [h30]; exact not_not.mpr h)]
        decide
      · rw [if_neg h, if_pos (h30.mpr h)]
        decide
    · intro t
      have hd : ∀ i : Nat, decide (fuelBrightness tel (t + i) = LedBrightness.HIGH)
          = decide ((t + i) % 60 < 30) := by
        intro i
        rw [hf]
        by_cases h : (t + i) % 60 < 30 <;> simp [h]
      simp only [hd]
      exact half_of_sixty t
  · intro hb t
    rw [fuelBrightness, if_neg hb]

/-- Witness of C17 (amended): 60 litres in a tank of 100 give the percentage
60.000003814697265625, four zones and a midpoint of 70: the gauge blinks, and
the brightness returns after 60 ticks. -/
theorem fuel_blink_cycle_witness :
    sixtyOfHundred.paused = false
    ∧ fuelBlinks sixtyOfHundred
    ∧ fuelBrightness sixtyOfHundred (1 + 60) = fuelBrightness sixtyOfHundred 1
    ∧ fuelBrightness sixtyOfHundred (1 + 30) ≠ fuelBrightness sixtyOfHundred 1 :=
  have hb : fuelBlinks sixtyOfHundred := by
    unfold fuelBlinks
    rw [fuel_percentage_samples.2]
    norm_num [num_leds_to_light]
  have w := fuel_blink_cycle sampleExternals sampleBands defaultConfig sixtyOfHundred (clockAt 0)
      initialState rfl rfl
  ⟨rfl, hb, ((w.2.2.1 hb).2.1 1), ((w.2.2.1 hb).2.2.1 1)⟩

/-! ## Hard braking and body roll -/

/-- C18: on an unpaused tick with the engine on on which the hard-braking
condition holds (enabled, brake pedal above 0.8, speed above 10 km/h, computed
acceleration below -10) at multiplier m in [0,1], hard braking is reported
active and body roll is not, on both halves of the 6-tick cycle. On ticks with
counter mod 6 below 3 the engine-on block max-combines trunc(255 m), the
truncated `float` product, into both motors; on the other ticks it leaves both
motors as they were, so body roll adds nothing on either half. The condition
is the one the tick evaluates in `float`: the pedal above the constant 0.8f,
the speed times 3.6f rounded above 10, and the rounded speed difference over
0.0166f rounded below -10. -/
theorem hard_braking_excludes_body_roll (E : Externals) (k : RpmBands) (config : AppConfig)
    (tel : Telemetry) (clk : Clock) (s : LoopState) (m : ℚ)
    (hp : tel.paused = false) (hengine : tel.engineEnabled = true)
    (hcond : hardBrakingCond config tel s.previous_speed)
    (hm : config.hard_braking_multiplier = m) (hm0 : 0 ≤ m) (hm1 : m ≤ 1) :
    (hardBrakingCond config tel s.previous_speed ↔
        config.hard_braking_rumble = true ∧ tel.userBrake > f32 (8 / 10)
        ∧ f32 (tel.speed * f32 (36 / 10)) > 10
        ∧ f32 (f32 (tel.speed - s.previous_speed) / f32 (166 / 10000)) < -10)
    ∧ (loopBody E k config tel clk s).display.hard_braking_active = true
    ∧ (loopBody E k config tel clk s).display.body_roll_active = false
    ∧ bodyRollLeftRequest E config tel s = []
    ∧ bodyRollRightRequest E config tel s = []
    ∧ ((s.pulse_timer + 1) % 6 < 3 →
        (loopBody E k config tel clk s).out.leftRumble
          = max (beforeEngineOn E config tel clk s).out.leftRumble ⌊f32 (255 * m)⌋₊
        ∧ (loopBody E k config tel clk s).out.rightRumble
          = max (beforeEngineOn E config tel clk s).out.rightRumble ⌊f32 (255 * m)⌋₊)
    ∧ (¬ (s.pulse_timer + 1) % 6 < 3 →
        (loopBody E k config tel clk s).out.leftRumble
          = (beforeEngineOn E config tel clk s).out.leftRumble
        ∧ (loopBody E k config tel clk s).out.rightRumble
          = (beforeEngineOn E config tel clk s).out.rightRumble) := by
  have hw := beforeEngineOn_frame E config tel clk s
  have hcond' : hardBrakingCond config tel (beforeEngineOn E config tel clk s).st.previous_speed := by
    rw [hw.2.1]; exact hcond
  have hb := engineOnBlock_hard_braking E k config tel (beforeEngineOn E config tel clk s)
    hengine hcond'
  have hout : (loopBody E k config tel clk s).out
      = (engineOnBlock E k config tel (beforeEngineOn E config tel clk s)).out := by
    simp [loopBody, hp, unpausedBody_eq]
  have hdisp : (loopBody E k config tel clk s).display
      = (engineOnBlock E k config tel (beforeEngineOn E config tel clk s)).display := by
    simp [loopBody, hp, unpausedBody_eq]
  have h255 : castU8 (f32 (255 * m)) = ⌊f32 (255 * m)⌋₊ :=
    castU8_scaled 255 m f32_255 (by norm_num) (by norm_num) hm0 hm1
  rw [hm, h255, hw.1] at hb
  refine ⟨Iff.rfl, ?_, ?_, ?_, ?_, ?_, ?_⟩
  · rw [hdisp, hb.1]
  · rw [hdisp, hb.2.1, hw.2.2.2.1]
  · unfold bodyRollLeftRequest bodyRollActive
    rw [if_neg (fun h => h.1.2.1 hcond)]
  · unfold bodyRollRightRequest bodyRollActive
    rw [if_neg (fun h => h.1.2.1 hcond)]
  · intro h
    rw [hout]
    exact hb.2.2.1 h
  · intro h
    rw [hout]
    exact hb.2.2.2 h

/-- Witness of C18: braking at 0.875 pedal from 21 m/s to 20 m/s (the speed
reads 72.0 km/h, the acceleration -60.24) with the body rolled, on the tick with
counter 1: hard braking is active, body roll is not, and the left motor is at
255 or more. -/
theorem hard_braking_excludes_body_roll_witness :
    hardBrakingCond defaultConfig hardStop
        ({ initialState with previous_speed := 21 } : LoopState).previous_speed
    ∧ (loopBody sampleExternals sampleBands defaultConfig hardStop (clockAt 0)
        { initialState with previous_speed := 21 }).display.body_roll_active = false
    ∧ (loopBody sampleExternals sampleBands defaultConfig hardStop (clockAt 0)
        { initialState with previous_speed := 21 }).out.leftRumble ≥ 255 := by
  have hs : f32 (37748735 / 524288) = 72 := by
    rw [f32_eval_frac (37748735 / 524288) 9437184 17 (by norm_num) (by norm_num) (by norm_num)
      (by norm_num) (by norm_num)]
    norm_num
  have ha : f32 (536870912 / 8912057) = 15791807 / 262144 := by
    rw [f32_eval_frac (536870912 / 8912057) 15791807 18 (by norm_num) (by norm_num) (by norm_num)
      (by norm_num) (by norm_num)]
    norm_num
  have hn1 : f32 (-1) = -1 := by rw [f32_neg, f32_one]
  have hc : hardBrakingCond defaultConfig hardStop
      ({ initialState with previous_speed := 21 } : LoopState).previous_speed := by
    refine ⟨rfl, ?_, ?_, ?_⟩
    · rw [f32_decimals.2.2.2.2.1]
      norm_num [hardStop, quietTelemetry]
    · unfold current_speed_kmph KMPH_CONVERSION
      rw [f32_decimals.2.2.2.2.2.1]
      norm_num [hardStop, quietTelemetry, hs]
    · unfold calculated_acceleration time_delta
      rw [f32_decimals.2.2.2.2.2.2.1]
      norm_num [hardStop, quietTelemetry, initialState, hn1]
      rw [f32_neg, ha]
      norm_num
  have w := hard_braking_excludes_body_roll sampleExternals sampleBands defaultConfig hardStop
      (clockAt 0) { initialState with previous_speed := 21 } 1 rfl rfl hc rfl (by norm_num)
      (by norm_num)
  refine ⟨hc, w.2.2.1, ?_⟩
  rw [(w.2.2.2.2.2.1 (by decide)).1]
  apply le_max_of_le_right
  rw [mul_one, f32_255]
  exact (Nat.floor_ofNat 255).ge
/-! ## Multiplier zero against disabled -/

/-- Counterexample to C13 as stated: with every multiplier at 1, the throttle
frequency of a truck with a maximum of 564 RPM at 564 RPM is
255.0000152587890625 before its conversion, above 255: the rounded quotient of
the redline interpolation at its upper end exceeds 255 by one unit in the last
place. At the end of the soft zone of a truck with a maximum of 759 RPM the
frequency before its conversion is -0.0000152587890625, below 0. The
conversions truncate them to 255 and to 0. -/
theorem throttle_frequency_outside_range :
    (0 ≤ defaultConfig.throttle_trigger_vibration_multiplier
      ∧ defaultConfig.throttle_trigger_vibration_multiplier ≤ 1)
    ∧ shortRange.engineRpmMax = 564
    ∧ vibration_frequency (rpmBands 564) defaultConfig shortRange = 16711681 / 65536
    ∧ 255 < vibration_frequency (rpmBands 564) defaultConfig shortRange
    ∧ (loopBody sampleExternals (rpmBands 564) defaultConfig shortRange (clockAt 0)
        initialState).out.rightTriggerEffect.frequency = 255
    ∧ softZoneEnd.engineRpmMax = 759
    ∧ vibration_frequency (rpmBands 759) defaultConfig softZoneEnd = -(1 / 65536)
    ∧ vibration_frequency (rpmBands 759) defaultConfig softZoneEnd < 0
    ∧ (loopBody sampleExternals (rpmBands 759) defaultConfig softZoneEnd (clockAt 0)
        initialState).out.rightTriggerEffect.frequency = 0 := by
  have h1 := throttle_samples.2.2
  have h2 := soft_zone_end_value.2
  refine ⟨⟨by norm_num [defaultConfig], by norm_num [defaultConfig]⟩, rfl, h1, ?_, ?_, rfl, h2,
    ?_, ?_⟩
  · rw [h1]; norm_num
  · rw [(unpaused_triggers sampleExternals (rpmBands 564) defaultConfig shortRange (clockAt 0)
      initialState rfl).2]
    unfold rightTriggerValue
    rw [if_pos ⟨rfl, rfl⟩, h1]
    show castU8 (16711681 / 65536) = 255
    rw [castU8_of_range _ (by norm_num) (by norm_num)]
    exact (Nat.floor_eq_iff (by norm_num)).mpr ⟨by norm_num, by norm_num⟩
  · rw [h2]; norm_num
  · rw [(unpaused_triggers sampleExternals (rpmBands 759) defaultConfig softZoneEnd (clockAt 0)
      initialState rfl).2]
    unfold rightTriggerValue
    rw [if_pos ⟨rfl, rfl⟩, h2]
    show castU8 (-(1 / 65536)) = 0
    rw [(castU8_no_wrap _ (by norm_num) (by norm_num)).1]
    exact Nat.floor_of_nonpos (by norm_num)

/-- C13 (amended): for every config whose multipliers lie in [0,1] and every
snapshot, with a sine that stays within [-1, 1] and is not negative from 0 up
to 3.1415925025939941, the largest `float` below pi, every value that the loop
converts to an 8-bit channel lies strictly between -1 and 256 before its
conversion, so that the conversion truncates it to one of 0..255 and does not
wrap: the retarder pulse, the refuel strength, the two gear-jolt strengths,
the cranking strength, the startup lurch (for an elapsed time the tick reads
from 0 up to its duration), the hard-braking strength, the body-roll rumble,
the brake-trigger force and the throttle frequency (for any bands, also with
`engineRpmMax` at or below idle). On an unpaused tick the outputs of the loop
body are made of the conversions of these values: the rumble of each motor is
the maximum of the requests, the lightbar is the first matching rule, and with
the engine on the force of an enabled brake trigger and the frequency of an
enabled throttle trigger are the truncations of their values. -/
theorem converted_values_in_range (E : Externals) (config : AppConfig) (tel : Telemetry)
    (hsin : ∀ x, -1 ≤ E.sin x ∧ E.sin x ≤ 1)
    (hsin0 : ∀ x, 0 ≤ x → x ≤ 6588397 / 2097152 → 0 ≤ E.sin x)
    (hrefuel : 0 ≤ config.refuel_rumble_multiplier ∧ config.refuel_rumble_multiplier ≤ 1)
    (hjolt : 0 ≤ config.gear_jolt_multiplier ∧ config.gear_jolt_multiplier ≤ 1)
    (hstart : 0 ≤ config.engine_start_multiplier ∧ config.engine_start_multiplier ≤ 1)
    (hbrake : 0 ≤ config.hard_braking_multiplier ∧ config.hard_braking_multiplier ≤ 1)
    (hroll : 0 ≤ config.body_roll_multiplier ∧ config.body_roll_multiplier ≤ 1)
    (hforce : 0 ≤ config.brake_trigger_resistance_multiplier
      ∧ config.brake_trigger_resistance_multiplier ≤ 1)
    (hthrottle : 0 ≤ config.throttle_trigger_vibration_multiplier
      ∧ config.throttle_trigger_vibration_multiplier ≤ 1) :
    (∀ t : Nat, fitsU8 (retarder_blue_value E tel t))
    ∧ fitsU8 (rumble_strength config tel)
    ∧ fitsU8 (f32 (255 * config.gear_jolt_multiplier))
    ∧ fitsU8 (f32 (100 * config.gear_jolt_multiplier))
    ∧ fitsU8 (f32 (200 * config.engine_start_multiplier))
    ∧ (∀ (clk : Clock) (s : LoopState), 0 ≤ startupElapsed config tel clk s →
        startupElapsed config tel clk s < STARTUP_EFFECT_DURATION_S →
        fitsU8 (startup_lurch_value E config (startupElapsed config tel clk s)))
    ∧ fitsU8 (f32 (255 * config.hard_braking_multiplier))
    ∧ (∀ t : Nat, fitsU8 (body_roll_value E config tel t))
    ∧ fitsU8 (brake_force_value config tel)
    ∧ (∀ k : RpmBands, fitsU8 (vibration_frequency k config tel))
    ∧ (∀ v : ℚ, fitsU8 v → castU8 v = ⌊v⌋₊ ∧ ⌊v⌋₊ ≤ 255)
    ∧ (∀ (k : RpmBands) (clk : Clock) (s : LoopState), tel.paused = false →
        (loopBody E k config tel clk s).out.leftRumble
            = maxRequest (leftRequests E config tel clk s)
        ∧ (loopBody E k config tel clk s).out.rightRumble
            = maxRequest (rightRequests E config tel clk s)
        ∧ (loopBody E k config tel clk s).out.lightbar
            = firstMatch (lightbarRules E config tel clk s)
        ∧ (tel.engineEnabled = true → config.brake_trigger_resistance = true →
            (loopBody E k config tel clk s).out.leftTriggerEffect.force
              = ⌊brake_force_value config tel⌋₊)
        ∧ (tel.engineEnabled = true → config.throttle_trigger_vibration = true →
            (loopBody E k config tel clk s).out.rightTriggerEffect.frequency
              = ⌊vibration_frequency k config tel⌋₊)) := by
  have hscaled : ∀ c m : ℚ, f32 c = c → 0 ≤ c → c ≤ 255 → 0 ≤ m → m ≤ 1 →
      fitsU8 (f32 (c * m)) := by
    intro c m hc hc0 hc1 hm0 hm1
    have h := f32_scaled_range c m hc hc0 hm0 hm1
    exact ⟨by linarith [h.1], by linarith [h.2]⟩
  have hforce' : fitsU8 (brake_force_value config tel) := by
    have h := brake_force_range config tel hforce.1 hforce.2
    exact fitsU8_of_range _ (by linarith [h.1]) h.2
  have hthrottle' : ∀ k : RpmBands, fitsU8 (vibration_frequency k config tel) := by
    intro k
    have h := vibration_frequency_range k config tel hthrottle.1 hthrottle.2
    exact fitsU8_of_range _ h.1 h.2
  refine ⟨?_, ?_, ?_, ?_, ?_, ?_, ?_, ?_, hforce', hthrottle', fitsU8_castU8, ?_⟩
  · intro t
    have h := retarder_blue_range E hsin tel t
    exact ⟨by linarith [h.1], by linarith [h.2]⟩
  · have h := rumble_strength_range config tel hrefuel.1 hrefuel.2
    exact fitsU8_of_range _ h.1 h.2
  · exact hscaled 255 _ f32_255 (by norm_num) (by norm_num) hjolt.1 hjolt.2
  · exact hscaled 100 _ f32_hundred (by norm_num) (by norm_num) hjolt.1 hjolt.2
  · exact hscaled 200 _ f32_two_hundred (by norm_num) (by norm_num) hstart.1 hstart.2
  · intro clk s h0 h1
    have h := startup_lurch_range E config (startupElapsed config tel clk s) hsin hsin0
      hstart.1 hstart.2 (by unfold startupElapsed; exact (duration_seconds_facts _).1) h0 h1
    exact ⟨by linarith [h.1], by linarith [h.2]⟩
  · exact hscaled 255 _ f32_255 (by norm_num) (by norm_num) hbrake.1 hbrake.2
  · intro t
    have h := body_roll_range E config tel t hsin hroll.1 hroll.2
    exact fitsU8_of_range _ (by linarith [h.1]) h.2
  · intro k clk s hp
    have hr := unpaused_rumble E k config tel clk s hp
    have ht := unpaused_triggers E k config tel clk s hp
    refine ⟨hr.1, hr.2, unpaused_lightbar E k config tel clk s hp, ?_, ?_⟩
    · intro he hen
      rw [ht.1]
      unfold leftTriggerValue
      rw [if_pos ⟨he, hen⟩]
      exact (fitsU8_castU8 _ hforce').1
    · intro he hen
      rw [ht.2]
      unfold rightTriggerValue
      rw [if_pos ⟨he, hen⟩]
      exact (fitsU8_castU8 _ (hthrottle' k)).1

/-- Witness of C13 (amended): the default configuration with the arch in the
place of the sine. The throttle frequency of 255.0000152587890625 fits its
channel and 255 is sent; the retarder pulse of every tick fits. -/
theorem converted_values_in_range_witness :
    (∀ x, -1 ≤ archExternals.sin x ∧ archExternals.sin x ≤ 1)
    ∧ (∀ x, 0 ≤ x → x ≤ 6588397 / 2097152 → 0 ≤ archExternals.sin x)
    ∧ (0 ≤ defaultConfig.throttle_trigger_vibration_multiplier
        ∧ defaultConfig.throttle_trigger_vibration_multiplier ≤ 1)
    ∧ fitsU8 (vibration_frequency (rpmBands 564) defaultConfig shortRange)
    ∧ (loopBody archExternals (rpmBands 564) defaultConfig shortRange (clockAt 0)
        initialState).out.rightTriggerEffect.frequency
      = ⌊vibration_frequency (rpmBands 564) defaultConfig shortRange⌋₊
    ∧ (∀ t : Nat, fitsU8 (retarder_blue_value archExternals shortRange t)) := by
  have hs : ∀ x, -1 ≤ archExternals.sin x ∧ archExternals.sin x ≤ 1 := fun x =>
    ⟨by linarith [(arch_bounds x).1], (arch_bounds x).2⟩
  have hs0 : ∀ x, 0 ≤ x → x ≤ 6588397 / 2097152 → 0 ≤ archExternals.sin x :=
    fun x _ _ => (arch_bounds x).1
  have hm : ∀ m : ℚ, m = 1 → 0 ≤ m ∧ m ≤ 1 := fun m h => by rw [h]; norm_num
  have w := converted_values_in_range archExternals defaultConfig shortRange hs hs0
    (hm _ rfl) (hm _ rfl) (hm _ rfl) (hm _ rfl) (hm _ rfl) (hm _ rfl) (hm _ rfl)
  exact ⟨hs, hs0, hm _ rfl, w.2.2.2.2.2.2.2.2.2.1 (rpmBands 564),
    (w.2.2.2.2.2.2.2.2.2.2.2 (rpmBands 564) (clockAt 0) initialState rfl).2.2.2.2 rfl rfl, w.1⟩
/-! ## Warning indicator -/

/-- C21: on every unpaused tick with the warning indicator enabled the
microphone LED is PULSE when a critical warning is set (oil pressure, water
temperature, air pressure, or chassis wear above 0.25), whatever the minor
warnings are; else ON when a minor warning is set (adblue, battery voltage);
else OFF, the value of the zeroed record, which the rule leaves as it finds it
on any record. Chassis wear of exactly 0.25 alone does not give PULSE. -/
theorem warning_indicator_precedence (E : Externals) (k : RpmBands) (config : AppConfig)
    (tel : Telemetry) (clk : Clock) (s : LoopState) (hp : tel.paused = false)
    (hen : config.warnings_mic_led = true) :
    ((tel.oilPressureWarning = true ∨ tel.waterTemperatureWarning = true
        ∨ tel.airPressureWarning = true ∨ tel.wearChassis > 1 / 4) →
      (loopBody E k config tel clk s).out.microphoneLed = MicLed.PULSE)
    ∧ (¬ (tel.oilPressureWarning = true ∨ tel.waterTemperatureWarning = true
          ∨ tel.airPressureWarning = true ∨ tel.wearChassis > 1 / 4) →
        (tel.adblueWarning = true ∨ tel.batteryVoltageWarning = true) →
      (loopBody E k config tel clk s).out.microphoneLed = MicLed.ON)
    ∧ (¬ (tel.oilPressureWarning = true ∨ tel.waterTemperatureWarning = true
          ∨ tel.airPressureWarning = true ∨ tel.wearChassis > 1 / 4) →
        ¬ (tel.adblueWarning = true ∨ tel.batteryVoltageWarning = true) →
      (loopBody E k config tel clk s).out.microphoneLed = MicLed.OFF
      ∧ ∀ w : Work, (micLedStage config tel w).out.microphoneLed = w.out.microphoneLed)
    ∧ (tel.oilPressureWarning = false → tel.waterTemperatureWarning = false →
        tel.airPressureWarning = false → tel.wearChassis = 1 / 4 →
      (loopBody E k config tel clk s).out.microphoneLed ≠ MicLed.PULSE) := by
  have h := unpaused_micLed E k config tel clk s hp
  have hcrit : is_critical_warning tel = true ↔
      (tel.oilPressureWarning = true ∨ tel.waterTemperatureWarning = true
        ∨ tel.airPressureWarning = true ∨ tel.wearChassis > 1 / 4) := by
    simp only [is_critical_warning, Bool.or_eq_true, decide_eq_true_eq, or_assoc]
    norm_num
  have hminor : is_minor_warning tel = true ↔
      (tel.adblueWarning = true ∨ tel.batteryVoltageWarning = true) := by
    simp only [is_minor_warning, Bool.or_eq_true]
  rw [h]
  simp only [micLedValue, micLedStage, if_pos hen]
  refine ⟨?_, ?_, ?_, ?_⟩
  · intro hc
    rw [if_pos (hcrit.mpr hc)]
  · intro hc hm
    rw [if_neg (fun x => hc (hcrit.mp x)), if_pos (hminor.mpr hm)]
  · intro hc hm
    refine ⟨?_, fun w => ?_⟩
    · rw [if_neg (fun x => hc (hcrit.mp x)), if_neg (fun x => hm (hminor.mp x))]
    · rw [if_neg (fun x => hc (hcrit.mp x)), if_neg (fun x => hm (hminor.mp x))]
  · intro h1 h2 h3 h4
    have hc : ¬ is_critical_warning tel = true := by
      rw [hcrit, h1, h2, h3, h4]
      simp
    rw [if_neg hc]
    split_ifs <;> simp

/-- Witness of C21: an oil pressure warning next to an adblue warning pulses,
and chassis wear of exactly 0.25 next to a battery warning is steady on. -/
theorem warning_indicator_precedence_witness :
    oilWarning.paused = false ∧ defaultConfig.warnings_mic_led = true
    ∧ (loopBody sampleExternals sampleBands defaultConfig oilWarning (clockAt 0)
        initialState).out.microphoneLed = MicLed.PULSE
    ∧ (loopBody sampleExternals sampleBands defaultConfig wornChassis (clockAt 0)
        initialState).out.microphoneLed = MicLed.ON :=
  ⟨rfl, rfl,
    (warning_indicator_precedence sampleExternals sampleBands defaultConfig oilWarning
      (clockAt 0) initialState rfl rfl).1 (Or.inl rfl),
    (warning_indicator_precedence sampleExternals sampleBands defaultConfig wornChassis
      (clockAt 0) initialState rfl rfl).2.1
      (by norm_num [wornChassis, quietTelemetry]) (Or.inr rfl)⟩

/-! ## Fine-alert rumble -/

/-- C22: over 20 consecutive unpaused ticks on which the fine alert is active
within its duration, the counter advances by one per tick, and on each tick the
fine alert drives exactly one motor at strength 200, whatever the elapsed time
and so the flash phase is: the left motor alone when the counter of the tick
(pulseTick) mod 20 is below 10, the right motor alone otherwise, and that
motor of the output record is at least 200. It drives the left motor on
exactly 10 of the 20 ticks and the right motor on exactly 10. -/
theorem fine_rumble_alternation (E : Externals) (k : RpmBands) (config : AppConfig)
    (tels : Nat → Telemetry) (clks : Nat → Clock) (s : LoopState)
    (h : ∀ i < 20, (tels i).paused = false
      ∧ fineRunning config (tels i) (clks i) (runLoop E k config tels clks s i)) :
    (∀ i < 20,
      (runLoop E k config tels clks s i).pulse_timer + 1 = s.pulse_timer + i + 1
      ∧ ((s.pulse_timer + i + 1) % 20 < 10 →
          (afterLightbar E config (tels i) (clks i)
            (runLoop E k config tels clks s i)).out.leftRumble = 200
          ∧ (afterLightbar E config (tels i) (clks i)
            (runLoop E k config tels clks s i)).out.rightRumble = 0
          ∧ 200 ≤ (loopBody E k config (tels i) (clks i)
            (runLoop E k config tels clks s i)).out.leftRumble)
      ∧ (¬ (s.pulse_timer + i + 1) % 20 < 10 →
          (afterLightbar E config (tels i) (clks i)
            (runLoop E k config tels clks s i)).out.leftRumble = 0
          ∧ (afterLightbar E config (tels i) (clks i)
            (runLoop E k config tels clks s i)).out.rightRumble = 200
          ∧ 200 ≤ (loopBody E k config (tels i) (clks i)
            (runLoop E k config tels clks s i)).out.rightRumble))
    ∧ (List.range 20).countP (fun i => decide ((afterLightbar E config (tels i) (clks i)
          (runLoop E k config tels clks s i)).out.leftRumble = 200)) = 10
    ∧ (List.range 20).countP (fun i => decide ((afterLightbar E config (tels i) (clks i)
          (runLoop E k config tels clks s i)).out.rightRumble = 200)) = 10 := by
  have hpt : ∀ i < 20, (runLoop E k config tels clks s i).pulse_timer = s.pulse_timer + i :=
    fun i hi => runLoop_pulse_timer E k config tels clks s i
      (fun j hj => (h j (lt_trans hj hi)).1)
  have one : ∀ i < 20,
      ((s.pulse_timer + i + 1) % 20 < 10 →
        (afterLightbar E config (tels i) (clks i)
          (runLoop E k config tels clks s i)).out.leftRumble = 200
        ∧ (afterLightbar E config (tels i) (clks i)
          (runLoop E k config tels clks s i)).out.rightRumble = 0)
      ∧ (¬ (s.pulse_timer + i + 1) % 20 < 10 →
        (afterLightbar E config (tels i) (clks i)
          (runLoop E k config tels clks s i)).out.leftRumble = 0
        ∧ (afterLightbar E config (tels i) (clks i)
          (runLoop E k config tels clks s i)).out.rightRumble = 200) := by
    intro i hi
    have x := fine_rumble_one_motor E config (tels i) (clks i) _ (h i hi).2
    rw [hpt i hi] at x
    exact x
  refine ⟨fun i hi => ⟨by rw [hpt i hi], ?_, ?_⟩, ?_, ?_⟩
  · intro hlt
    obtain ⟨hl, hr⟩ := (one i hi).1 hlt
    refine ⟨hl, hr, ?_⟩
    rw [(unpaused_rumble E k config (tels i) (clks i) _ (h i hi).1).1, leftRequests]
    simp only [maxRequest_append, ← (afterLightbar_rumble E config (tels i) (clks i) _).1, hl]
    simp
  · intro hge
    obtain ⟨hl, hr⟩ := (one i hi).2 hge
    refine ⟨hl, hr, ?_⟩
    rw [(unpaused_rumble E k config (tels i) (clks i) _ (h i hi).1).2, rightRequests]
    simp only [maxRequest_append, ← (afterLightbar_rumble E config (tels i) (clks i) _).2, hr]
    simp
  · rw [← (half_of_twenty s.pulse_timer).1]
    apply List.countP_congr
    intro i hi
    have hi20 : i < 20 := List.mem_range.mp hi
    by_cases hlt : (s.pulse_timer + i + 1) % 20 < 10
    · simp [hlt, ((one i hi20).1 hlt).1]
    · simp [hlt, ((one i hi20).2 hlt).1]
  · rw [← (half_of_twenty s.pulse_timer).2]
    apply List.countP_congr
    intro i hi
    have hi20 : i < 20 := List.mem_range.mp hi
    by_cases hlt : (s.pulse_timer + i + 1) % 20 < 10
    · simp [hlt, ((one i hi20).1 hlt).2]
    · simp [hlt, ((one i hi20).2 hlt).2]

/-- Witness of C22: 20 ticks of a running fine alert read 1 s after its
start. -/
theorem fine_rumble_alternation_witness :
    (∀ i < 20, quietTelemetry.paused = false
      ∧ fineRunning defaultConfig quietTelemetry (clockAt 1)
          (runLoop sampleExternals sampleBands defaultConfig (fun _ => quietTelemetry)
            (fun _ => clockAt 1) fineActiveState i))
    ∧ (List.range 20).countP (fun i => decide ((afterLightbar sampleExternals defaultConfig
          quietTelemetry (clockAt 1)
          (runLoop sampleExternals sampleBands defaultConfig (fun _ => quietTelemetry)
            (fun _ => clockAt 1) fineActiveState i)).out.leftRumble = 200)) = 10 :=
  ⟨fun i _ => ⟨rfl, (runLoop_steady_fine sampleExternals sampleBands defaultConfig
      quietTelemetry (clockAt 1) fineActiveState rfl rfl rfl rfl
      (by norm_num [clockAt, fineActiveState, initialState, FINE_EFFECT_DURATION_S]) i).2.2.2⟩,
   (fine_rumble_alternation sampleExternals sampleBands defaultConfig (fun _ => quietTelemetry)
      (fun _ => clockAt 1) fineActiveState
      (fun i _ => ⟨rfl, (runLoop_steady_fine sampleExternals sampleBands defaultConfig
        quietTelemetry (clockAt 1) fineActiveState rfl rfl rfl rfl
        (by norm_num [clockAt, fineActiveState, initialState, FINE_EFFECT_DURATION_S])
        i).2.2.2⟩)).2.1⟩

/-! ## Engine cranking -/

/-- C23: on an unpaused tick with engine-start effects enabled at a multiplier
in [0,1], cranking is reported active exactly when the engine is off, the RPM
is above 0 and the RPM is not below the RPM of the previous tick, which every
iteration stores. The cranking stage writes the right motor only: while
cranking it max-combines trunc(200 * multiplier), the truncated `float`
product, into it on ticks whose counter (pulseTick) mod 10 is below 5 and
leaves the output record alone on the other ticks. Over 10 consecutive
cranking ticks the counter advances by one per tick and the right motor is
pulsed on exactly 5 of them. -/
theorem engine_cranking_pulse (E : Externals) (k : RpmBands) (config : AppConfig)
    (tel : Telemetry) (clk : Clock) (s : LoopState) (tels : Nat → Telemetry)
    (clks : Nat → Clock) (hp : tel.paused = false)
    (hen : config.engine_start_effects = true)
    (hm0 : 0 ≤ config.engine_start_multiplier) (hm1 : config.engine_start_multiplier ≤ 1) :
    ((loopBody E k config tel clk s).display.engine_cranking_active = true
      ↔ (tel.engineEnabled = false ∧ tel.engineRpm > 0 ∧ tel.engineRpm ≥ s.previous_rpm))
    ∧ (loopBody E k config tel clk s).st.previous_rpm = tel.engineRpm
    ∧ (∀ w : Work, (crankingStage config tel w).out = { w.out with
          rightRumble := (crankingStage config tel w).out.rightRumble })
    ∧ (∀ w : Work, tel.engineEnabled = false ∧ tel.engineRpm > 0
          ∧ tel.engineRpm ≥ w.st.previous_rpm →
        (w.st.pulse_timer % 10 < 5 →
          (crankingStage config tel w).out.rightRumble
            = max w.out.rightRumble ⌊f32 (200 * config.engine_start_multiplier)⌋₊)
        ∧ (¬ w.st.pulse_timer % 10 < 5 → (crankingStage config tel w).out = w.out))
    ∧ ((∀ i < 10, (tels i).paused = false ∧ (tels i).engineEnabled = false
          ∧ (tels i).engineRpm > 0
          ∧ (tels i).engineRpm ≥ (runLoop E k config tels clks s i).previous_rpm) →
        (∀ i < 10,
          (runLoop E k config tels clks s i).pulse_timer + 1 = s.pulse_timer + i + 1
          ∧ crankingRequest config (tels i) (runLoop E k config tels clks s i)
              = (if (s.pulse_timer + i + 1) % 10 < 5
                  then [⌊f32 (200 * config.engine_start_multiplier)⌋₊] else [])
          ∧ (loopBody E k config (tels i) (clks i)
                (runLoop E k config tels clks s i)).out.rightRumble
              = maxRequest (rightRequests E config (tels i) (clks i)
                  (runLoop E k config tels clks s i)))
        ∧ (List.range 10).countP (fun i => decide (crankingRequest config (tels i)
              (runLoop E k config tels clks s i)
                = [⌊f32 (200 * config.engine_start_multiplier)⌋₊])) = 5) := by
  refine ⟨?_, ?_, ?_, ?_, ?_⟩
  · rw [unpaused_cranking_flag E k config tel clk s hp]
    simp [hen]
  · simp [loopBody, storePrevious]
  · intro w
    simp only [crankingStage]
    split_ifs <;> rfl
  · intro w hc
    have hcast := castU8_scaled 200 config.engine_start_multiplier f32_two_hundred (by norm_num)
      (by norm_num) hm0 hm1
    constructor
    · intro h5
      simp only [crankingStage]
      rw [if_pos ⟨hen, hc⟩, if_pos h5, hcast]
      rfl
    · intro h5
      simp only [crankingStage]
      rw [if_pos ⟨hen, hc⟩, if_neg h5]
  · intro h
    have hpt : ∀ i < 10, (runLoop E k config tels clks s i).pulse_timer = s.pulse_timer + i :=
      fun i hi => runLoop_pulse_timer E k config tels clks s i
        (fun j hj => (h j (lt_trans hj hi)).1)
    have hreq : ∀ i < 10, crankingRequest config (tels i) (runLoop E k config tels clks s i)
        = (if (s.pulse_timer + i + 1) % 10 < 5
            then [⌊f32 (200 * config.engine_start_multiplier)⌋₊] else []) := by
      intro i hi
      rw [crankingRequest_active config (tels i) _ hen hm0 hm1 (h i hi).2, hpt i hi]
    refine ⟨fun i hi => ⟨by rw [hpt i hi], hreq i hi,
      (unpaused_rumble E k config (tels i) (clks i) _ (h i hi).1).2⟩, ?_⟩
    rw [← half_of_ten s.pulse_timer]
    apply List.countP_congr
    intro i hi
    rw [hreq i (List.mem_range.mp hi)]
    by_cases h5 : (s.pulse_timer + i + 1) % 10 < 5 <;> simp [h5]

/-- Witness of C23: the starter turning the engine at 300 RPM from the initial
state at multiplier `0.7f` cranks, the request of the first tick is 140, and
over 10 such ticks the right motor is pulsed on 5. -/
theorem engine_cranking_pulse_witness :
    crankingTelemetry.paused = false
    ∧ (loopBody sampleExternals sampleBands crankAtSeventy crankingTelemetry (clockAt 0)
        initialState).display.engine_cranking_active = true
    ∧ crankingRequest crankAtSeventy crankingTelemetry initialState = [140]
    ∧ (List.range 10).countP (fun i => decide (crankingRequest crankAtSeventy crankingTelemetry
          (runLoop sampleExternals sampleBands crankAtSeventy (fun _ => crankingTelemetry)
            (fun _ => clockAt 0) initialState i)
          = [⌊f32 (200 * crankAtSeventy.engine_start_multiplier)⌋₊])) = 5 := by
  have w := engine_cranking_pulse sampleExternals sampleBands crankAtSeventy crankingTelemetry
      (clockAt 0) initialState (fun _ => crankingTelemetry) (fun _ => clockAt 0) rfl rfl
      seventy_percent.2.2.2.1 seventy_percent.2.2.2.2
  have hc : ∀ i < 10, crankingTelemetry.paused = false ∧ crankingTelemetry.engineEnabled = false
      ∧ crankingTelemetry.engineRpm > 0
      ∧ crankingTelemetry.engineRpm ≥ (runLoop sampleExternals sampleBands crankAtSeventy
          (fun _ => crankingTelemetry) (fun _ => clockAt 0) initialState i).previous_rpm := by
    intro i _
    refine ⟨rfl, rfl, by norm_num [crankingTelemetry, quietTelemetry], ?_⟩
    cases i with
    | zero => norm_num [runLoop, crankingTelemetry, quietTelemetry, initialState]
    | succ n =>
      rw [(runLoop_succ_previous sampleExternals sampleBands crankAtSeventy
        (fun _ => crankingTelemetry) (fun _ => clockAt 0) initialState n).1]
  have v : ⌊f32 (200 * crankAtSeventy.engine_start_multiplier)⌋₊ = 140 := by
    have e : crankAtSeventy.engine_start_multiplier = f32 (7 / 10) := rfl
    rw [e, seventy_percent.2.2.1]
    exact (Nat.floor_eq_iff (by norm_num)).mpr ⟨by norm_num, by norm_num⟩
  have r0 := ((w.2.2.2.2 hc).1 0 (by decide)).2.1
  rw [v] at r0
  refine ⟨rfl, w.1.mpr (by norm_num [crankingTelemetry, quietTelemetry, initialState]), ?_,
    (w.2.2.2.2 hc).2⟩
  rw [show runLoop sampleExternals sampleBands crankAtSeventy (fun _ => crankingTelemetry)
    (fun _ => clockAt 0) initialState 0 = initialState from rfl] at r0
  rw [r0]
  rfl
/-! ## Multiplier options -/

/-- C24: what `parse_bool_or_multiplier` leaves, for every raw string and every
prior pair of `enabled` and `multiplier`. When `std::stof` converts the whole
trimmed string, which is not empty, to a finite number f, the pair is
(multiplier > 0, clamp01(f)): (disabled, 0) for f at or below 0, (enabled, 1)
for f at or above 1 and (enabled, f) in between; the positive infinity gives
(enabled, 1) and the negative one (disabled, 0). When `std::stof` converts the
whole trimmed string to a NaN, as it does for "nan", the pair is
(disabled, NaN): the multiplier is not within [0,1] and the pair is neither
clamped nor left as it was. The pair is left as it was when the trimmed string
is empty, when `std::stof` throws (as on a textual boolean), and when
`std::stof` stops before the end of the trimmed string, whose last character
is not whitespace. -/
theorem multiplier_option_parsing (X : TextExternals) (raw : List Char) (enabled : Bool)
    (multiplier : FloatValue) :
    (try_parse_float X raw
      = if trim_copy X raw = [] then none
        else match X.stof (trim_copy X raw) with
          | none => none
          | some (v, idx) => if idx = (trim_copy X raw).length then some v else none)
    ∧ (∀ f : ℚ, try_parse_float X raw = some (FloatValue.finite f) →
        (f ≤ 0 →
          parse_bool_or_multiplier X raw enabled multiplier = (false, FloatValue.finite 0))
        ∧ (1 ≤ f →
          parse_bool_or_multiplier X raw enabled multiplier = (true, FloatValue.finite 1))
        ∧ (0 < f → f < 1 →
          parse_bool_or_multiplier X raw enabled multiplier = (true, FloatValue.finite f)))
    ∧ (try_parse_float X raw = some (FloatValue.infinity false) →
        parse_bool_or_multiplier X raw enabled multiplier = (true, FloatValue.finite 1))
    ∧ (try_parse_float X raw = some (FloatValue.infinity true) →
        parse_bool_or_multiplier X raw enabled multiplier = (false, FloatValue.finite 0))
    ∧ (try_parse_float X raw = some FloatValue.nan →
        parse_bool_or_multiplier X raw enabled multiplier = (false, FloatValue.nan)
        ∧ (∀ c : ℚ, (parse_bool_or_multiplier X raw enabled multiplier).2
            ≠ FloatValue.finite c)
        ∧ (enabled = true →
            parse_bool_or_multiplier X raw enabled multiplier ≠ (enabled, multiplier)))
    ∧ (try_parse_float X raw = none →
        parse_bool_or_multiplier X raw enabled multiplier = (enabled, multiplier))
    ∧ (trim_copy X raw = [] →
        parse_bool_or_multiplier X raw enabled multiplier = (enabled, multiplier))
    ∧ (X.stof (trim_copy X raw) = none →
        parse_bool_or_multiplier X raw enabled multiplier = (enabled, multiplier))
    ∧ (∀ f idx, X.stof (trim_copy X raw) = some (f, idx) → idx < (trim_copy X raw).length →
        parse_bool_or_multiplier X raw enabled multiplier = (enabled, multiplier)
        ∧ ∃ c ∈ (trim_copy X raw).drop idx, X.isspace c = false)
    ∧ (∀ c, (trim_copy X raw).head? = some c ∨ (trim_copy X raw).getLast? = some c →
        X.isspace c = false) := by
  have key := try_parse_float_eq X raw
  have hfail := parse_failed X raw enabled multiplier
  have hnf := parse_not_finite X raw enabled multiplier
  refine ⟨key, fun f h => parse_finite X raw enabled multiplier f h, hnf.1, hnf.2.1, ?_, hfail,
    ?_, ?_, ?_, ?_⟩
  · intro h
    have hp := hnf.2.2 h
    refine ⟨hp, ?_, ?_⟩
    · intro c
      rw [hp]
      exact fun hc => FloatValue.noConfusion hc
    · intro he hq
      rw [hp, he] at hq
      exact Bool.false_ne_true (congrArg Prod.fst hq)
  · intro h
    apply hfail
    rw [key, if_pos h]
  · intro h
    apply hfail
    rw [key, h]
    split_ifs <;> rfl
  · intro f idx hs hlt
    have hne : trim_copy X raw ≠ [] := by
      intro h0
      rw [h0] at hlt
      exact Nat.not_lt_zero _ hlt
    constructor
    · apply hfail
      rw [key, if_neg hne, hs]
      simp only [if_neg (ne_of_lt hlt)]
    · have hdrop : (trim_copy X raw).drop idx ≠ [] := by
        intro h0
        have := congrArg List.length h0
        simp at this
        omega
      refine ⟨(trim_copy X raw).getLast hne, ?_, trim_copy_last X raw hne⟩
      rw [← List.getLast_drop hdrop]
      exact List.getLast_mem hdrop
  · intro c hc
    rcases hc with hc | hc
    · exact trim_copy_head X raw c hc
    · have hne : trim_copy X raw ≠ [] := by
        intro h0
        rw [h0] at hc
        simp at hc
      rw [List.getLast?_eq_getLast _ hne] at hc
      have := trim_copy_last X raw hne
      rw [Option.some.inj hc] at this
      exact this

/-- Witness of C24: " 0.5 " gives (enabled, 0.5), "2" gives (enabled, 1), "-1"
gives (disabled, 0), " on " and "1abc" leave the pair as it was, and "nan" on
the default pair (enabled, 1) gives (disabled, NaN). -/
theorem multiplier_option_parsing_witness :
    parse_bool_or_multiplier sampleText " 0.5 ".toList false (FloatValue.finite 0)
        = (true, FloatValue.finite (1 / 2))
    ∧ parse_bool_or_multiplier sampleText "2".toList false (FloatValue.finite 0)
        = (true, FloatValue.finite 1)
    ∧ parse_bool_or_multiplier sampleText "-1".toList true (FloatValue.finite 1)
        = (false, FloatValue.finite 0)
    ∧ parse_bool_or_multiplier sampleText " on ".toList true (FloatValue.finite (3 / 4))
        = (true, FloatValue.finite (3 / 4))
    ∧ parse_bool_or_multiplier sampleText "1abc".toList true (FloatValue.finite (3 / 4))
        = (true, FloatValue.finite (3 / 4))
    ∧ try_parse_float sampleText "nan".toList = some FloatValue.nan
    ∧ parse_bool_or_multiplier sampleText "nan".toList true (FloatValue.finite 1)
        = (false, FloatValue.nan) := by
  have t1 : try_parse_float sampleText " 0.5 ".toList = some (FloatValue.finite (1 / 2)) := by
    rw [try_parse_float_eq]; rfl
  have t2 : try_parse_float sampleText "2".toList = some (FloatValue.finite 2) := by
    rw [try_parse_float_eq]; rfl
  have t3 : try_parse_float sampleText "-1".toList = some (FloatValue.finite (-1)) := by
    rw [try_parse_float_eq]; rfl
  have t4 : try_parse_float sampleText "nan".toList = some FloatValue.nan := by
    rw [try_parse_float_eq]; rfl
  exact ⟨((multiplier_option_parsing sampleText " 0.5 ".toList false (FloatValue.finite 0)).2.1
      (1 / 2) t1).2.2 (by norm_num) (by norm_num),
    ((multiplier_option_parsing sampleText "2".toList false (FloatValue.finite 0)).2.1
      2 t2).2.1 (by norm_num),
    ((multiplier_option_parsing sampleText "-1".toList true (FloatValue.finite 1)).2.1
      (-1) t3).1 (by norm_num),
    (multiplier_option_parsing sampleText " on ".toList true
      (FloatValue.finite (3 / 4))).2.2.2.2.2.2.2.1 (by rfl),
    ((multiplier_option_parsing sampleText "1abc".toList true
      (FloatValue.finite (3 / 4))).2.2.2.2.2.2.2.2.1 (FloatValue.finite 1) 1 (by rfl)
      (by decide)).1,
    t4,
    ((multiplier_option_parsing sampleText "nan".toList true
      (FloatValue.finite 1)).2.2.2.2.1 t4).1⟩
/-! ## The tick on which the fine alert expires -/

/-- C25: on the unpaused tick on which an active fine alert is found expired
(the elapsed time the tick reads, a `float` number of seconds, above 5.0, no
new fined edge) the fine-alert branch is the one taken: the lightbar is (0,0,0) whatever the parking brake, the retarder and the
blinkers are, the tick is reported to the display as fine-alert active, and the
alert is inactive afterwards. On the following unpaused tick without a new
edge the lightbar is the colour of the first lower-priority rule that applies,
red for an engaged parking brake, and the display no longer reports the
alert. -/
theorem fine_expiry_tick_is_dark (E : Externals) (k : RpmBands) (config : AppConfig)
    (tel : Telemetry) (clk : Clock) (s : LoopState)
    (hp : tel.paused = false) (hen : config.fine_alert = true)
    (hact : s.is_in_fine_effect = true) (hno : tel.fined = s.previous_fined_state)
    (hel : duration_seconds (clk.fine_elapsed_now - s.fine_effect_start_time) > 5) :
    (loopBody E k config tel clk s).out.lightbar = { r := 0, g := 0, b := 0 }
    ∧ (loopBody E k config tel clk s).display.fine_alert_active = true
    ∧ (loopBody E k config tel clk s).display.fined = true
    ∧ (loopBody E k config tel clk s).st.is_in_fine_effect = false
    ∧ ∀ (tel2 : Telemetry) (clk2 : Clock), tel2.paused = false → tel2.fined = tel.fined →
        (loopBody E k config tel2 clk2 (loopBody E k config tel clk s).st).out.lightbar
            = firstMatch (lightbarRules E config tel2 clk2
                (loopBody E k config tel clk s).st).tail
        ∧ (parkBrakeRule config tel2 →
            (loopBody E k config tel2 clk2 (loopBody E k config tel clk s).st).out.lightbar
              = { r := 255, g := 0, b := 0 })
        ∧ (loopBody E k config tel2 clk2
            (loopBody E k config tel clk s).st).display.fine_alert_active = false := by
  have hstart : fineStart config tel clk s = s.fine_effect_start_time := by
    unfold fineStart fineEdgeSeen
    rw [if_neg (fun h => h.2 hno)]
  have harm : fineArmed config tel s := ⟨hen, Or.inr hact⟩
  have f := loopBody_unpaused_frame E k config tel clk s hp
  have x := afterLightbar_expired E config tel clk s harm
    (by unfold fineElapsed FINE_EFFECT_DURATION_S; rw [hstart]; exact hel)
  have hoff : (loopBody E k config tel clk s).st.is_in_fine_effect = false := by
    rw [f.2.2.1, x.2.1]
  have hflag : (loopBody E k config tel clk s).display.fine_alert_active = true := by
    rw [f.2.2.2.2.2.1, x.2.2]
  refine ⟨?_, hflag, hflag, hoff, ?_⟩
  · rw [f.2.2.2.2.1, x.1]; rfl
  · intro tel2 clk2 hp2 hsame
    have hnot : ¬ fineArmed config tel2 (loopBody E k config tel clk s).st := by
      rintro ⟨_, h | h⟩
      · exact h (by rw [f.2.2.2.2.2.2.2.2, hsame])
      · rw [hoff] at h; exact Bool.false_ne_true h
    have hl := lightbar_lower_rules E k config tel2 clk2 _ hp2 hnot
    have f2 := loopBody_unpaused_frame E k config tel2 clk2 (loopBody E k config tel clk s).st hp2
    refine ⟨hl, ?_, ?_⟩
    · intro hpark
      rw [hl]
      simp [lightbarRules, firstMatch, hpark]
    · rw [f2.2.2.2.2.2.1]
      exact (afterLightbar_idle E config tel2 clk2 _ hnot).2.2

/-- Witness of C25: an alert started at time 0 and read at 6 s while parked
with the engine running, the retarder on and both blinkers on: the lightbar of
that tick is dark, and red on the next one. -/
theorem fine_expiry_tick_is_dark_witness :
    duration_seconds ((clockAt 6).fine_elapsed_now - fineActiveState.fine_effect_start_time) > 5
    ∧ parkBrakeRule defaultConfig parkedHazards
    ∧ (loopBody sampleExternals sampleBands defaultConfig parkedHazards (clockAt 6)
        fineActiveState).out.lightbar = { r := 0, g := 0, b := 0 }
    ∧ (loopBody sampleExternals sampleBands defaultConfig parkedHazards (clockAt 7)
        (loopBody sampleExternals sampleBands defaultConfig parkedHazards (clockAt 6)
          fineActiveState).st).out.lightbar = { r := 255, g := 0, b := 0 } := by
  have h6 : duration_seconds ((clockAt 6).fine_elapsed_now
      - fineActiveState.fine_effect_start_time) > 5 := by
    have e : (clockAt 6).fine_elapsed_now - fineActiveState.fine_effect_start_time = 6 := by
      norm_num [clockAt, fineActiveState, initialState]
    rw [e, duration_seconds_samples.2.2.2.2.1]
    norm_num
  have w := fine_expiry_tick_is_dark sampleExternals sampleBands defaultConfig parkedHazards
    (clockAt 6) fineActiveState rfl rfl rfl rfl h6
  exact ⟨h6, by simp [parkBrakeRule, parkedHazards, defaultConfig], w.1,
    ((w.2.2.2.2 parkedHazards (clockAt 7) rfl rfl).2.1
      (by simp [parkBrakeRule, parkedHazards, defaultConfig]))⟩
/-! ## `map_value` as a clamped interpolation -/

/-- C26: `map_value` is a clamped linear interpolation. For `in_min < in_max`
it is `out_min` at every value at or below `in_min`, `out_max` at every value
at or above `in_max`, the linear interpolation in between, always between
`out_min` and `out_max` inclusive, non-decreasing in the value when
`out_min ≤ out_max` and non-increasing when `out_min ≥ out_max`; for
`in_min = in_max` it is `out_min` for every value. -/
theorem map_value_clamped_interpolation (in_min in_max out_min out_max : ℚ) :
    (in_min < in_max →
      (∀ value, value ≤ in_min → map_value value in_min in_max out_min out_max = out_min)
      ∧ (∀ value, in_max ≤ value → map_value value in_min in_max out_min out_max = out_max)
      ∧ (∀ value, in_min ≤ value → value ≤ in_max →
          map_value value in_min in_max out_min out_max
            = out_min + (value - in_min) * (out_max - out_min) / (in_max - in_min))
      ∧ (∀ value, min out_min out_max ≤ map_value value in_min in_max out_min out_max
          ∧ map_value value in_min in_max out_min out_max ≤ max out_min out_max)
      ∧ (out_min ≤ out_max →
          Monotone (fun value => map_value value in_min in_max out_min out_max))
      ∧ (out_max ≤ out_min →
          Antitone (fun value => map_value value in_min in_max out_min out_max)))
    ∧ (∀ value, map_value value in_min in_min out_min out_max = out_min) := by
  refine ⟨fun hab => ⟨?_, ?_, ?_, ?_, ?_, ?_⟩, fun value => map_value_empty value _ _ _⟩
  · exact fun value hv => map_value_low value _ _ _ _ hab hv
  · exact fun value hv => map_value_high value _ _ _ _ hab hv
  · intro value h1 h2
    rw [map_value_mid value _ _ _ _ hab h1 h2]
    ring
  · intro value
    rcases le_total out_min out_max with h | h
    · rw [min_eq_left h, max_eq_right h]
      exact map_value_bounds value _ _ _ _ h
    · rw [min_eq_right h, max_eq_left h]
      exact map_value_bounds_rev value _ _ _ _ h
  · exact fun hcd v w hvw => map_value_mono _ _ _ _ hab hcd v w hvw
  · exact fun hdc v w hvw => map_value_anti _ _ _ _ hab hdc v w hvw

/-- Witness of C26: the brake-trigger map from 0..90 to 0..200 is 0 at -5,
200 at 120 and 100 at 45, and the refuel map from 0..100 to 255..0 is
non-increasing. -/
theorem map_value_clamped_interpolation_witness :
    (0 : ℚ) < 90
    ∧ map_value (-5) 0 90 0 200 = 0
    ∧ map_value 120 0 90 0 200 = 200
    ∧ map_value 45 0 90 0 200 = 0 + (45 - 0) * (200 - 0) / (90 - 0)
    ∧ Antitone (fun value => map_value value 0 100 255 0) :=
  ⟨by norm_num,
    ((map_value_clamped_interpolation 0 90 0 200).1 (by norm_num)).1 (-5) (by norm_num),
    ((map_value_clamped_interpolation 0 90 0 200).1 (by norm_num)).2.1 120 (by norm_num),
    ((map_value_clamped_interpolation 0 90 0 200).1 (by norm_num)).2.2.1 45 (by norm_num)
      (by norm_num),
    ((map_value_clamped_interpolation 0 100 255 0).1 (by norm_num)).2.2.2.2.2 (by norm_num)⟩

end ETS2
